import Mathlib

/-!
# Verification of the RPGMaker-MV-Viewer decoding core

A shallow embedding, in Lean, of the decoding and normalization pipeline of
the viewer: the RGSS archive reader (`viewer/rgss_archive.py`), the MV/MZ
resource decryptor (`viewer/mv_mz_resource_unpack.py`), the VX schema
adapter (`viewer/vx_adapter.py`), the data loader (`viewer/data_loader.py`),
the database lookups (`viewer/database.py`) and the event interpreter
(`viewer/interpreter.py`), together with theorems settling the testable
properties stated in the specification.

Modelling conventions:
* machine integers are `Nat` with explicit `% 2^32` where the Python code
  masks with `0xFFFFFFFF`; byte strings are `List Nat` of values `< 256`;
* Python dictionaries are association lists (first match wins on lookup,
  insertion replaces an existing binding, as a `dict` does);
* dynamic Python values are the inductive `Val`; where the Python code
  would raise `TypeError`/`AttributeError` on a value of an unexpected
  shape, the embedding returns the neutral value of the operation instead;
  every claim below concerns inputs on which the Python code runs without
  such type errors;
* the vendored ruby-marshal deserializer is an external collaborator per
  the specification; it enters the theorems as an abstract function
  parameter, as does the byte-to-text charset-fallback decoder;
* filesystem reads are abstracted to explicit byte lists / finite maps.
-/

namespace RpgViewer

/-- 2^32, the modulus of all 32-bit key arithmetic in the archive code. -/
def u32Mod : Nat := 4294967296

/-- `_u32` from `rgss_archive.py`: truncate to 32 bits. -/
def u32 (value : Nat) : Nat := value % u32Mod

/-- The running-key advance `key = (key*7+3) mod 2^32` shared by the
version-1/2 index cipher and the entry payload cipher. -/
def advanceKey (key : Nat) : Nat := u32 (key * 7 + 3)

/-- Little-endian 4-byte encoding of a 32-bit value (`struct.pack("<I", k)`). -/
def u32ToLE (k : Nat) : List Nat :=
  [k % 256, k / 256 % 256, k / 65536 % 256, k / 16777216 % 256]

/-- Little-endian decoding of (the first) 4 bytes (`struct.unpack("<I", raw)`). -/
def leToU32 (bs : List Nat) : Nat :=
  match bs with
  | b0 :: b1 :: b2 :: b3 :: _ => b0 + 256 * b1 + 65536 * b2 + 16777216 * b3
  | _ => 0

/-- Byte `i % 4` of the little-endian encoding of a 32-bit key, i.e.
`(key >> (8 * (i % 4))) & 0xFF`. -/
def keyByte (key i : Nat) : Nat := key / 256 ^ (i % 4) % 256

/-- `f.seek(pos); f.read(len)` over an in-memory file. -/
def readAt (bytes : List Nat) (pos len : Nat) : List Nat :=
  (bytes.drop pos).take len

/-! ## Dynamic Python values

`Val` models the JSON-like Python values flowing between the adapter, the
loader, the database and the interpreter: `None`, `bool`, `int`, `str`,
`list` and `dict`. Floats do not occur on any path used by the claims. -/

inductive Val where
  | none : Val
  | bool (b : Bool) : Val
  | int (n : Int) : Val
  | str (s : String) : Val
  | list (xs : List Val) : Val
  | dict (kvs : List (Val × Val)) : Val
  deriving Repr, Inhabited

/- Structural equality of dynamic values, the model of Python `==` on the
values under study (dict keys on every studied path are ints or strings,
where Python `==` is exactly structural equality). -/
mutual

def Val.beq : Val → Val → Bool
  | .none, .none => true
  | .bool a, .bool b => a == b
  | .int a, .int b => a == b
  | .str a, .str b => a == b
  | .list xs, .list ys => Val.beqList xs ys
  | .dict xs, .dict ys => Val.beqPairs xs ys
  | _, _ => false

def Val.beqList : List Val → List Val → Bool
  | [], [] => true
  | x :: xs, y :: ys => Val.beq x y && Val.beqList xs ys
  | _, _ => false

def Val.beqPairs : List (Val × Val) → List (Val × Val) → Bool
  | [], [] => true
  | (k1, v1) :: xs, (k2, v2) :: ys =>
      Val.beq k1 k2 && Val.beq v1 v2 && Val.beqPairs xs ys
  | _, _ => false

end

instance : BEq Val := ⟨Val.beq⟩

/-- Python truthiness: `None`, `False`, `0`, `""`, `[]`, `{}` are falsy. -/
def pyTruthy : Val → Bool
  | .none => false
  | .bool b => b
  | .int n => n != 0
  | .str s => !(s == "")
  | .list xs => !xs.isEmpty
  | .dict kvs => !kvs.isEmpty

/-- Python `a or b` (returns `a` when truthy, else `b`). -/
def pyOr (a b : Val) : Val := if pyTruthy a then a else b

/-- Python `==` against an integer literal (`True == 1`, `False == 0`). -/
def pyEqInt (v : Val) (m : Int) : Bool :=
  match v with
  | .int n => n == m
  | .bool b => (if b then (1 : Int) else 0) == m
  | _ => false


/-- `str.strip()` at character level (kernel-reducible, unlike
`String.trim`). -/
def pyStrip (s : String) : String :=
  ⟨(s.data.dropWhile Char.isWhitespace).reverse.dropWhile Char.isWhitespace
    |>.reverse⟩

/-- Digit-string accumulator for `int(s)`. -/
def digitsToNat : List Char → Nat → Option Nat
  | [], acc => some acc
  | c :: cs, acc =>
      if c.isDigit then digitsToNat cs (acc * 10 + (c.toNat - 48))
      else Option.none

/-- `int(s)` on an optionally signed digit string (kernel-reducible
replacement for `String.toInt?`). -/
def pyStrToInt (s : String) : Option Int :=
  match s.data with
  | [] => Option.none
  | ['-'] => Option.none
  | ['+'] => Option.none
  | '-' :: rest => (digitsToNat rest 0).map (fun n => -(n : Int))
  | '+' :: rest => (digitsToNat rest 0).map (fun n => (n : Int))
  | l => (digitsToNat l 0).map (fun n => (n : Int))

/-- `s.startswith(pre)` at character level. -/
def strStartsWith (s pre : String) : Bool :=
  pre.data.isPrefixOf s.data

/-- `s.endswith(suf)` at character level. -/
def strEndsWith (s suf : String) : Bool :=
  suf.data.isSuffixOf s.data

/-- `s[:-n]` at character level. -/
def strDropRight (s : String) (n : Nat) : String :=
  ⟨s.data.take (s.data.length - n)⟩

/-- `s[n:]` at character level. -/
def strDropLeft (s : String) (n : Nat) : String :=
  ⟨s.data.drop n⟩

/-- Association-list lookup, the semantics of `dict.get(key, default)`. -/
def assocGet (kvs : List (Val × Val)) (key : Val) : Option Val :=
  match kvs with
  | [] => Option.none
  | (k, v) :: rest => if k == key then some v else assocGet rest key

/-- Association-list insertion with replacement, the semantics of
`d[key] = value` on a Python `dict`. -/
def assocSet (kvs : List (Val × Val)) (key value : Val) : List (Val × Val) :=
  match kvs with
  | [] => [(key, value)]
  | (k, v) :: rest =>
      if k == key then (k, value) :: rest else (k, v) :: assocSet rest key value

/-- `obj.get(name, default)` for a string key; non-dicts yield the default
(the Python code only calls `.get` on dicts on the paths under study). -/
def pyGetD (v : Val) (name : String) (default : Val) : Val :=
  match v with
  | .dict kvs => (assocGet kvs (.str name)).getD default
  | _ => default

/-- `d[key] = value` on a `Val` dict; non-dicts are returned unchanged. -/
def pySetKey (v : Val) (name : String) (value : Val) : Val :=
  match v with
  | .dict kvs => .dict (assocSet kvs (.str name) value)
  | _ => v

/-- `len(p)` of a list value (`0` for non-lists). -/
def pyLen : Val → Nat
  | .list xs => xs.length
  | _ => 0

/-- `p[i] if len(p) > i else d`: the guarded positional access used all
over the interpreter. -/
def pAt (p : Val) (i : Nat) (d : Val) : Val :=
  match p with
  | .list xs => if h : i < xs.length then xs.get ⟨i, h⟩ else d
  | _ => d

/-- `p[0] if p else d` (truthy-guarded head access). -/
def pHead (p : Val) (d : Val) : Val :=
  match p with
  | .list (x :: _) => x
  | _ => d

/-- The elements iterated by `for x in v` (lists only; the code under
study only iterates lists). -/
def pyElems : Val → List Val
  | .list xs => xs
  | _ => []

/-- Python `str()` of the values that occur on the studied paths. The
rendering of `list`/`dict` values is best effort; no claim depends on it. -/
def pyStr : Val → String
  | .none => "None"
  | .bool b => if b then "True" else "False"
  | .int n => toString n
  | .str s => s
  | .list _ => "[...]"
  | .dict _ => "{...}"

/-- `_to_int`-style coercion of a dynamic value with a default: Python
`int(value)` succeeds on ints, bools and numeric strings. -/
def valToInt (v : Val) (default : Int) : Int :=
  match v with
  | .int n => n
  | .bool b => if b then 1 else 0
  | .str s => (pyStrToInt (pyStrip s)).getD default
  | _ => default

/-! ## `viewer/rgss_archive.py`: the RGSS archive reader

Entry names are modelled as raw byte lists. The Python code decodes the
name bytes as UTF-8 (`errors="replace"`) and canonicalizes the resulting
string; for the ASCII names the format uses, the string operations
(`replace("/", "\\")`, `strip()`, `lower()`) act byte-by-byte, which is how
they are modelled here. -/

/-- One step of `_canonical`: `/` becomes `\`, ASCII uppercase becomes
lowercase (the byte-level action of `replace("/", "\\")` then `lower()`). -/
def canonicalByte (b : Nat) : Nat :=
  if b = 47 then 92 else if 65 ≤ b ∧ b ≤ 90 then b + 32 else b

/-- ASCII whitespace, the characters removed by `str.strip()`. -/
def isSpaceByte (b : Nat) : Bool :=
  b = 32 || b = 9 || b = 10 || b = 13 || b = 11 || b = 12

/-- `str.strip()` at byte level. -/
def stripBytes (l : List Nat) : List Nat :=
  (l.dropWhile isSpaceByte).reverse.dropWhile isSpaceByte |>.reverse

/-- `_canonical` from `rgss_archive.py`:
`path.replace("/", "\\").strip().lower()` at byte level. -/
def canonicalName (l : List Nat) : List Nat :=
  stripBytes (l.map canonicalByte)

/-- A string as its byte list (faithful for the ASCII entry names and
queries used by the loader). -/
def strBytes (s : String) : List Nat := s.data.map Char.toNat

/-- `RgssArchiveEntry`. -/
structure RgssArchiveEntry where
  name : List Nat
  offset : Nat
  size : Nat
  data_key : Nat
  deriving Repr

/-- `b"RGSSAD"`. -/
def rgssMagic : List Nat := [82, 71, 83, 83, 65, 68]

/-- `enumerate`d XOR against the little-endian bytes of a fixed 32-bit
key: byte `i` is XORed with `(key >> (8 * ((start+i) % 4))) & 0xFF`. -/
def xorKeyBytes (key : Nat) : Nat → List Nat → List Nat
  | _, [] => []
  | i, b :: rest => (b ^^^ keyByte key i) :: xorKeyBytes key (i + 1) rest

/-- The payload cipher of `_read_and_decrypt`: 4-byte groups are XORed
with the little-endian bytes of the running key, which then advances by
`key = (key*7+3) mod 2^32`; the trailing `size mod 4` bytes are XORed with
byte `pos mod 4` of the current key, which advances no further. -/
def rgssCrypt (key : Nat) : List Nat → List Nat
  | b0 :: b1 :: b2 :: b3 :: rest =>
      (b0 ^^^ keyByte key 0) :: (b1 ^^^ keyByte key 1) ::
      (b2 ^^^ keyByte key 2) :: (b3 ^^^ keyByte key 3) ::
      rgssCrypt (advanceKey key) rest
  | tail => xorKeyBytes key 0 tail

/-- `_read_and_decrypt`: seek to the entry's offset, read `size` bytes
(failing when the file is too short) and run the payload cipher from the
entry's `data_key`. -/
def read_and_decrypt (bytes : List Nat) (entry : RgssArchiveEntry) :
    Except String (List Nat) :=
  let data := readAt bytes entry.offset entry.size
  if data.length ≠ entry.size then .error "归档数据读取失败"
  else .ok (rgssCrypt entry.data_key data)

/-- The record loop of `_parse_v3_index`. A record shorter than 16 bytes
ends the loop (`break`), a decoded offset of 0 ends the loop, and a name
field that cannot be read in full is a data-invalid error. `fuel` only
bounds the recursion; `parse_v3_index` supplies enough for any input. -/
def parseV3Loop (bytes : List Nat) (magicKey : Nat) :
    Nat → Nat → Except String (List RgssArchiveEntry)
  | _, 0 => .error "fuel"
  | pos, fuel + 1 =>
      let raw := readAt bytes pos 16
      if raw.length < 16 then .ok []
      else
        let offset := leToU32 raw ^^^ magicKey
        if offset = 0 then .ok []
        else
          let size := leToU32 (raw.drop 4) ^^^ magicKey
          let data_key := leToU32 (raw.drop 8) ^^^ magicKey
          let name_len := leToU32 (raw.drop 12) ^^^ magicKey
          let name_enc := readAt bytes (pos + 16) name_len
          if name_enc.length ≠ name_len then
            .error "RGSS3 归档索引损坏: 文件名长度不匹配"
          else
            let name := xorKeyBytes magicKey 0 name_enc
            let entry : RgssArchiveEntry :=
              { name := name, offset := offset, size := size, data_key := data_key }
            (parseV3Loop bytes magicKey (pos + 16 + name_len) fuel).map (entry :: ·)

/-- `_parse_v3_index`: read the 4-byte seed, derive
`magicKey = (seed*9+3) mod 2^32` and run the record loop from position 12. -/
def parse_v3_index (bytes : List Nat) : Except String (List RgssArchiveEntry) :=
  let key_raw := readAt bytes 8 4
  if key_raw.length ≠ 4 then .error "RGSS3 归档头损坏: 缺少主密钥"
  else
    let magic_key := u32 (leToU32 key_raw * 9 + 3)
    parseV3Loop bytes magic_key 12 (bytes.length + 1)

/-- The name-byte decryption loop of `_parse_v1_v2_index`: each byte is
XORed with `key & 0xFF` and the key advances after every byte. Returns the
decrypted bytes and the final key. -/
def v12DecryptName (key : Nat) : List Nat → List Nat × Nat
  | [] => ([], key)
  | b :: rest =>
      let (tail, k) := v12DecryptName (advanceKey key) rest
      ((b ^^^ key % 256) :: tail, k)

/-- The record loop of `_parse_v1_v2_index`, returning the entries in file
order. Reading starts while the position is inside the file; a short
name-length field, short name or short size field is a data-invalid error;
a decoded name length of 0 ends the loop. The entry's offset is the
position after its size field and its `data_key` is the running key after
the size field's advance; the loop then skips `size` payload bytes. -/
def parseV12Loop (bytes : List Nat) :
    Nat → Nat → Nat → Except String (List RgssArchiveEntry)
  | _, _, 0 => .error "fuel"
  | key, pos, fuel + 1 =>
      if pos < bytes.length then
        let name_len_raw := readAt bytes pos 4
        if name_len_raw.length = 0 then .ok []
        else if name_len_raw.length < 4 then
          .error "RGSS 归档索引损坏: 文件名长度字段不完整"
        else
          let name_len := leToU32 name_len_raw ^^^ key
          let key := advanceKey key
          if name_len = 0 then .ok []
          else
            let name_enc := readAt bytes (pos + 4) name_len
            if name_enc.length ≠ name_len then
              .error "RGSS 归档索引损坏: 文件名内容不完整"
            else
              let (name, key) := v12DecryptName key name_enc
              let size_raw := readAt bytes (pos + 4 + name_len) 4
              if size_raw.length < 4 then
                .error "RGSS 归档索引损坏: 文件大小字段不完整"
              else
                let size := leToU32 size_raw ^^^ key
                let key := advanceKey key
                let offset := pos + 4 + name_len + 4
                let entry : RgssArchiveEntry :=
                  { name := name, offset := offset, size := size, data_key := key }
                (parseV12Loop bytes key (offset + size) fuel).map (entry :: ·)
      else .ok []

/-- `_parse_v1_v2_index`: the fixed initial key is `0xDEADCAFE` and the
loop starts right after the 8-byte header. -/
def parse_v1_v2_index (bytes : List Nat) : Except String (List RgssArchiveEntry) :=
  parseV12Loop bytes 3735931646 8 (bytes.length + 1)

/-- A parsed archive: the raw file bytes, the version byte and the parsed
entry records in file order. -/
structure RgssArchiveT where
  bytes : List Nat
  version : Nat
  records : List RgssArchiveEntry
  deriving Repr

/-- The entry dictionary `self._entries`: records are inserted in order
keyed by their canonical name, later records replacing earlier ones with
the same key, exactly as the Python `dict` assignment does. -/
def rgssEntries (a : RgssArchiveT) : List (List Nat × RgssArchiveEntry) :=
  a.records.foldl (fun acc e => insertEntry acc (canonicalName e.name) e) []
where
  insertEntry : List (List Nat × RgssArchiveEntry) → List Nat →
      RgssArchiveEntry → List (List Nat × RgssArchiveEntry)
    | [], key, e => [(key, e)]
    | (k, v) :: rest, key, e =>
        if k = key then (k, e) :: rest else (k, v) :: insertEntry rest key e

/-- Lookup in the entry dictionary. -/
def findEntry (entries : List (List Nat × RgssArchiveEntry)) (key : List Nat) :
    Option RgssArchiveEntry :=
  match entries with
  | [] => Option.none
  | (k, v) :: rest => if k = key then some v else findEntry rest key

/-- `_parse_index` + `RgssArchive.__init__`: check the 6-byte magic, skip
the reserved byte, read the version byte (failing when absent), and parse
the version-specific index. Unsupported versions are data-invalid. -/
def parse_index (bytes : List Nat) : Except String RgssArchiveT :=
  if readAt bytes 0 6 ≠ rgssMagic then .error "不是有效 RGSS 归档"
  else
    match readAt bytes 7 1 with
    | [] => .error "RGSS 归档头损坏"
    | version :: _ =>
        if version = 3 then
          (parse_v3_index bytes).map fun rs =>
            { bytes := bytes, version := version, records := rs }
        else if version = 1 ∨ version = 2 then
          (parse_v1_v2_index bytes).map fun rs =>
            { bytes := bytes, version := version, records := rs }
        else .error "不支持的 RGSS 归档版本"

/-- `has_entry`. -/
def has_entry (a : RgssArchiveT) (name : List Nat) : Bool :=
  (findEntry (rgssEntries a) (canonicalName name)).isSome

/-- `read_entry`: canonical lookup, `KeyError` when the entry is absent,
then `_read_and_decrypt`. -/
def read_entry (a : RgssArchiveT) (name : List Nat) : Except String (List Nat) :=
  match findEntry (rgssEntries a) (canonicalName name) with
  | Option.none => .error "KeyError"
  | some entry => read_and_decrypt a.bytes entry

/-! ## The version-3 archive builder

Modelled from the spec: the writer side of the version-3 container format
is not part of the repository (only the reader is), so the builder below
follows §4.1 of the specification word for word: 6-byte magic, reserved
byte, version byte 3, the 4-byte seed, 16-byte index records of four
little-endian uint32 fields (offset, size, dataKey, nameLen) each XORed
with `magicKey = (seed*9+3) mod 2^32`, the name bytes XORed with the
little-endian bytes of `magicKey`, an offset-0 terminator record, and the
payload encrypted with the version-3 payload cipher (which is its own
inverse, so encryption is `rgssCrypt`). -/

/-- The encrypted name bytes: byte `i` XORed with byte `i mod 4` of the
little-endian encoding of `magicKey`. -/
def encodeV3Name (magicKey : Nat) (name : List Nat) : List Nat :=
  xorKeyBytes magicKey 0 name

/-- One 16-byte version-3 index record, fields XORed with `magicKey`. -/
def v3Record (magicKey offset size dataKey nameLen : Nat) : List Nat :=
  u32ToLE (offset ^^^ magicKey) ++ u32ToLE (size ^^^ magicKey) ++
  u32ToLE (dataKey ^^^ magicKey) ++ u32ToLE (nameLen ^^^ magicKey)

/-- A version-3 archive holding a single entry: header, seed, one index
record, the encrypted name, the offset-0 terminator record, then the
encrypted payload at offset `44 + name.length`. -/
def buildV3Archive (seed dataKey : Nat) (name payload : List Nat) : List Nat :=
  let magicKey := u32 (seed * 9 + 3)
  rgssMagic ++ [0, 3] ++ u32ToLE seed ++
  v3Record magicKey (44 + name.length) payload.length dataKey name.length ++
  encodeV3Name magicKey name ++
  v3Record magicKey 0 0 0 0 ++
  rgssCrypt dataKey payload

/-! ## `viewer/mv_mz_resource_unpack.py`: the MV/MZ resource decryptor -/

/-- `_FAKE_HEADER`: `bytes.fromhex("5250474d56000000" + "000301" + "0000000000")`. -/
def fakeHeader : List Nat :=
  [0x52, 0x50, 0x47, 0x4d, 0x56, 0, 0, 0, 0, 3, 1, 0, 0, 0, 0, 0]

/-- The XOR loop of `decrypt_resource_file`:
`for i in range(min(16, len(payload), len(key_bytes))): payload[i] ^= key_bytes[i]`.
The recursion stops when 16 bytes are done, the payload ends or the key
ends, which is exactly the `min`; later payload bytes are untouched. -/
def xorHeadBytes : Nat → List Nat → List Nat → List Nat
  | 0, payload, _ => payload
  | _ + 1, [], _ => []
  | _, payload, [] => payload
  | n + 1, b :: payload, k :: key => (b ^^^ k) :: xorHeadBytes n payload key

/-- `decrypt_resource_file` (pure core): fail when the file is not longer
than the 16-byte fake header; check the header when `verifyHeader` is set;
XOR the first `min(16, len(payload), len(key))` payload bytes with the key. -/
def decrypt_resource_file (content keyBytes : List Nat) (verifyHeader : Bool) :
    Except String (List Nat) :=
  if content.length ≤ 16 then .error "文件过短，无法解密"
  else
    let fake_header := content.take 16
    let payload := content.drop 16
    if verifyHeader && fake_header ≠ fakeHeader then .error "文件头校验失败"
    else .ok (xorHeadBytes 16 payload keyBytes)

/-- ASCII hex digit test (`0-9a-fA-F`). -/
def isHexDigit (c : Char) : Bool :=
  (48 ≤ c.toNat && c.toNat ≤ 57) || (97 ≤ c.toNat && c.toNat ≤ 102) ||
  (65 ≤ c.toNat && c.toNat ≤ 70)

/-- Value of an ASCII hex digit. -/
def hexDigitVal (c : Char) : Nat :=
  if c.toNat ≤ 57 then c.toNat - 48
  else if c.toNat ≤ 70 then c.toNat - 55
  else c.toNat - 87

/-- `bytes.fromhex` on an even-length string of plain hex digits. -/
def hexToBytes : List Char → List Nat
  | c1 :: c2 :: rest => (hexDigitVal c1 * 16 + hexDigitVal c2) :: hexToBytes rest
  | _ => []

/-- ASCII lowercase of a string (`str.lower()` on the hex keys in use). -/
def lowerStr (s : String) : String :=
  ⟨s.data.map Char.toLower⟩

/-- `load_encryption_key` (pure core): given the parsed `System.json`
value (`Option.none` when the file is missing or unparsable), require a
dict, read `encryptionKey`, coerce to a string, strip it, and reject the
empty string, odd lengths and non-hex characters; return the lowercased
key. -/
def load_encryption_key (systemJson : Option Val) : Option String :=
  match systemJson with
  | Option.none => Option.none
  | some raw =>
      match raw with
      | .dict _ =>
          let key := pyStrip (pyStr (pyOr (pyGetD raw "encryptionKey" (.str "")) (.str "")))
          if key = "" then Option.none
          else if key.length % 2 ≠ 0 then Option.none
          else if !(key.data.all isHexDigit) then Option.none
          else some (lowerStr key)
      | _ => Option.none

/-- `PrepareResult`. -/
structure PrepareResult where
  status : String
  method : String
  message : String
  processed_files : Nat
  failed_files : Nat
  deriving Repr

/-- The per-file loop of `prepare_resources`: each file's decryption is
independent; successes and failures are counted, never aborting the batch.
Files are given by their contents; the write side is not modelled. -/
def countDecrypts (files : List (List Nat)) (keyBytes : List Nat) : Nat × Nat :=
  files.foldl
    (fun (acc : Nat × Nat) content =>
      match decrypt_resource_file content keyBytes true with
      | .ok _ => (acc.1 + 1, acc.2)
      | .error _ => (acc.1, acc.2 + 1))
    (0, 0)

/-- `prepare_resources` (pure core): `encryptedFiles` are the contents of
the files found by `scan_encrypted_resources`, `systemJson` the parsed
system-configuration file (if found), `hasNwPak` whether `nw.pak` exists,
and `javaRunner` the external decryption collaborator's result when such a
collaborator was supplied. Output paths are not modelled. -/
def prepare_resources (encryptedFiles : List (List Nat)) (systemJson : Option Val)
    (hasNwPak : Bool) (javaRunner : Option (Bool × String)) : PrepareResult :=
  if encryptedFiles.isEmpty then
    { status := "not_needed", method := "none"
      message :=
        if hasNwPak then "检测到 nw.pak，但当前阶段不支持 nw.pak 通用解包。"
        else "未检测到 MV/MZ 加密资源，无需解包。"
      processed_files := 0, failed_files := 0 }
  else
    match load_encryption_key systemJson with
    | some key_text =>
        let key_bytes := hexToBytes key_text.data
        let (processed, failed) := countDecrypts encryptedFiles key_bytes
        if failed = 0 then
          { status := "python_ok", method := "python"
            message := "已使用 Python 解包 " ++ toString processed ++ " 个资源到缓存。"
            processed_files := processed, failed_files := failed }
        else
          let python_error :=
            "Python 解包部分失败（成功 " ++ toString processed ++ " / 失败 " ++
              toString failed ++ "）"
          finishWithJava python_error processed failed javaRunner
    | Option.none =>
        finishWithJava "System.json 缺少 encryptionKey，Python 解包不可用" 0 0 javaRunner
where
  /-- The common tail of `prepare_resources`: try the Java collaborator if
  one was supplied, else report failure. -/
  finishWithJava (python_error : String) (processed failed : Nat)
      (javaRunner : Option (Bool × String)) : PrepareResult :=
    match javaRunner with
    | some (ok, msg) =>
        if ok then
          { status := "java_ok", method := "java", message := msg
            processed_files := processed, failed_files := failed }
        else
          { status := "failed", method := "none"
            message := python_error ++ "；" ++ msg
            processed_files := processed, failed_files := failed }
    | Option.none =>
        { status := "failed", method := "none"
          message := python_error ++ "；检测到资源封包但无法解包（缺少 Java Decrypter）"
          processed_files := processed, failed_files := failed }

/-! ## `viewer/vx_adapter.py`: the VX/VX Ace schema adapter

`RVal` models the eight value shapes the external object-graph
deserializer can produce (spec §6): nil, booleans, integers, raw byte
strings, decoded strings, symbols, typed objects (class name + named
attributes), opaque user-defined blobs (class name + private bytes),
associative mappings and arrays. The byte-to-text charset-fallback decoder
(`_decode_bytes`) is external; it is threaded through as `dec`. -/

inductive RVal where
  | nil : RVal
  | bool (b : Bool) : RVal
  | int (n : Int) : RVal
  | bytes (bs : List Nat) : RVal
  | str (s : String) : RVal
  | symbol (s : String) : RVal
  | userdef (className : String) (privData : List Nat) : RVal
  | robj (className : String) (attrs : List (String × RVal)) : RVal
  | dict (kvs : List (RVal × RVal)) : RVal
  | list (xs : List RVal) : RVal
  deriving Repr, Inhabited

/-- `_to_int` over deserializer values: `int(value)` succeeds on ints,
bools and numeric strings; anything else falls back to the default. -/
def rvalToInt (v : RVal) (default : Int) : Int :=
  match v with
  | .int n => n
  | .bool b => if b then 1 else 0
  | .str s => (pyStrToInt (pyStrip s)).getD default
  | _ => default

/-- `_to_bool` = Python `bool(value)`. -/
def rvalToBool : RVal → Bool
  | .nil => false
  | .bool b => b
  | .int n => n != 0
  | .bytes bs => !bs.isEmpty
  | .str s => !(s == "")
  | .symbol _ => true
  | .userdef _ _ => true
  | .robj _ _ => true
  | .dict kvs => !kvs.isEmpty
  | .list xs => !xs.isEmpty

/-- Python `str()` of a deserializer value (best effort beyond the string
shapes; no claim depends on the non-string renderings). -/
def rvalStr (dec : List Nat → String) : RVal → String
  | .nil => "None"
  | .bool b => if b then "True" else "False"
  | .int n => toString n
  | .bytes bs => dec bs
  | .str s => s
  | .symbol s => s
  | .userdef c _ => c
  | .robj c _ => c
  | .dict _ => "{...}"
  | .list _ => "[...]"

/-- `_as_text`: bytes are charset-decoded, Ruby strings pass through,
`None` is the empty string, anything else is `str(value)`. -/
def as_text (dec : List Nat → String) : RVal → String
  | .bytes bs => dec bs
  | .str s => s
  | .nil => ""
  | v => rvalStr dec v

/-- String lookup in a deserialized associative mapping (the keys on the
studied paths are decoded strings). -/
def rAssocGet (kvs : List (RVal × RVal)) (name : String) : Option RVal :=
  match kvs with
  | [] => Option.none
  | (.str s, v) :: rest => if s = name then some v else rAssocGet rest name
  | _ :: rest => rAssocGet rest name

/-- `_attr`: attribute lookup on a typed object or an associative
mapping; any other shape yields the default. -/
def attr (obj : RVal) (name : String) (default : Option RVal) : Option RVal :=
  match obj with
  | .robj _ attrs =>
      match attrs.lookup name with
      | some v => some v
      | Option.none => default
  | .dict kvs =>
      match rAssocGet kvs name with
      | some v => some v
      | Option.none => default
  | _ => default

/-- `_first_attr`: try an ordered list of attribute-name aliases, taking
the first name bound to a non-`None` value, else the default. -/
def first_attr (obj : RVal) (names : List String) (default : Option RVal) :
    Option RVal :=
  match names with
  | [] => default
  | name :: rest =>
      match attr obj name Option.none with
      | some v => if v matches .nil then first_attr obj rest default else some v
      | Option.none => first_attr obj rest default

/-- `first_attr` with an `RVal` default, as most call sites use it. -/
def firstAttrD (obj : RVal) (names : List String) (default : RVal) : RVal :=
  (first_attr obj names (some default)).getD default

/-- A signed little-endian 16-bit sample (`struct` format `h`). -/
def leToI16 (b0 b1 : Nat) : Int :=
  let x := b0 + 256 * b1
  if x < 32768 then (x : Int) else (x : Int) - 65536

/-- Pairwise decoding of `n` 16-bit samples. -/
def decodeI16Samples : Nat → List Nat → List Int
  | 0, _ => []
  | _, [] => []
  | _, [_] => []
  | n + 1, b0 :: b1 :: rest => leToI16 b0 b1 :: decodeI16Samples n rest

/-- `_decode_table`: a 20-byte header of five little-endian uint32 values
(the last one the element count) followed by little-endian 16-bit signed
samples; a short blob recomputes the count from the remaining bytes. -/
def decode_table (privData : List Nat) : List Int :=
  if privData.length < 20 then []
  else
    let size := leToU32 (privData.drop 16)
    if size = 0 then []
    else
      let size := if privData.length < 20 + size * 2 then (privData.length - 20) / 2
                  else size
      if size = 0 then [] else decodeI16Samples size (privData.drop 20)

/-- Rebuild an ordered pair list as a Python dict: assign left to right,
later duplicate keys replacing earlier ones in place. -/
def buildDict (pairs : List (Val × Val)) : List (Val × Val) :=
  pairs.foldl (fun acc (kv : Val × Val) => assocSet acc kv.1 kv.2) []

mutual

/-- `_to_plain`: recursively turn a deserializer value into a plain
JSON-like value: bytes decode to text, symbols to their names, `Table`
blobs to their sample list, other user-defined blobs to `None`, typed
objects to dicts with the `@` attribute prefix stripped. Dicts are built
left to right, later duplicate keys replacing earlier ones, as Python dict
assignment does. -/
def to_plain (dec : List Nat → String) : RVal → Val
  | .bytes bs => .str (dec bs)
  | .str s => .str s
  | .symbol s => .str s
  | .userdef c priv =>
      if c = "Table" then .list ((decode_table priv).map Val.int) else .none
  | .robj _ attrs => .dict (buildDict (toPlainAttrs dec attrs))
  | .dict kvs => .dict (buildDict (toPlainPairs dec kvs))
  | .list xs => .list (toPlainList dec xs)
  | .nil => .none
  | .bool b => .bool b
  | .int n => .int n

/-- The key/value pairs of a typed object's attribute dict, in attribute
order, the `@` prefix stripped from each name. -/
def toPlainAttrs (dec : List Nat → String) :
    List (String × RVal) → List (Val × Val)
  | [] => []
  | (key, v) :: rest =>
      let name := if strStartsWith key "@" then strDropLeft key 1 else key
      (Val.str name, to_plain dec v) :: toPlainAttrs dec rest

/-- The key/value pairs of a plain associative mapping, both sides made
plain, in mapping order. -/
def toPlainPairs (dec : List Nat → String) :
    List (RVal × RVal) → List (Val × Val)
  | [] => []
  | (k, v) :: rest =>
      (to_plain dec k, to_plain dec v) :: toPlainPairs dec rest

def toPlainList (dec : List Nat → String) : List RVal → List Val
  | [] => []
  | v :: rest => to_plain dec v :: toPlainList dec rest

end

/-- `_convert_command_list`: keep only typed-object/dict entries, each
becoming `{"code": int, "indent": int, "parameters": plain-or-[]}`. -/
def convert_command_list (dec : List Nat → String) (rawList : RVal) : List Val :=
  match rawList with
  | .list cmds => cmds.filterMap fun cmd =>
      match cmd with
      | .robj _ _ | .dict _ =>
          some (.dict (buildDict
            [(.str "code", .int (rvalToInt (firstAttrD cmd ["@code", "code"] (.int 0)) 0)),
             (.str "indent", .int (rvalToInt (firstAttrD cmd ["@indent", "indent"] (.int 0)) 0)),
             (.str "parameters",
              pyOr (to_plain dec (firstAttrD cmd ["@parameters", "parameters"] (.list [])))
                (.list []))]))
      | _ => Option.none
  | _ => []

/-- `_convert_condition`. -/
def convert_condition (dec : List Nat → String) (rawCond : RVal) : Val :=
  .dict (buildDict
    [(.str "switch1Valid", .bool (rvalToBool (firstAttrD rawCond ["@switch1_valid", "switch1Valid"] (.bool false)))),
     (.str "switch2Valid", .bool (rvalToBool (firstAttrD rawCond ["@switch2_valid", "switch2Valid"] (.bool false)))),
     (.str "variableValid", .bool (rvalToBool (firstAttrD rawCond ["@variable_valid", "variableValid"] (.bool false)))),
     (.str "selfSwitchValid", .bool (rvalToBool (firstAttrD rawCond ["@self_switch_valid", "selfSwitchValid"] (.bool false)))),
     (.str "itemValid", .bool (rvalToBool (firstAttrD rawCond ["@item_valid", "itemValid"] (.bool false)))),
     (.str "actorValid", .bool (rvalToBool (firstAttrD rawCond ["@actor_valid", "actorValid"] (.bool false)))),
     (.str "switch1Id", .int (rvalToInt (firstAttrD rawCond ["@switch1_id", "switch1Id"] (.int 0)) 0)),
     (.str "switch2Id", .int (rvalToInt (firstAttrD rawCond ["@switch2_id", "switch2Id"] (.int 0)) 0)),
     (.str "variableId", .int (rvalToInt (firstAttrD rawCond ["@variable_id", "variableId"] (.int 0)) 0)),
     (.str "variableValue", .int (rvalToInt (firstAttrD rawCond ["@variable_value", "variableValue"] (.int 0)) 0)),
     (.str "selfSwitchCh", .str (as_text dec (firstAttrD rawCond ["@self_switch_ch", "selfSwitchCh"] (.str "A")))),
     (.str "itemId", .int (rvalToInt (firstAttrD rawCond ["@item_id", "itemId"] (.int 0)) 0)),
     (.str "actorId", .int (rvalToInt (firstAttrD rawCond ["@actor_id", "actorId"] (.int 0)) 0))])

/-- `_convert_page_image`. -/
def convert_page_image (dec : List Nat → String) (rawPage : RVal) : Val :=
  let graphic := firstAttrD rawPage ["@graphic", "graphic"] .nil
  let character_name := as_text dec (firstAttrD graphic ["@character_name", "character_name", "characterName"] (.str ""))
  .dict (buildDict
    [(.str "tileId", .int (rvalToInt (firstAttrD graphic ["@tile_id", "tile_id", "tileId"] (.int 0)) 0)),
     (.str "characterName", .str character_name),
     (.str "characterIndex", .int (rvalToInt (firstAttrD graphic ["@character_index", "character_index", "characterIndex"] (.int 0)) 0)),
     (.str "direction", .int (rvalToInt (firstAttrD graphic ["@direction", "direction"] (.int 2)) 2)),
     (.str "pattern", .int (rvalToInt (firstAttrD graphic ["@pattern", "pattern"] (.int 0)) 0)),
     (.str "isBigCharacter", .bool (strStartsWith character_name "$")),
     (.str "faceName", .str ""),
     (.str "faceIndex", .int 0)])

/-- `_convert_page`. -/
def convert_page (dec : List Nat → String) (rawPage : RVal) : Val :=
  .dict (buildDict
    [(.str "trigger", .int (rvalToInt (firstAttrD rawPage ["@trigger", "trigger"] (.int 0)) 0)),
     (.str "conditions", convert_condition dec (firstAttrD rawPage ["@condition", "conditions"] (.dict []))),
     (.str "image", convert_page_image dec rawPage),
     (.str "list", .list (convert_command_list dec (firstAttrD rawPage ["@list", "list"] (.list []))))])

/-- `_convert_event`. -/
def convert_event (dec : List Nat → String) (rawEvt : RVal) : Val :=
  let pages :=
    match firstAttrD rawEvt ["@pages", "pages"] (.list []) with
    | .list pagesRaw => pagesRaw.filterMap fun rawPage =>
        if rawPage matches .nil then Option.none else some (convert_page dec rawPage)
    | _ => []
  .dict (buildDict
    [(.str "id", .int (rvalToInt (firstAttrD rawEvt ["@id", "id"] (.int 0)) 0)),
     (.str "name", .str (as_text dec (firstAttrD rawEvt ["@name", "name"] (.str "")))),
     (.str "x", .int (rvalToInt (firstAttrD rawEvt ["@x", "x"] (.int 0)) 0)),
     (.str "y", .int (rvalToInt (firstAttrD rawEvt ["@y", "y"] (.int 0)) 0)),
     (.str "pages", .list pages)])

/-- The id under which `_convert_event_dict_to_list` files one raw
mapping entry: `_to_int(key, _to_int(evt.get("id", 0)))`. -/
def eventKeyId (key : RVal) (evt : Val) : Int :=
  rvalToInt key (valToInt (pyGetD evt "id" (.int 0)) 0)

/-- `parsed[key] = value` on the integer-keyed accumulation dict. -/
def intAssocSet : List (Int × Val) → Int → Val → List (Int × Val)
  | [], key, v => [(key, v)]
  | (k, w) :: rest, key, v =>
      if k = key then (k, v) :: rest else (k, w) :: intAssocSet rest key v

/-- One step of the `parsed`/`max_id` accumulation loop of
`_convert_event_dict_to_list`: entries with a non-positive id are skipped,
`parsed[evt_id] = evt` replaces like a dict assignment, and `max_id`
tracks the largest id. -/
def eventDictStep (dec : List Nat → String) (acc : List (Int × Val) × Nat)
    (kv : RVal × RVal) : List (Int × Val) × Nat :=
  let evt0 := convert_event dec kv.2
  let evtId := eventKeyId kv.1 evt0
  let evt := pySetKey evt0 "id" (.int evtId)
  if evtId ≤ 0 then acc
  else (intAssocSet acc.1 evtId evt, max acc.2 evtId.toNat)

/-- The accumulation loop of `_convert_event_dict_to_list`. -/
def eventDictFold (dec : List Nat → String) (kvs : List (RVal × RVal)) :
    List (Int × Val) × Nat :=
  kvs.foldl (eventDictStep dec) ([], 0)

/-- Lookup in the `parsed` mapping. -/
def intAssocGet (kvs : List (Int × Val)) (key : Int) : Option Val :=
  match kvs with
  | [] => Option.none
  | (k, v) :: rest => if k = key then some v else intAssocGet rest key

/-- `_convert_event_dict_to_list`: non-dicts yield `[]`; otherwise a dense
array of length `max_id + 1` whose slot `i` holds the converted event
filed under id `i`, every other slot (index 0 included) holding `None`. -/
def convert_event_dict_to_list (dec : List Nat → String) (rawEvents : RVal) :
    List Val :=
  match rawEvents with
  | .dict kvs =>
      let pm := eventDictFold dec kvs
      (List.range (pm.2 + 1)).map fun i : Nat =>
        (intAssocGet pm.1 (↑i : Int)).getD .none
  | _ => []

/-- `_convert_map_infos`: non-dicts yield `[]`; typed-object/dict values
with a positive integer key become `{"id", "name", "parentId", "order"}`
records in a dense array of length `max_id + 1`, other slots `None`. -/
def convert_map_infos (dec : List Nat → String) (raw : RVal) : List Val :=
  match raw with
  | .dict kvs =>
      let step := fun (acc : List (Int × Val) × Nat) (kv : RVal × RVal) =>
        match kv.2 with
        | .robj _ _ | .dict _ =>
            let mapId := rvalToInt kv.1 0
            if mapId ≤ 0 then acc
            else
              let info : Val := .dict (buildDict
                [(.str "id", .int mapId),
                 (.str "name", .str (as_text dec
                    (firstAttrD kv.2 ["@name", "name"] (.str ("地图#" ++ toString mapId))))),
                 (.str "parentId", .int (rvalToInt
                    (firstAttrD kv.2 ["@parent_id", "parent_id", "@parentId", "parentId"] (.int 0)) 0)),
                 (.str "order", .int (rvalToInt (firstAttrD kv.2 ["@order", "order"] (.int 0)) 0))])
              (intAssocSet acc.1 mapId info, max acc.2 mapId.toNat)
        | _ => acc
      let (parsed, maxId) := kvs.foldl step ([], 0)
      (List.range (maxId + 1)).map fun i => (intAssocGet parsed i).getD .none
  | _ => []

/-- `Path(logical_name).stem.lower()` for the plain file names the loader
passes (no directory part). -/
def pathStemLower (s : String) : String :=
  let chars := s.data
  let stem := if chars.contains '.' then (chars.reverse.dropWhile (· ≠ '.')).drop 1 |>.reverse
              else chars
  lowerStr ⟨stem⟩

/-- `VXDataAdapter.adapt`, restricted to the dispatch branches a claim
exercises (`MapInfos`); the remaining table converters are not needed by
any claim and are not modelled, their branches yielding `None` here. -/
def vxAdapterAdapt (dec : List Nat → String) (logicalName : String) (rawObj : RVal) :
    Val :=
  let stem := pathStemLower logicalName
  if stem = "mapinfos" then .list (convert_map_infos dec rawObj)
  else .none

/-! ## `viewer/data_loader.py`: the per-project loader (VX path) -/

/-- A located VX source: an on-disk file or an archive entry name. -/
inductive VxSource where
  | disk (path : String) : VxSource
  | archiveEntry (name : String) : VxSource
  deriving Repr

/-- `_vx_candidates`: `X.json` maps to `[X.rvdata2, X.rvdata]`; an
`.rvdata2`/`.rvdata` name stands alone; anything else gets both suffixes
appended. (The basename step is the identity for the plain names used.) -/
def vx_candidates (filename : String) : List String :=
  let lower := lowerStr filename
  if strEndsWith lower ".json" then
    let base := strDropRight filename 5
    [base ++ ".rvdata2", base ++ ".rvdata"]
  else if strEndsWith lower ".rvdata2" || strEndsWith lower ".rvdata" then [filename]
  else [filename ++ ".rvdata2", filename ++ ".rvdata"]

/-- `_locate_vx_source`: first a same-named sibling file on disk for each
candidate, then — when an archive is attached — the archive under
`Data\`-prefixed (two case variants) and bare entry names. -/
def locate_vx_source (diskHas : String → Bool) (archive : Option RgssArchiveT)
    (filename : String) : Option VxSource :=
  let cands := vx_candidates filename
  match cands.find? diskHas with
  | some path => some (.disk path)
  | Option.none =>
      match archive with
      | Option.none => Option.none
      | some a =>
          let names := cands.flatMap fun c => ["Data\\" ++ c, "data\\" ++ c, c]
          match names.find? (fun n => has_entry a (strBytes n)) with
          | some n => some (.archiveEntry n)
          | Option.none => Option.none

/-- `_load_vx_data` on a fresh loader: locate the source, read its bytes
(from disk or decrypted from the archive), deserialize via the external
object-graph reader `marshal`, and adapt; any failure yields `None`. -/
def load_vx_data (dec : List Nat → String) (marshal : List Nat → Option RVal)
    (diskRead : String → Option (List Nat)) (archive : Option RgssArchiveT)
    (filename : String) : Option Val :=
  match locate_vx_source (fun p => (diskRead p).isSome) archive filename with
  | Option.none => Option.none
  | some (.disk path) =>
      match diskRead path with
      | Option.none => Option.none
      | some bs => (marshal bs).map (fun r => vxAdapterAdapt dec filename r)
  | some (.archiveEntry name) =>
      match archive with
      | Option.none => Option.none
      | some a =>
          match read_entry a (strBytes name) with
          | .error _ => Option.none
          | .ok bs => (marshal bs).map (fun r => vxAdapterAdapt dec filename r)

/-- `DataLoader.load_json` for a VX-engine loader on its first call (the
per-filename cache is a pure memoization and starts empty). -/
def load_json_vx (dec : List Nat → String) (marshal : List Nat → Option RVal)
    (diskRead : String → Option (List Nat)) (archive : Option RgssArchiveT)
    (filename : String) : Option Val :=
  load_vx_data dec marshal diskRead archive filename

/-! ## `viewer/database.py`: name maps and lookups -/

/-- `str.strip()` of a dynamic value, `None` when Python would raise
`AttributeError` (non-string value). -/
def pyStripStr (v : Val) : Option String :=
  match v with
  | .str s => some (pyStrip s)
  | _ => Option.none

/-- `build_name_map`: ignore non-lists; keep dict items carrying an
`"id"`; the name is the stripped `"name"` (a non-string name raises, which
the `Option` models); an empty name falls back to `fallback#id`. `dict`
insertion replaces duplicates. -/
def build_name_map (jsonData : Val) (fallback : String) :
    Option (List (Val × String)) :=
  match jsonData with
  | .list items =>
      items.foldlM
        (fun (acc : List (Val × String)) item =>
          match item with
          | .dict _ =>
              if pyTruthy item then
                match assocGetOpt item "id" with
                | Option.none => some acc
                | some itemId =>
                    match pyStripStr (pyGetD item "name" (.str "")) with
                    | Option.none => Option.none
                    | some itemName =>
                        let name := if itemName ≠ "" then itemName
                                    else fallback ++ "#" ++ pyStr itemId
                        some (strAssocSet acc itemId name)
              else some acc
          | _ => some acc)
        []
  | _ => some []
where
  /-- `item.get("id")` with no default (`None` when absent). -/
  assocGetOpt (item : Val) (name : String) : Option Val :=
    match item with
    | .dict kvs =>
        match assocGet kvs (.str name) with
        | some v => if v matches .none then Option.none else some v
        | Option.none => Option.none
    | _ => Option.none
  strAssocSet : List (Val × String) → Val → String → List (Val × String)
    | [], key, v => [(key, v)]
    | (k, w) :: rest, key, v =>
        if k == key then (k, v) :: rest else (k, w) :: strAssocSet rest key v

/-- `build_switch_var_map`: index 0 is skipped; stripped non-empty string
names are kept, everything else becomes `prefix#idx`. The keys are the
integer indices; never raises. -/
def build_switch_var_map (jsonArray : Val) (fallbackTag : String) :
    List (Val × String) :=
  match jsonArray with
  | .list names =>
      (names.foldl
        (fun (acc : List (Val × String) × Nat) name =>
          let idx := acc.2
          if idx = 0 then (acc.1, idx + 1)
          else
            let entry :=
              match name with
              | .str s => if pyStrip s ≠ "" then pyStrip s else fallbackTag ++ "#" ++ toString idx
              | _ => fallbackTag ++ "#" ++ toString idx
            (acc.1 ++ [(Val.int idx, entry)], idx + 1))
        ([], 0)).1
  | _ => []

/-- The loaded database state (`DatabaseManager.__init__`). -/
structure Db where
  items : List (Val × String)
  weapons : List (Val × String)
  armors : List (Val × String)
  enemies : List (Val × String)
  skills : List (Val × String)
  states : List (Val × String)
  troops : List (Val × String)
  item_types : List (Val × Val)
  switches : List (Val × String)
  varNames : List (Val × String)
  map_infos : Val
  common_events : Val
  common_event_names : List (Val × String)
  raw_troops : Val
  tilesets : Val
  deriving Inhabited

/-- Lookup with Python `==` key matching in a name map. -/
def nameMapGet (kvs : List (Val × String)) (key : Val) : Option String :=
  match kvs with
  | [] => Option.none
  | (k, v) :: rest => if k == key then some v else nameMapGet rest key

/-- `loader.load_json(name) or []`. -/
def loadOrEmptyList (f : String → Option Val) (name : String) : Val :=
  match f name with
  | some v => pyOr v (.list [])
  | Option.none => .list []

/-- The `item_types` accumulation of `DatabaseManager.__init__`. -/
def buildItemTypes (rawItems : Val) : List (Val × Val) :=
  (pyElems rawItems).foldl
    (fun acc item =>
      match item with
      | .dict kvs =>
          if pyTruthy item then
            match assocGet kvs (.str "id") with
            | some iid =>
                if iid matches .none then acc
                else assocSet acc iid (pyGetD item "itypeId" (.int 1))
            | Option.none => acc
          else acc
      | _ => acc)
    []

/-- `DatabaseManager.__init__` over a loader function `f` (the result of
`loader.load_json`, `Option.none` modelling Python `None`): load the raw
tables, build the name maps and the switch/variable maps. `Option.none`
models a constructor raising on malformed data. -/
def mkDatabase (f : String → Option Val) : Option Db := do
  let raw_items := loadOrEmptyList f "Items.json"
  let raw_weapons := loadOrEmptyList f "Weapons.json"
  let raw_armors := loadOrEmptyList f "Armors.json"
  let raw_enemies := loadOrEmptyList f "Enemies.json"
  let raw_skills := loadOrEmptyList f "Skills.json"
  let raw_states := loadOrEmptyList f "States.json"
  let raw_troops := loadOrEmptyList f "Troops.json"
  let items ← build_name_map raw_items "未知物品"
  let weapons ← build_name_map raw_weapons "未知武器"
  let armors ← build_name_map raw_armors "未知防具"
  let enemies ← build_name_map raw_enemies "未知敌人"
  let skills ← build_name_map raw_skills "技能"
  let states ← build_name_map raw_states "状态"
  let troops ← build_name_map raw_troops "敌群"
  let systemData := (f "System.json").getD .none
  let (switches, varNames) ←
    if pyTruthy systemData then
      match systemData with
      | .dict _ =>
          some (build_switch_var_map (pyGetD systemData "switches" (.list [])) "开关",
                build_switch_var_map (pyGetD systemData "variables" (.list [])) "变量")
      | _ => Option.none
    else some ([], [])
  let map_infos := loadOrEmptyList f "MapInfos.json"
  let common_events := loadOrEmptyList f "CommonEvents.json"
  let common_event_names ← build_name_map common_events "公共事件"
  let tilesets := loadOrEmptyList f "Tilesets.json"
  some
    { items := items, weapons := weapons, armors := armors, enemies := enemies
      skills := skills, states := states, troops := troops
      item_types := buildItemTypes raw_items
      switches := switches, varNames := varNames
      map_infos := map_infos, common_events := common_events
      common_event_names := common_event_names
      raw_troops := raw_troops, tilesets := tilesets }

/-- `get_item_name`. -/
def get_item_name (db : Db) (itemId : Val) : String :=
  (nameMapGet db.items itemId).getD ("未知物品#" ++ pyStr itemId)

/-- `get_weapon_name`. -/
def get_weapon_name (db : Db) (weaponId : Val) : String :=
  (nameMapGet db.weapons weaponId).getD ("未知武器#" ++ pyStr weaponId)

/-- `get_armor_name`. -/
def get_armor_name (db : Db) (armorId : Val) : String :=
  (nameMapGet db.armors armorId).getD ("未知防具#" ++ pyStr armorId)

/-- `get_enemy_name`. -/
def get_enemy_name (db : Db) (enemyId : Val) : String :=
  (nameMapGet db.enemies enemyId).getD ("敌人#" ++ pyStr enemyId)

/-- `get_switch_name`. -/
def get_switch_name (db : Db) (switchId : Val) : String :=
  (nameMapGet db.switches switchId).getD ("开关#" ++ pyStr switchId)

/-- `get_variable_name`. -/
def get_variable_name (db : Db) (varId : Val) : String :=
  (nameMapGet db.varNames varId).getD ("变量#" ++ pyStr varId)

/-- `get_skill_name`. -/
def get_skill_name (db : Db) (sid : Val) : String :=
  (nameMapGet db.skills sid).getD ("技能#" ++ pyStr sid)

/-- `get_state_name`. -/
def get_state_name (db : Db) (sid : Val) : String :=
  (nameMapGet db.states sid).getD ("状态#" ++ pyStr sid)

/-- `get_troop_name`. -/
def get_troop_name (db : Db) (troopId : Val) : String :=
  (nameMapGet db.troops troopId).getD ("敌群#" ++ pyStr troopId)

/-- `get_common_event_name`. -/
def get_common_event_name (db : Db) (ceId : Val) : String :=
  (nameMapGet db.common_event_names ceId).getD ("公共事件#" ++ pyStr ceId)

/-- `get_map_name`: scan the map-info list for a truthy dict whose
`"id"` equals the requested id; found entries yield their `"name"` value
(the fallback string as the `get` default), everything else the fallback. -/
def get_map_name (db : Db) (mapId : Val) : Val :=
  let fallback : Val := .str ("地图#" ++ pyStr mapId)
  match db.map_infos with
  | .list infos =>
      match infos.find? (fun info =>
          pyTruthy info && (info matches .dict _) &&
          (pyGetD info "id" .none == mapId)) with
      | some info => pyGetD info "name" fallback
      | Option.none => fallback
  | _ => fallback

/-- `get_troop`: first truthy dict in the raw troop list with a matching
`"id"`. -/
def get_troop (db : Db) (troopId : Val) : Option Val :=
  match db.raw_troops with
  | .list ts =>
      ts.find? (fun t =>
        pyTruthy t && (t matches .dict _) && (pyGetD t "id" .none == troopId))
  | _ => Option.none

/-- `is_key_item`: `item_types.get(item_id) == 2`. -/
def is_key_item (db : Db) (itemId : Val) : Bool :=
  match assocGet db.item_types itemId with
  | some v => v == .int 2
  | Option.none => false

/-! ## `viewer/interpreter.py`: the event interpreter

The interpreter instance state is `InterpState`: the database reference
plus the mutable map context (`set_map_context`/`clear_map_context`).
Output command lines (the dicts built by `_interpret_commands`) are the
structure `CmdLine`; cross-reference records stay `Val` dicts because the
story-page pass mutates them by key. -/

structure InterpState where
  db : Db
  current_map_id : Val := .none
  current_map_name : Val := .none
  current_encounters : Option (List Val) := Option.none
  current_encounter_step : Val := .none

/-- One output line of `_interpret_commands`. -/
structure CmdLine where
  indent : Val
  text : String
  cls : String
  refs : List Val
  deriving Repr, Inhabited

/-- The result of `_translate`: an optional text (a `None`/empty text
drops the line), a CSS class and an optional reference list (`[]` for the
two-tuple returns; `[ref] if ref else None` and `[]` behave alike under
the `if refs:` guard). -/
structure TResult where
  text : Option String
  cls : String
  refs : List Val := []
  deriving Repr, Inhabited

/-- `v + n` for the arithmetic the formatter does on parameters (`eidx+1`
and the like); Python raises `TypeError` on non-numeric operands, where
this model returns the operand unchanged. -/
def pyAddInt (v : Val) (n : Int) : Val :=
  match v with
  | .int m => .int (m + n)
  | .bool b => .int ((if b then 1 else 0) + n)
  | _ => v

/-- `v >= n`; Python raises on un-ordered operands, modelled as `false`. -/
def pyGeInt (v : Val) (n : Int) : Bool :=
  match v with
  | .int m => n ≤ m
  | .bool b => n ≤ (if b then 1 else 0)
  | _ => false

/-- Unguarded `xs[i]` on a list value (the `tone[0]` style accesses whose
lists carry defaults); out-of-range or non-list yields `None` where
Python would raise. -/
def tAt (v : Val) (i : Nat) : Val :=
  match v with
  | .list xs => xs.getD i .none
  | _ => .none

/-- `_make_item_ref`: `None` when the kind, id or name is falsy. -/
def make_item_ref (kind iid : Val) (name : String) : Option Val :=
  if !pyTruthy kind || !pyTruthy iid || name = "" then Option.none
  else some (.dict (buildDict [(.str "kind", kind), (.str "id", iid), (.str "name", .str name)]))

/-- The `counts`/`hidden` accumulation of `_make_troop_ref`. -/
def troopMemberCounts (members : List Val) : List (Val × (Nat × Nat)) :=
  members.foldl
    (fun acc m =>
      match m with
      | .dict _ =>
          let eid := pyGetD m "enemyId" (.int 0)
          if !pyTruthy eid then acc
          else
            let isHidden := pyTruthy (pyGetD m "hidden" .none)
            bump acc eid isHidden
      | _ => acc)
    []
where
  bump : List (Val × (Nat × Nat)) → Val → Bool → List (Val × (Nat × Nat))
    | [], eid, h => [(eid, (1, if h then 1 else 0))]
    | (k, (c, hc)) :: rest, eid, h =>
        if k == eid then (k, (c + 1, hc + (if h then 1 else 0))) :: rest
        else (k, (c, hc)) :: bump rest eid h

/-- The integer sort key of `enemies.sort(key=lambda x: x["id"])` (ids on
real data are ints; Python would raise on mixed types). -/
def enemySortKey (e : Val) : Int :=
  match pyGetD e "id" .none with
  | .int n => n
  | _ => 0

/-- `_make_troop_ref`: `None` for a falsy troop id; otherwise a dict with
kind `"troop"`, the per-enemy counts (hidden members counted separately)
sorted ascending by enemy id, and the battle flags. -/
def make_troop_ref (st : InterpState) (troopId method : Val)
    (canEscape canLose : Bool) : Option Val :=
  if !pyTruthy troopId then Option.none
  else
    let troop := get_troop st.db troopId
    let name := get_troop_name st.db troopId
    let enemies :=
      match troop with
      | some t =>
          let members := pyElems (pyOr (pyGetD t "members" .none) (.list []))
          let counts := troopMemberCounts members
          let es := counts.map fun (kv : Val × Nat × Nat) =>
            Val.dict (buildDict
              [(.str "id", kv.1),
               (.str "name", .str (get_enemy_name st.db kv.1)),
               (.str "count", .int kv.2.1),
               (.str "hidden", .int kv.2.2)])
          es.mergeSort (fun a b => enemySortKey a ≤ enemySortKey b)
      | Option.none => []
    let methodLabel :=
      if pyEqInt method 0 then "指定敌群"
      else if pyEqInt method 1 then "变量指定"
      else if pyEqInt method 2 then "随机遇敌"
      else "战斗"
    some (.dict (buildDict
      [(.str "kind", .str "troop"),
       (.str "id", troopId),
       (.str "name", .str name),
       (.str "method", method),
       (.str "methodLabel", .str methodLabel),
       (.str "canEscape", .bool canEscape),
       (.str "canLose", .bool canLose),
       (.str "enemies", .list enemies)]))

/-- `_make_encounter_ref`: `None` without map context. -/
def make_encounter_ref (st : InterpState) (canEscape canLose : Bool) :
    Option Val :=
  match st.current_encounters with
  | Option.none => Option.none
  | some encs =>
      some (.dict (buildDict
        [(.str "kind", .str "encounter"),
         (.str "name", .str "随机遇敌"),
         (.str "mapId", st.current_map_id),
         (.str "mapName", st.current_map_name),
         (.str "encounterStep", st.current_encounter_step),
         (.str "canEscape", .bool canEscape),
         (.str "canLose", .bool canLose),
         (.str "encounters", .list encs)]))

/-- `_build_map_encounters`. -/
def build_map_encounters (st : InterpState) (mapData : Val) : List Val :=
  match mapData with
  | .dict _ =>
      (pyElems (pyOr (pyGetD mapData "encounterList" .none) (.list []))).foldl
        (fun acc e =>
          match e with
          | .dict _ =>
              let tid := pyGetD e "troopId" (.int 0)
              if !pyTruthy tid then acc
              else
                let troopRef := make_troop_ref st tid (.int 0) false false
                acc ++ [Val.dict (buildDict
                  [(.str "troopId", tid),
                   (.str "troopName", .str (get_troop_name st.db tid)),
                   (.str "weight", pyGetD e "weight" (.int 1)),
                   (.str "regionSet", pyOr (pyGetD e "regionSet" .none) (.list [])),
                   (.str "enemies",
                    match troopRef with
                    | some r => pyGetD r "enemies" .none
                    | Option.none => .list [])])]
          | _ => acc)
        []
  | _ => []

/-- `set_map_context`. -/
def set_map_context (st : InterpState) (mapId mapName mapData : Val) :
    InterpState :=
  { st with
    current_map_id := mapId
    current_map_name := mapName
    current_encounter_step :=
      match mapData with
      | .dict _ => pyGetD mapData "encounterStep" .none
      | _ => .none
    current_encounters := some (build_map_encounters st mapData) }

/-- `clear_map_context`. -/
def clear_map_context (st : InterpState) : InterpState :=
  { st with
    current_map_id := .none
    current_map_name := .none
    current_encounters := Option.none
    current_encounter_step := .none }

/-- `_fmt_switch`. -/
def fmt_switch (st : InterpState) (p : Val) : String :=
  let sw_s := pAt p 0 (.int 0)
  let sw_e := if pyLen p > 1 then pAt p 1 .none else sw_s
  let v := if pyEqInt (pAt p 2 (.int 0)) 0 then "ON" else "OFF"
  if sw_s == sw_e then "[开关] " ++ get_switch_name st.db sw_s ++ " = " ++ v
  else
    "[开关] " ++ get_switch_name st.db sw_s ++ " ~ " ++
      get_switch_name st.db sw_e ++ " = " ++ v

/-- `_fmt_variable`. -/
def fmt_variable (st : InterpState) (p : Val) : String :=
  if pyLen p < 4 then "[变量] 参数不足"
  else
    let vs := pAt p 0 .none
    let ve := pAt p 1 .none
    let op_i := pAt p 2 .none
    let op_t := pAt p 3 .none
    let op :=
      if pyEqInt op_i 0 then "=" else if pyEqInt op_i 1 then "+="
      else if pyEqInt op_i 2 then "-=" else if pyEqInt op_i 3 then "*="
      else if pyEqInt op_i 4 then "/=" else if pyEqInt op_i 5 then "%=" else "?="
    let vn :=
      if vs == ve then get_variable_name st.db vs
      else get_variable_name st.db vs ++ " ~ " ++ get_variable_name st.db ve
    if pyEqInt op_t 0 then
      "[变量] " ++ vn ++ " " ++ op ++ " " ++ pyStr (pAt p 4 (.int 0))
    else if pyEqInt op_t 1 then
      "[变量] " ++ vn ++ " " ++ op ++ " 变量[" ++
        get_variable_name st.db (pAt p 4 (.int 0)) ++ "]"
    else if pyEqInt op_t 2 then
      "[变量] " ++ vn ++ " " ++ op ++ " 随机(" ++ pyStr (pAt p 4 (.int 0)) ++
        "~" ++ pyStr (pAt p 5 (.int 0)) ++ ")"
    else "[变量] " ++ vn ++ " " ++ op ++ " (类型" ++ pyStr op_t ++ ")"

/-- `_fmt_gold`. -/
def fmt_gold (st : InterpState) (p : Val) : String :=
  let op := pAt p 0 (.int 0)
  let op_t := pAt p 1 (.int 0)
  let val := pAt p 2 (.int 0)
  let sign := if pyEqInt op 0 then "+" else "-"
  if pyEqInt op_t 0 then "[金币] " ++ sign ++ pyStr val
  else "[金币] " ++ sign ++ "变量[" ++ get_variable_name st.db val ++ "]的值"

/-- `_fmt_item`. -/
def fmt_item (p : Val) (label : String) (nameOf : Val → String) (kind : String) :
    String × Option Val :=
  let iid := pAt p 0 (.int 0)
  let op := pAt p 1 (.int 0)
  let op_t := pAt p 2 (.int 0)
  let val := pAt p 3 (.int 1)
  let sign := if pyEqInt op 0 then "+" else "-"
  let name := nameOf iid
  let text :=
    if pyEqInt op_t 0 then
      "[" ++ label ++ "] " ++ name ++ " x" ++ sign ++ pyStr val
    else "[" ++ label ++ "] " ++ name ++ " x" ++ sign ++ "变量值"
  (text, make_item_ref (.str kind) iid name)

/-- `_fmt_transfer`. -/
def fmt_transfer (st : InterpState) (p : Val) : String × Option Val :=
  let method := pAt p 0 (.int 0)
  if pyEqInt method 0 then
    let mid := pAt p 1 (.int 0)
    let x := pAt p 2 (.int 0)
    let y := pAt p 3 (.int 0)
    let name := get_map_name st.db mid
    let text := "[传送] → " ++ pyStr name ++ "(ID:" ++ pyStr mid ++ ") (" ++
      pyStr x ++ "," ++ pyStr y ++ ")"
    let ref : Val := .dict (buildDict
      [(.str "kind", .str "transfer"), (.str "name", name),
       (.str "mapId", mid), (.str "mapName", name),
       (.str "x", x), (.str "y", y)])
    (text, some ref)
  else ("[传送] → 变量指定位置", Option.none)

/-- `_parse_conditional`. -/
def parse_conditional (st : InterpState) (p : Val) : String :=
  if !pyTruthy p then "[条件] (未知)"
  else
    let ct := pHead p .none
    if pyEqInt ct 0 then
      let sid := pAt p 1 (.int 0)
      let v := if pyEqInt (pAt p 2 (.int 0)) 0 then "ON" else "OFF"
      "[条件] 开关[" ++ get_switch_name st.db sid ++ "] == " ++ v
    else if pyEqInt ct 1 then
      let vid := pAt p 1 (.int 0)
      let cmp_t := pAt p 2 (.int 0)
      let cmp_v := pAt p 3 (.int 0)
      let op_i := pAt p 4 (.int 0)
      let ops :=
        if pyEqInt op_i 0 then "==" else if pyEqInt op_i 1 then ">="
        else if pyEqInt op_i 2 then "<=" else if pyEqInt op_i 3 then ">"
        else if pyEqInt op_i 4 then "<" else if pyEqInt op_i 5 then "!=" else "?"
      let vn := get_variable_name st.db vid
      if pyEqInt cmp_t 0 then
        "[条件] 变量[" ++ vn ++ "] " ++ ops ++ " " ++ pyStr cmp_v
      else
        "[条件] 变量[" ++ vn ++ "] " ++ ops ++ " 变量[" ++
          get_variable_name st.db cmp_v ++ "]"
    else if pyEqInt ct 2 then
      let ch := pAt p 1 (.str "A")
      let v := if pyEqInt (pAt p 2 (.int 0)) 0 then "ON" else "OFF"
      "[条件] 独立开关 " ++ pyStr ch ++ " == " ++ v
    else if pyEqInt ct 3 then
      let val := pAt p 1 (.int 0)
      let op := if pyEqInt (pAt p 2 (.int 0)) 0 then ">=" else "<="
      "[条件] 计时器 " ++ op ++ " " ++ pyStr val ++ "秒"
    else if pyEqInt ct 4 then
      let aid := pAt p 1 (.int 0)
      let sub := pAt p 2 (.int 0)
      let subText :=
        if pyEqInt sub 0 then "在队伍中" else if pyEqInt sub 1 then "名字是"
        else if pyEqInt sub 2 then "职业是" else if pyEqInt sub 3 then "学会技能"
        else if pyEqInt sub 4 then "装备武器" else if pyEqInt sub 5 then "装备防具"
        else if pyEqInt sub 6 then "状态是" else "?"
      let extra := if pyGeInt sub 1 && pyLen p > 3 then " " ++ pyStr (pAt p 3 .none) else ""
      "[条件] 角色#" ++ pyStr aid ++ " " ++ subText ++ extra
    else if pyEqInt ct 5 then
      let eidx := pAt p 1 (.int 0)
      let sub := pAt p 2 (.int 0)
      if pyEqInt sub 0 then "[条件] 敌人#" ++ pyStr (pyAddInt eidx 1) ++ " 出现中"
      else "[条件] 敌人#" ++ pyStr (pyAddInt eidx 1) ++ " 状态#" ++ pyStr (pAt p 3 (.int 0))
    else if pyEqInt ct 6 then
      let charId := pAt p 1 (.int 0)
      let dv := pAt p 2 (.int 0)
      let d :=
        if pyEqInt dv 2 then "下" else if pyEqInt dv 4 then "左"
        else if pyEqInt dv 6 then "右" else if pyEqInt dv 8 then "上" else "?"
      let char :=
        if pyEqInt charId (-1) then "玩家"
        else if pyEqInt charId 0 then "本事件" else "事件#" ++ pyStr charId
      "[条件] " ++ char ++ " 朝向 " ++ d
    else if pyEqInt ct 7 then
      let val := pAt p 1 (.int 0)
      let opv := pAt p 2 (.int 0)
      let op :=
        if pyEqInt opv 0 then ">=" else if pyEqInt opv 1 then "<="
        else if pyEqInt opv 2 then "<" else ">="
      "[条件] 金币 " ++ op ++ " " ++ pyStr val
    else if pyEqInt ct 8 then
      "[条件] 持有物品[" ++ get_item_name st.db (pAt p 1 (.int 0)) ++ "]"
    else if pyEqInt ct 9 then
      let wid := pAt p 1 (.int 0)
      let inc := if pyTruthy (pAt p 2 (.int 0)) then "（含装备）" else ""
      "[条件] 持有武器[" ++ get_weapon_name st.db wid ++ "]" ++ inc
    else if pyEqInt ct 10 then
      let aid := pAt p 1 (.int 0)
      let inc := if pyTruthy (pAt p 2 (.int 0)) then "（含装备）" else ""
      "[条件] 持有防具[" ++ get_armor_name st.db aid ++ "]" ++ inc
    else if pyEqInt ct 11 then
      let btn := pAt p 1 (.str "")
      let btnText :=
        if btn == .str "ok" then "确定" else if btn == .str "cancel" then "取消"
        else if btn == .str "shift" then "加速" else if btn == .str "down" then "下"
        else if btn == .str "left" then "左" else if btn == .str "right" then "右"
        else if btn == .str "up" then "上" else if btn == .str "pageup" then "上一页"
        else if btn == .str "pagedown" then "下一页" else pyStr btn
      "[条件] 按键「" ++ btnText ++ "」被按下"
    else if pyEqInt ct 12 then
      "[条件] 脚本: " ++ pyStr (pAt p 1 (.str ""))
    else if pyEqInt ct 13 then
      let vv := pAt p 1 (.int 0)
      let vehicle :=
        if pyEqInt vv 0 then "小舟" else if pyEqInt vv 1 then "大船"
        else if pyEqInt vv 2 then "飞艇" else "载具"
      "[条件] 乘坐" ++ vehicle
    else "[条件] 类型" ++ pyStr ct

/-- `_translate_misc2`: system, map, shop, actor and battle commands. -/
def translate_misc2 (st : InterpState) (code : Val) (p : Val) : TResult :=
  if pyEqInt code 132 then
    let bgm := pHead p (.dict [])
    { text := some (match bgm with
        | .dict _ => "[战斗BGM] " ++ pyStr (pyGetD bgm "name" (.str "?"))
        | _ => "[战斗BGM]"), cls := "cmd-misc" }
  else if pyEqInt code 133 then
    let me := pHead p (.dict [])
    { text := some (match me with
        | .dict _ => "[胜利ME] " ++ pyStr (pyGetD me "name" (.str "?"))
        | _ => "[胜利ME]"), cls := "cmd-misc" }
  else if pyEqInt code 134 then
    { text := some ("[存档] " ++ if pyEqInt (pHead p (.int 0)) 0 then "禁止" else "允许")
      cls := "cmd-misc" }
  else if pyEqInt code 135 then
    { text := some ("[菜单] " ++ if pyEqInt (pHead p (.int 0)) 0 then "禁止" else "允许")
      cls := "cmd-misc" }
  else if pyEqInt code 136 then
    { text := some ("[遇敌] " ++ if pyEqInt (pHead p (.int 0)) 0 then "禁止" else "允许")
      cls := "cmd-misc" }
  else if pyEqInt code 137 then
    { text := some ("[队列变更] " ++ if pyEqInt (pHead p (.int 0)) 0 then "禁止" else "允许")
      cls := "cmd-misc" }
  else if pyEqInt code 138 then
    let c := if pyLen p > 0 && (pAt p 0 .none matches .list _) then pAt p 0 .none
             else .list [.int 0, .int 0, .int 0]
    { text := some ("[窗口颜色] (" ++ pyStr (tAt c 0) ++ "," ++ pyStr (tAt c 1) ++
        "," ++ pyStr (tAt c 2) ++ ")"), cls := "cmd-misc" }
  else if pyEqInt code 139 then
    let me := pHead p (.dict [])
    { text := some (match me with
        | .dict _ => "[败北ME] " ++ pyStr (pyGetD me "name" (.str "?"))
        | _ => "[败北ME]"), cls := "cmd-misc" }
  else if pyEqInt code 140 then
    let veh := vehicleName (pHead p (.int 0))
    let bgm := if pyLen p > 1 && (pAt p 1 .none matches .dict _) then pAt p 1 .none
               else .dict []
    { text := some ("[载具BGM] " ++ veh ++ " " ++ pyStr (pyGetD bgm "name" (.str "?")))
      cls := "cmd-misc" }
  else if pyEqInt code 281 then
    { text := some ("[地图名称显示] " ++ if pyEqInt (pHead p (.int 0)) 0 then "显示" else "隐藏")
      cls := "cmd-misc" }
  else if pyEqInt code 282 then
    { text := some ("[更换图块集] #" ++ pyStr (pHead p (.int 0))), cls := "cmd-misc" }
  else if pyEqInt code 283 then
    { text := some ("[更换战斗背景] " ++ pyStr (pHead p (.str "")) ++ " / " ++
        pyStr (pAt p 1 (.str ""))), cls := "cmd-misc" }
  else if pyEqInt code 284 then
    { text := some ("[更换远景] " ++ pyStr (pHead p (.str ""))), cls := "cmd-misc" }
  else if pyEqInt code 302 then
    let (text, refs) := shopLine st p "[商店] "
    { text := some text, cls := "cmd-item", refs := refs }
  else if pyEqInt code 605 then
    let (text, refs) := shopLine st p "  + "
    { text := some text, cls := "cmd-item", refs := refs }
  else if pyEqInt code 303 then
    { text := some ("[名字输入] 角色#" ++ pyStr (pAt p 0 (.int 0)) ++ " (最大" ++
        pyStr (pAt p 1 (.int 8)) ++ "字)"), cls := "cmd-misc" }
  else if pyEqInt code 311 then
    { text := some (actorDelta st p "[HP] "), cls := "cmd-item" }
  else if pyEqInt code 312 then
    { text := some (actorDelta st p "[MP] "), cls := "cmd-item" }
  else if pyEqInt code 313 then
    let aid := pAt p 1 (.int 0)
    let op := if pyEqInt (pAt p 2 (.int 0)) 0 then "附加" else "解除"
    { text := some ("[状态] 角色#" ++ pyStr aid ++ " " ++ op ++ " 状态#" ++
        pyStr (pAt p 3 (.int 0))), cls := "cmd-item" }
  else if pyEqInt code 314 then
    let aid := pAt p 1 (.int 0)
    let target :=
      if pyEqInt (pHead p (.int 0)) 0 && pyEqInt aid 0 then "全体"
      else "角色#" ++ pyStr aid
    { text := some ("[全回复] " ++ target), cls := "cmd-item" }
  else if pyEqInt code 315 then
    { text := some (actorDelta st p "[经验] "), cls := "cmd-item" }
  else if pyEqInt code 316 then
    { text := some (actorDelta st p "[等级] "), cls := "cmd-item" }
  else if pyEqInt code 317 then
    let aid := pAt p 1 (.int 0)
    let pv := pAt p 2 (.int 0)
    let pn :=
      if pyEqInt pv 0 then "最大HP" else if pyEqInt pv 1 then "最大MP"
      else if pyEqInt pv 2 then "攻击力" else if pyEqInt pv 3 then "防御力"
      else if pyEqInt pv 4 then "魔法攻击" else if pyEqInt pv 5 then "魔法防御"
      else if pyEqInt pv 6 then "敏捷" else if pyEqInt pv 7 then "幸运" else "?"
    let op := if pyEqInt (pAt p 3 (.int 0)) 0 then "+" else "-"
    let val0 := pAt p 5 (.int 0)
    let val := if pyEqInt (pAt p 4 (.int 0)) 1 then
        Val.str ("变量[" ++ get_variable_name st.db val0 ++ "]")
      else val0
    { text := some ("[能力值] 角色#" ++ pyStr aid ++ " " ++ pn ++ " " ++ op ++ pyStr val)
      cls := "cmd-item" }
  else if pyEqInt code 318 then
    let aid := pAt p 1 (.int 0)
    let op := if pyEqInt (pAt p 2 (.int 0)) 0 then "习得" else "遗忘"
    { text := some ("[技能] 角色#" ++ pyStr aid ++ " " ++ op ++ " 技能#" ++
        pyStr (pAt p 3 (.int 0))), cls := "cmd-item" }
  else if pyEqInt code 319 then
    let aid := pAt p 0 (.int 0)
    let ev := pAt p 1 (.int 0)
    let etype :=
      if pyEqInt ev 0 then "武器" else if pyEqInt ev 1 then "盾牌"
      else if pyEqInt ev 2 then "头部" else if pyEqInt ev 3 then "身体"
      else if pyEqInt ev 4 then "饰品" else "装备"
    let eid := pAt p 2 (.int 0)
    if pyEqInt eid 0 then
      { text := some ("[装备] 角色#" ++ pyStr aid ++ " 卸下" ++ etype), cls := "cmd-item" }
    else
      { text := some ("[装备] 角色#" ++ pyStr aid ++ " " ++ etype ++ "→#" ++ pyStr eid)
        cls := "cmd-item" }
  else if pyEqInt code 320 then
    { text := some ("[改名] 角色#" ++ pyStr (pAt p 0 (.int 0)) ++ " → " ++
        pyStr (pAt p 1 (.str ""))), cls := "cmd-misc" }
  else if pyEqInt code 321 then
    { text := some ("[转职] 角色#" ++ pyStr (pAt p 0 (.int 0)) ++ " → 职业#" ++
        pyStr (pAt p 1 (.int 0))), cls := "cmd-item" }
  else if pyEqInt code 322 then
    { text := some ("[更换图像] 角色#" ++ pyStr (pAt p 0 (.int 0))), cls := "cmd-misc" }
  else if pyEqInt code 323 then
    { text := some ("[更换图像] " ++ vehicleName (pHead p (.int 0))), cls := "cmd-misc" }
  else if pyEqInt code 331 then
    { text := some (enemyDelta st p "[敌人HP] "), cls := "cmd-battle" }
  else if pyEqInt code 332 then
    { text := some (enemyDelta st p "[敌人MP] "), cls := "cmd-battle" }
  else if pyEqInt code 333 then
    let eidx := pAt p 0 (.int 0)
    let op := if pyEqInt (pAt p 1 (.int 0)) 0 then "附加" else "解除"
    { text := some ("[敌人状态] #" ++ pyStr (pyAddInt eidx 1) ++ " " ++ op ++
        " 状态#" ++ pyStr (pAt p 2 (.int 0))), cls := "cmd-battle" }
  else if pyEqInt code 334 then
    { text := some ("[敌人全回复] #" ++ pyStr (pyAddInt (pHead p (.int 0)) 1))
      cls := "cmd-battle" }
  else if pyEqInt code 335 then
    { text := some ("[敌人出现] #" ++ pyStr (pyAddInt (pHead p (.int 0)) 1))
      cls := "cmd-battle" }
  else if pyEqInt code 336 then
    { text := some ("[敌人变身] #" ++ pyStr (pyAddInt (pAt p 0 (.int 0)) 1) ++
        " → 敌人#" ++ pyStr (pAt p 1 (.int 0))), cls := "cmd-battle" }
  else if pyEqInt code 340 then
    { text := some "[中断战斗]", cls := "cmd-battle" }
  else if pyEqInt code 342 then
    let sub := if pyEqInt (pHead p (.int 0)) 0 then "敌人" else "角色"
    { text := some ("[强制行动] " ++ sub ++ "#" ++ pyStr (pyAddInt (pAt p 1 (.int 0)) 1) ++
        " 使用技能#" ++ pyStr (pAt p 2 (.int 0))), cls := "cmd-battle" }
  else if pyEqInt code 0 || pyEqInt code 404 || pyEqInt code 412 ||
      pyEqInt code 413 || pyEqInt code 604 then
    { text := Option.none, cls := "" }
  else { text := some ("[指令 " ++ pyStr code ++ "]"), cls := "cmd-unknown" }
where
  /-- The `{0: "小舟", 1: "大船", 2: "飞艇"}` vehicle map with the
  `"载具"` default. -/
  vehicleName (v : Val) : String :=
    if pyEqInt v 0 then "小舟" else if pyEqInt v 1 then "大船"
    else if pyEqInt v 2 then "飞艇" else "载具"
  /-- The common body of the shop opcodes 302/605. -/
  shopLine (st : InterpState) (p : Val) (head : String) : String × List Val :=
    let gsel := pHead p (.int 0)
    let gt := if pyEqInt gsel 0 then "物品" else if pyEqInt gsel 1 then "武器"
              else if pyEqInt gsel 2 then "防具" else "?"
    let gid := pAt p 1 (.int 0)
    let name :=
      if pyEqInt gsel 0 then get_item_name st.db gid
      else if pyEqInt gsel 1 then get_weapon_name st.db gid
      else if pyEqInt gsel 2 then get_armor_name st.db gid
      else "#" ++ pyStr gid
    let price :=
      if pyLen p > 2 && pyEqInt (pAt p 2 .none) 1 then
        " (特价:" ++ pyStr (pAt p 3 (.int 0)) ++ ")"
      else ""
    let kindKey : Val :=
      if pyEqInt gsel 0 then .str "items" else if pyEqInt gsel 1 then .str "weapons"
      else if pyEqInt gsel 2 then .str "armors" else .none
    let ref := make_item_ref kindKey gid name
    (head ++ gt ++ ":" ++ name ++ price,
     match ref with | some r => [r] | Option.none => [])
  /-- The `[HP]/[MP]/[经验]/[等级]` actor-delta body (311/312/315/316). -/
  actorDelta (st : InterpState) (p : Val) (head : String) : String :=
    let aid := pAt p 1 (.int 0)
    let op := if pyEqInt (pAt p 2 (.int 0)) 0 then "+" else "-"
    let val0 := pAt p 4 (.int 0)
    let val := if pyEqInt (pAt p 3 (.int 0)) 1 then
        Val.str ("变量[" ++ get_variable_name st.db val0 ++ "]")
      else val0
    head ++ "角色#" ++ pyStr aid ++ " " ++ op ++ pyStr val
  /-- The `[敌人HP]/[敌人MP]` enemy-delta body (331/332). -/
  enemyDelta (st : InterpState) (p : Val) (head : String) : String :=
    let eidx := pAt p 0 (.int 0)
    let op := if pyEqInt (pAt p 1 (.int 0)) 0 then "+" else "-"
    let val0 := pAt p 3 (.int 0)
    let val := if pyEqInt (pAt p 2 (.int 0)) 1 then
        Val.str ("变量[" ++ get_variable_name st.db val0 ++ "]")
      else val0
    head ++ "#" ++ pyStr (pyAddInt eidx 1) ++ " " ++ op ++ pyStr val

/-- `_translate_misc`: comments, common events, labels, waits, audio,
movement, screen effects, pictures and video, then `_translate_misc2`. -/
def translate_misc (st : InterpState) (code : Val) (p : Val) : TResult :=
  if pyEqInt code 108 then
    { text := if pyTruthy p then some ("[注释] " ++ pyStr (pHead p .none)) else Option.none
      cls := "cmd-comment" }
  else if pyEqInt code 408 then
    { text := if pyTruthy p then some ("  " ++ pyStr (pHead p .none)) else Option.none
      cls := "cmd-comment" }
  else if pyEqInt code 117 then
    let ceId := pHead p (.int 0)
    { text := some ("[公共事件] #" ++ pyStr ceId ++ " 「" ++
        get_common_event_name st.db ceId ++ "」"), cls := "cmd-common-event" }
  else if pyEqInt code 118 then
    { text := if pyTruthy p then some ("[标签] " ++ pyStr (pHead p .none)) else Option.none
      cls := "cmd-misc" }
  else if pyEqInt code 119 then
    { text := if pyTruthy p then some ("[跳转] → 标签「" ++ pyStr (pHead p .none) ++ "」")
              else Option.none
      cls := "cmd-misc" }
  else if pyEqInt code 230 then
    { text := some ("[等待] " ++ pyStr (pHead p (.int 0)) ++ " 帧"), cls := "cmd-misc" }
  else if pyEqInt code 241 then
    audioLine p "[BGM] "
  else if pyEqInt code 245 then
    audioLine p "[BGS] "
  else if pyEqInt code 250 then
    audioLine p "[SE] "
  else if pyEqInt code 301 then
    let btype := pAt p 0 (.int 0)
    let tid := pAt p 1 (.int 0)
    let canEscape := if pyLen p > 2 then pyTruthy (pAt p 2 .none) else false
    let canLose := if pyLen p > 3 then pyTruthy (pAt p 3 .none) else false
    let extra := (if canEscape then ["可逃跑"] else []) ++ (if canLose then ["可失败"] else [])
    let extraS := if extra ≠ [] then " (" ++ String.intercalate "/" extra ++ ")" else ""
    if pyEqInt btype 0 then
      let tname := get_troop_name st.db tid
      let ref := make_troop_ref st tid btype canEscape canLose
      { text := some ("[战斗] 敌群#" ++ pyStr tid ++ "「" ++ tname ++ "」" ++ extraS)
        cls := "cmd-battle"
        refs := match ref with | some r => [r] | Option.none => [] }
    else if pyEqInt btype 1 then
      { text := some ("[战斗] 变量指定敌群: 变量[" ++ get_variable_name st.db tid ++
          "]" ++ extraS), cls := "cmd-battle" }
    else if pyEqInt btype 2 then
      let ref := make_encounter_ref st canEscape canLose
      { text := some ("[战斗] 随机遇敌" ++ extraS), cls := "cmd-battle"
        refs := match ref with | some r => [r] | Option.none => [] }
    else { text := some "[战斗] 进入战斗", cls := "cmd-battle" }
  else if pyEqInt code 601 then { text := some "[如果胜利]", cls := "cmd-battle" }
  else if pyEqInt code 602 then { text := some "[如果逃跑]", cls := "cmd-battle" }
  else if pyEqInt code 603 then { text := some "[如果失败]", cls := "cmd-battle" }
  else if pyEqInt code 355 then
    { text := if pyTruthy p then some ("[脚本] " ++ pyStr (pHead p .none)) else Option.none
      cls := "cmd-script" }
  else if pyEqInt code 655 then
    { text := if pyTruthy p then some ("  " ++ pyStr (pHead p .none)) else Option.none
      cls := "cmd-script" }
  else if pyEqInt code 356 then
    { text := if pyTruthy p then some ("[插件] " ++ pyStr (pHead p .none)) else Option.none
      cls := "cmd-script" }
  else if pyEqInt code 202 then
    let veh := if pyEqInt (pHead p (.int 0)) 0 then "小舟"
               else if pyEqInt (pHead p (.int 0)) 1 then "大船"
               else if pyEqInt (pHead p (.int 0)) 2 then "飞艇" else "载具"
    if pyEqInt (pAt p 1 (.int 0)) 0 then
      let mid := pAt p 2 (.int 0)
      { text := some ("[载具位置] " ++ veh ++ " → " ++ pyStr (get_map_name st.db mid) ++
          " (" ++ pyStr (pAt p 3 (.int 0)) ++ "," ++ pyStr (pAt p 4 (.int 0)) ++ ")")
        cls := "cmd-transfer" }
    else { text := some ("[载具位置] " ++ veh ++ " → 变量指定位置"), cls := "cmd-transfer" }
  else if pyEqInt code 203 then
    let eid := pAt p 0 (.int 0)
    let char := if pyEqInt eid 0 then "本事件" else "事件#" ++ pyStr eid
    let dt := pAt p 1 (.int 0)
    if pyEqInt dt 0 then
      { text := some ("[设置位置] " ++ char ++ " → (" ++ pyStr (pAt p 2 (.int 0)) ++
          "," ++ pyStr (pAt p 3 (.int 0)) ++ ")"), cls := "cmd-misc" }
    else if pyEqInt dt 1 then
      { text := some ("[设置位置] " ++ char ++ " → 变量指定位置"), cls := "cmd-misc" }
    else
      { text := some ("[设置位置] " ++ char ++ " → 与事件#" ++ pyStr (pAt p 2 (.int 0)) ++
          "交换"), cls := "cmd-misc" }
  else if pyEqInt code 204 then
    let dv := pHead p (.int 2)
    let d := if pyEqInt dv 2 then "下" else if pyEqInt dv 4 then "左"
             else if pyEqInt dv 6 then "右" else if pyEqInt dv 8 then "上" else "?"
    { text := some ("[滚动地图] " ++ d ++ " " ++ pyStr (pAt p 1 (.int 0)) ++ "格")
      cls := "cmd-misc" }
  else if pyEqInt code 205 then
    { text := some ("[移动路线] " ++ charName (pAt p 0 (.int 0))), cls := "cmd-misc" }
  else if pyEqInt code 505 then { text := Option.none, cls := "" }
  else if pyEqInt code 206 then { text := some "[乘降载具]", cls := "cmd-misc" }
  else if pyEqInt code 211 then
    { text := some ("[透明状态] " ++ if pyEqInt (pHead p (.int 0)) 0 then "透明" else "不透明")
      cls := "cmd-misc" }
  else if pyEqInt code 212 then
    { text := some ("[显示动画] " ++ charName (pAt p 0 (.int 0)) ++ " 动画#" ++
        pyStr (pAt p 1 (.int 0))), cls := "cmd-misc" }
  else if pyEqInt code 213 then
    let bv := pAt p 1 (.int 0)
    let bn :=
      if pyEqInt bv 1 then "感叹" else if pyEqInt bv 2 then "疑问"
      else if pyEqInt bv 3 then "音符" else if pyEqInt bv 4 then "爱心"
      else if pyEqInt bv 5 then "愤怒" else if pyEqInt bv 6 then "汗"
      else if pyEqInt bv 7 then "蛛网" else if pyEqInt bv 8 then "沉默"
      else if pyEqInt bv 9 then "灯泡" else if pyEqInt bv 10 then "Zzz"
      else if pyEqInt bv 11 then "自定义1" else "#" ++ pyStr bv
    { text := some ("[气泡图标] " ++ charName (pAt p 0 (.int 0)) ++ " " ++ bn)
      cls := "cmd-misc" }
  else if pyEqInt code 214 then { text := some "[暂时消除事件]", cls := "cmd-misc" }
  else if pyEqInt code 216 then
    { text := some ("[队列跟随] " ++ if pyEqInt (pHead p (.int 0)) 0 then "显示" else "隐藏")
      cls := "cmd-misc" }
  else if pyEqInt code 217 then { text := some "[集合队列]", cls := "cmd-misc" }
  else if pyEqInt code 221 then { text := some "[淡出画面]", cls := "cmd-misc" }
  else if pyEqInt code 222 then { text := some "[淡入画面]", cls := "cmd-misc" }
  else if pyEqInt code 223 then
    let tone := if pyLen p > 0 && (pAt p 0 .none matches .list _) then pAt p 0 .none
                else .list [.int 0, .int 0, .int 0, .int 0]
    { text := some ("[色调变更] (" ++ pyStr (tAt tone 0) ++ "," ++ pyStr (tAt tone 1) ++
        "," ++ pyStr (tAt tone 2) ++ "," ++ pyStr (tAt tone 3) ++ ") " ++
        pyStr (pAt p 1 (.int 0)) ++ "帧"), cls := "cmd-misc" }
  else if pyEqInt code 224 then
    let c := if pyLen p > 0 && (pAt p 0 .none matches .list _) then pAt p 0 .none
             else .list [.int 255, .int 255, .int 255, .int 170]
    { text := some ("[画面闪烁] (" ++ pyStr (tAt c 0) ++ "," ++ pyStr (tAt c 1) ++
        "," ++ pyStr (tAt c 2) ++ "," ++ pyStr (tAt c 3) ++ ") " ++
        pyStr (pAt p 1 (.int 0)) ++ "帧"), cls := "cmd-misc" }
  else if pyEqInt code 225 then
    { text := some ("[画面震动] 强度:" ++ pyStr (pAt p 0 (.int 0)) ++ " 速度:" ++
        pyStr (pAt p 1 (.int 0)) ++ " " ++ pyStr (pAt p 2 (.int 0)) ++ "帧")
      cls := "cmd-misc" }
  else if pyEqInt code 231 then
    { text := some ("[显示图片] #" ++ pyStr (pAt p 0 (.int 0)) ++ " " ++
        pyStr (pAt p 1 (.str "?"))), cls := "cmd-misc" }
  else if pyEqInt code 232 then
    { text := some ("[移动图片] #" ++ pyStr (pAt p 0 (.int 0))), cls := "cmd-misc" }
  else if pyEqInt code 233 then
    { text := some ("[旋转图片] #" ++ pyStr (pAt p 0 (.int 0)) ++ " 速度:" ++
        pyStr (pAt p 1 (.int 0))), cls := "cmd-misc" }
  else if pyEqInt code 234 then
    { text := some ("[图片色调] #" ++ pyStr (pAt p 0 (.int 0))), cls := "cmd-misc" }
  else if pyEqInt code 235 then
    { text := some ("[消除图片] #" ++ pyStr (pAt p 0 (.int 0))), cls := "cmd-misc" }
  else if pyEqInt code 242 then
    { text := some ("[BGM淡出] " ++ pyStr (pHead p (.int 0)) ++ "秒"), cls := "cmd-misc" }
  else if pyEqInt code 243 then { text := some "[记忆BGM]", cls := "cmd-misc" }
  else if pyEqInt code 244 then { text := some "[恢复BGM]", cls := "cmd-misc" }
  else if pyEqInt code 246 then
    { text := some ("[BGS淡出] " ++ pyStr (pHead p (.int 0)) ++ "秒"), cls := "cmd-misc" }
  else if pyEqInt code 251 then { text := some "[停止SE]", cls := "cmd-misc" }
  else if pyEqInt code 261 then
    { text := some ("[播放影片] " ++ pyStr (pHead p (.str "?"))), cls := "cmd-misc" }
  else translate_misc2 st code p
where
  /-- `"玩家" if cid == -1 else ("本事件" if cid == 0 else f"事件#{cid}")`. -/
  charName (cid : Val) : String :=
    if pyEqInt cid (-1) then "玩家"
    else if pyEqInt cid 0 then "本事件" else "事件#" ++ pyStr cid
  /-- The `[BGM]/[BGS]/[SE]` shape: text only when the first parameter is
  a dict, `None` otherwise. -/
  audioLine (p : Val) (head : String) : TResult :=
    let a := pHead p (.dict [])
    { text := match a with
        | .dict _ => some (head ++ pyStr (pyGetD a "name" (.str "?")))
        | _ => Option.none
      cls := "cmd-misc" }

/-- `_translate`: the head of the opcode dispatch chain (dialogue,
choices, conditionals, switches, variables, gold, items, transfer, number
input, item choice, scroll text, flow control, timer, party), falling
through to `_translate_misc`. -/
def translate (st : InterpState) (code : Val) (p : Val) : TResult :=
  if pyEqInt code 101 then
    let face := pAt p 0 (.str "")
    let pos :=
      if pyLen p > 3 then
        (if pyEqInt (pAt p 3 .none) 0 then "上方"
         else if pyEqInt (pAt p 3 .none) 1 then "中间"
         else if pyEqInt (pAt p 3 .none) 2 then "下方" else "下方")
      else "下方"
    let tag := if pyTruthy face then "头像:" ++ pyStr face else ""
    { text := some ("[对话] (" ++ tag ++ " 位置:" ++ pos ++ ")"), cls := "cmd-talk" }
  else if pyEqInt code 401 then
    { text := if pyTruthy p then some ("「" ++ pyStr (pHead p .none) ++ "」") else Option.none
      cls := "cmd-talk-text" }
  else if pyEqInt code 102 then
    let choices := pHead p (.list [])
    let s := match choices with
      | .list xs => String.intercalate " / " (xs.map pyStr)
      | _ => pyStr choices
    { text := some ("[选项] " ++ s), cls := "cmd-choice" }
  else if pyEqInt code 402 then
    { text := some ("[当选择「" ++ pyStr (pAt p 1 (.str "")) ++ "」时]")
      cls := "cmd-choice-branch" }
  else if pyEqInt code 403 then
    { text := some "[当取消时]", cls := "cmd-choice-branch" }
  else if pyEqInt code 404 then { text := Option.none, cls := "" }
  else if pyEqInt code 111 then
    let text := parse_conditional st p
    let ref :=
      if pyTruthy p &&
          (pyEqInt (pHead p .none) 8 || pyEqInt (pHead p .none) 9 ||
           pyEqInt (pHead p .none) 10) then
        let iid := pAt p 1 (.int 0)
        if pyEqInt (pHead p .none) 8 then
          make_item_ref (.str "items") iid (get_item_name st.db iid)
        else if pyEqInt (pHead p .none) 9 then
          make_item_ref (.str "weapons") iid (get_weapon_name st.db iid)
        else make_item_ref (.str "armors") iid (get_armor_name st.db iid)
      else Option.none
    { text := some text, cls := "cmd-cond"
      refs := match ref with | some r => [r] | Option.none => [] }
  else if pyEqInt code 411 then { text := some "[否则]", cls := "cmd-cond" }
  else if pyEqInt code 412 then { text := Option.none, cls := "" }
  else if pyEqInt code 121 then
    { text := some (fmt_switch st p), cls := "cmd-switch" }
  else if pyEqInt code 122 then
    { text := some (fmt_variable st p), cls := "cmd-var" }
  else if pyEqInt code 123 then
    let ch := pHead p (.str "A")
    let v := if pyEqInt (pAt p 1 (.int 0)) 0 then "ON" else "OFF"
    { text := some ("[独立开关] " ++ pyStr ch ++ " = " ++ v), cls := "cmd-switch" }
  else if pyEqInt code 125 then
    { text := some (fmt_gold st p), cls := "cmd-gold" }
  else if pyEqInt code 126 then
    let (text, ref) := fmt_item p "物品" (get_item_name st.db) "items"
    { text := some text, cls := "cmd-item"
      refs := match ref with | some r => [r] | Option.none => [] }
  else if pyEqInt code 127 then
    let (text, ref) := fmt_item p "武器" (get_weapon_name st.db) "weapons"
    { text := some text, cls := "cmd-item"
      refs := match ref with | some r => [r] | Option.none => [] }
  else if pyEqInt code 128 then
    let (text, ref) := fmt_item p "防具" (get_armor_name st.db) "armors"
    { text := some text, cls := "cmd-item"
      refs := match ref with | some r => [r] | Option.none => [] }
  else if pyEqInt code 201 then
    let (text, ref) := fmt_transfer st p
    { text := some text, cls := "cmd-transfer"
      refs := match ref with | some r => [r] | Option.none => [] }
  else if pyEqInt code 103 then
    { text := some ("[输入数值] → 变量[" ++ get_variable_name st.db (pAt p 0 (.int 0)) ++
        "] (最大" ++ pyStr (pAt p 1 (.int 1)) ++ "位)"), cls := "cmd-misc" }
  else if pyEqInt code 104 then
    let iv := pAt p 1 (.int 1)
    let it := if pyEqInt iv 1 then "普通物品" else if pyEqInt iv 2 then "关键物品"
              else if pyEqInt iv 3 then "隐藏物品A" else if pyEqInt iv 4 then "隐藏物品B"
              else "物品"
    { text := some ("[选择物品] " ++ it ++ " → 变量[" ++
        get_variable_name st.db (pAt p 0 (.int 0)) ++ "]"), cls := "cmd-misc" }
  else if pyEqInt code 105 then
    { text := some ("[滚动文本] (速度:" ++ pyStr (pAt p 0 (.int 2)) ++ ")")
      cls := "cmd-talk" }
  else if pyEqInt code 405 then
    { text := if pyTruthy p then some ("「" ++ pyStr (pHead p .none) ++ "」") else Option.none
      cls := "cmd-talk-text" }
  else if pyEqInt code 112 then { text := some "[循环]", cls := "cmd-cond" }
  else if pyEqInt code 413 then { text := some "[以上反复]", cls := "cmd-cond" }
  else if pyEqInt code 113 then { text := some "[跳出循环]", cls := "cmd-cond" }
  else if pyEqInt code 115 then { text := some "[中断事件处理]", cls := "cmd-cond" }
  else if pyEqInt code 124 then
    if pyEqInt (pAt p 0 (.int 0)) 0 then
      { text := some ("[计时器] 启动 " ++ pyStr (pAt p 1 (.int 0)) ++ "秒")
        cls := "cmd-misc" }
    else { text := some "[计时器] 停止", cls := "cmd-misc" }
  else if pyEqInt code 129 then
    let aid := pAt p 0 (.int 0)
    let op := if pyEqInt (pAt p 1 (.int 0)) 0 then "加入" else "离开"
    let init := if pyEqInt (pAt p 2 (.int 0)) 1 then "（初始化）" else ""
    { text := some ("[队伍] 角色#" ++ pyStr aid ++ " " ++ op ++ init), cls := "cmd-item" }
  else translate_misc st code p

/-- `_interpret_commands`: translate each command dict; lines with falsy
text are dropped; a line records the indent, text, class and (when
non-empty) the references. -/
def interpret_commands (st : InterpState) (cmdList : List Val) : List CmdLine :=
  cmdList.foldl
    (fun lines cmd =>
      let code := pyGetD cmd "code" (.int 0)
      let params := pyGetD cmd "parameters" (.list [])
      let indent := pyGetD cmd "indent" (.int 0)
      let r := translate st code params
      match r.text with
      | some t =>
          if t ≠ "" then
            lines ++ [{ indent := indent, text := t, cls := r.cls, refs := r.refs }]
          else lines
      | Option.none => lines)
    []

/-- `_is_story_page`: any dialogue, choice, scrolling-text or scripting
opcode (101, 401, 102, 402, 403, 105, 405, 355, 356) among the commands. -/
def is_story_page (cmdList : Val) : Bool :=
  (pyElems cmdList).any fun cmd =>
    match cmd with
    | .dict _ =>
        let c := pyGetD cmd "code" .none
        pyEqInt c 101 || pyEqInt c 401 || pyEqInt c 102 || pyEqInt c 402 ||
        pyEqInt c 403 || pyEqInt c 105 || pyEqInt c 405 || pyEqInt c 355 ||
        pyEqInt c 356
    | _ => false

/-- The story-page pass of `_interpret_page`: on `"cmd-battle"` lines,
every reference of kind `"troop"` or `"encounter"` is marked
`special = True` with the plot reason. -/
def markStoryRefs (lines : List CmdLine) : List CmdLine :=
  lines.map fun line =>
    if line.cls = "cmd-battle" then
      { line with refs := line.refs.map markOneRef }
    else line
where
  markOneRef (ref : Val) : Val :=
    let kind := pyGetD ref "kind" .none
    if kind == Val.str "troop" || kind == Val.str "encounter" then
      pySetKey (pySetKey ref "special" (.bool true)) "specialReason"
        (.str "剧情(含对话/选项/脚本)")
    else ref

/-- `_parse_conditions`. -/
def parse_conditions (st : InterpState) (cond : Val) : List String :=
  (if pyTruthy (pyGetD cond "switch1Valid" .none) then
    ["开关 [" ++ get_switch_name st.db (pyGetD cond "switch1Id" (.int 0)) ++ "] = ON"]
   else []) ++
  (if pyTruthy (pyGetD cond "switch2Valid" .none) then
    ["开关 [" ++ get_switch_name st.db (pyGetD cond "switch2Id" (.int 0)) ++ "] = ON"]
   else []) ++
  (if pyTruthy (pyGetD cond "variableValid" .none) then
    ["变量 [" ++ get_variable_name st.db (pyGetD cond "variableId" (.int 0)) ++ "] >= " ++
      pyStr (pyGetD cond "variableValue" (.int 0))]
   else []) ++
  (if pyTruthy (pyGetD cond "selfSwitchValid" .none) then
    ["独立开关 " ++ pyStr (pyGetD cond "selfSwitchCh" (.str "A")) ++ " = ON"]
   else []) ++
  (if pyTruthy (pyGetD cond "itemValid" .none) then
    ["持有物品 [" ++ get_item_name st.db (pyGetD cond "itemId" (.int 0)) ++ "]"]
   else []) ++
  (if pyTruthy (pyGetD cond "actorValid" .none) then
    ["角色 #" ++ pyStr (pyGetD cond "actorId" (.int 0)) ++ " 在队伍中"]
   else [])

/-- `_extract_face_from_commands`: the first show-text command with a
non-blank string face name supplies the page's face. -/
def extract_face_from_commands (rawList : Val) : String × Int :=
  match rawList with
  | .list cmds => go cmds
  | _ => ("", 0)
where
  go : List Val → String × Int
    | [] => ("", 0)
    | cmd :: rest =>
        match cmd with
        | .dict _ =>
            if !pyEqInt (pyGetD cmd "code" (.int 0)) 101 then go rest
            else
              match pyGetD cmd "parameters" (.list []) with
              | .list ps =>
                  let faceName := ps.getD 0 (.str "")
                  let faceIndex := ps.getD 1 (.int 0)
                  match faceName with
                  | .str s =>
                      if pyStrip s ≠ "" then (pyStrip s, valToInt faceIndex 0) else go rest
                  | _ => go rest
              | _ => go rest
        | _ => go rest

/-- `_parse_page_visual`. -/
def parse_page_visual (imageData0 : Val) (faceName : String) (faceIndex : Int) :
    Val :=
  let imageData := match imageData0 with
    | .dict _ => imageData0
    | _ => .dict []
  let characterName :=
    pyStrip (pyStr (pyOr (pyGetD imageData "characterName" .none)
      (pyOr (pyGetD imageData "character_name" .none) (.str ""))))
  let rawIndex := pyGetD imageData "characterIndex"
    (pyGetD imageData "character_index" (.int 0))
  let characterIndex := valToInt rawIndex 0
  let isBig0 := pyTruthy (pyGetD imageData "isBigCharacter" (.bool false))
  let isBig := if characterName ≠ "" && strStartsWith characterName "$" then true else isBig0
  let outFaceName :=
    pyStrip (pyStr (if faceName ≠ "" then .str faceName
      else pyOr (pyGetD imageData "faceName" .none)
        (pyOr (pyGetD imageData "face_name" .none) (.str ""))))
  let outFaceIndex :=
    if outFaceName ≠ "" then
      if faceIndex ≠ 0 then faceIndex
      else valToInt (pyOr (pyGetD imageData "faceIndex" .none)
        (pyOr (pyGetD imageData "face_index" .none) (.int 0))) 0
    else 0
  if characterName = "" && outFaceName = "" then .dict []
  else
    let direction := valToInt
      (pyOr (pyGetD imageData "direction" (pyGetD imageData "characterDirection" (.int 2)))
        (.int 2)) 2
    let pattern := valToInt
      (pyOr (pyGetD imageData "pattern" (pyGetD imageData "characterPattern" (.int 1)))
        (.int 1)) 1
    .dict (buildDict
      [(.str "characterName", .str characterName),
       (.str "characterIndex", .int characterIndex),
       (.str "isBigCharacter", .bool isBig),
       (.str "direction", .int direction),
       (.str "pattern", .int pattern),
       (.str "faceName", .str outFaceName),
       (.str "faceIndex", .int outFaceIndex)])

/-- The result dict of `_interpret_page`. -/
structure PageResult where
  index : Nat
  trigger : String
  conditions : List String
  visual : Val
  commands : List CmdLine
  deriving Repr, Inhabited

/-- `_interpret_page`: trigger text, appearance conditions, visual,
translated commands, and — on a story page — the special/plot marking of
troop/encounter references on battle lines. -/
def interpret_page (st : InterpState) (pageData : Val) (pageIndex : Nat) :
    PageResult :=
  let trigger := pyGetD pageData "trigger" (.int 0)
  let triggerText :=
    if pyEqInt trigger 0 then "确定键" else if pyEqInt trigger 1 then "玩家接触"
    else if pyEqInt trigger 2 then "事件接触" else if pyEqInt trigger 3 then "自动执行"
    else if pyEqInt trigger 4 then "并行处理" else "未知(" ++ pyStr trigger ++ ")"
  let conditions := parse_conditions st (pyGetD pageData "conditions" (.dict []))
  let rawList := pyGetD pageData "list" (.list [])
  let (faceName, faceIndex) := extract_face_from_commands rawList
  let visual := parse_page_visual (pyGetD pageData "image" (.dict [])) faceName faceIndex
  let commands0 := interpret_commands st (pyElems rawList)
  let commands := if is_story_page rawList then markStoryRefs commands0 else commands0
  { index := pageIndex + 1, trigger := triggerText, conditions := conditions
    visual := visual, commands := commands }

/-- The per-command code collection of `_classify_event` as four flags
(the Python `set` of category strings). -/
structure ClassifyCodes where
  treasure : Bool := false
  transfer : Bool := false
  battle : Bool := false
  dialog : Bool := false

/-- The per-command branch of `_classify_event`: gold grants count as
treasure when parameter 0 is 0 (opcode 125), item/weapon/armor grants when
parameter 1 is 0 (opcodes 126/127/128); 201 is transfer, 301 battle, 101
dialog. -/
def classifyCmdStep (acc : ClassifyCodes) (cmd : Val) : ClassifyCodes :=
  let c := pyGetD cmd "code" (.int 0)
  let p := pyGetD cmd "parameters" (.list [])
  if (pyEqInt c 126 || pyEqInt c 127 || pyEqInt c 128) &&
      pyLen p > 1 && pyEqInt (pAt p 1 .none) 0 then
    { acc with treasure := true }
  else if pyEqInt c 125 && pyLen p > 0 && pyEqInt (pAt p 0 .none) 0 then
    { acc with treasure := true }
  else if pyEqInt c 201 then { acc with transfer := true }
  else if pyEqInt c 301 then { acc with battle := true }
  else if pyEqInt c 101 then { acc with dialog := true }
  else acc

/-- The per-page step of `_classify_event` (`None` pages are skipped). -/
def classifyPageStep (acc : ClassifyCodes) (page : Val) : ClassifyCodes :=
  match page with
  | .none => acc
  | _ => (pyElems (pyGetD page "list" (.list []))).foldl classifyCmdStep acc

/-- `_classify_event`: collect the categories over all pages' commands,
then return by the priority treasure > transfer > battle > dialog >
other. -/
def classify_event (evt : Val) : String :=
  let codes := (pyElems (pyGetD evt "pages" (.list []))).foldl classifyPageStep {}
  if codes.treasure then "treasure"
  else if codes.transfer then "transfer"
  else if codes.battle then "battle"
  else if codes.dialog then "dialog"
  else "other"

/-! ## Specification-side definitions

These definitions restate, directly from the specification's wording, the
properties the claims compare against the code; they are deliberately
separate from the source-derived definitions above. -/

/-- "differing only in letter case or in path-separator style": the two
byte strings agree pointwise after case folding and separator
canonicalization (in particular they have equal length). -/
def sameUpToCaseSep (a b : List Nat) : Prop :=
  a.map canonicalByte = b.map canonicalByte

instance (a b : List Nat) : Decidable (sameUpToCaseSep a b) := by
  unfold sameUpToCaseSep; infer_instance

/-- Spec §4.1, version 1/2: processing one entry advances the running key
once for the name-length field, once per name byte, and once for the size
field. -/
def v12KeyStep (key : Nat) (e : RgssArchiveEntry) : Nat :=
  advanceKey^[e.name.length + 2] key

/-- The running key after the index records of the given entries, started
at `0xDEADCAFE`. -/
def v12KeyAfter (es : List RgssArchiveEntry) : Nat :=
  es.foldl v12KeyStep 3735931646

/-- Spec §4.5: "any item/weapon/armor/gold-grant command's operand marks
an increase operation" (parameter 1 = 0 for 126/127/128, parameter 0 = 0
for 125). -/
def specIsTreasureCmd (cmd : Val) : Bool :=
  let c := pyGetD cmd "code" (.int 0)
  let p := pyGetD cmd "parameters" (.list [])
  ((pyEqInt c 126 || pyEqInt c 127 || pyEqInt c 128) &&
    pyLen p > 1 && pyEqInt (pAt p 1 .none) 0) ||
  (pyEqInt c 125 && pyLen p > 0 && pyEqInt (pAt p 0 .none) 0)

/-- A command with the given opcode. -/
def specIsCode (n : Int) (cmd : Val) : Bool :=
  pyEqInt (pyGetD cmd "code" (.int 0)) n

/-- "computed over the union of all pages' commands": some command of
some (non-`None`) page satisfies the predicate. -/
def specAnyCmd (evt : Val) (f : Val → Bool) : Bool :=
  (pyElems (pyGetD evt "pages" (.list []))).any fun page =>
    !(page matches .none) && (pyElems (pyGetD page "list" (.list []))).any f

/-- Spec §4.5 page-type classification, word for word: priority order with
first match winning. -/
def specClassify (evt : Val) : String :=
  if specAnyCmd evt specIsTreasureCmd then "treasure"
  else if specAnyCmd evt (specIsCode 201) then "transfer"
  else if specAnyCmd evt (specIsCode 301) then "battle"
  else if specAnyCmd evt (specIsCode 101) then "dialog"
  else "other"

/-- The id under which the dense-array conversion files one sparse-mapping
entry. -/
def pairEventId (dec : List Nat → String) (kv : RVal × RVal) : Int :=
  eventKeyId kv.1 (convert_event dec kv.2)

/-- The positive ids of a sparse event mapping, in mapping order. -/
def posEventIds (dec : List Nat → String) (kvs : List (RVal × RVal)) : List Int :=
  (kvs.map (pairEventId dec)).filter (fun i => 0 < i)

/-- The maximum positive id (0 when there is none). -/
def maxEventId (dec : List Nat → String) (kvs : List (RVal × RVal)) : Nat :=
  ((posEventIds dec kvs).map Int.toNat).foldl max 0

/-- A battle cross-reference: a reference whose `"kind"` is `"troop"` or
`"encounter"` (exactly the refs the story-page pass marks). -/
def isBattleRef (ref : Val) : Bool :=
  pyGetD ref "kind" .none == Val.str "troop" ||
  pyGetD ref "kind" .none == Val.str "encounter"

/-- Marked special/plot: `special` is `True` and the plot reason is set. -/
def isMarkedSpecial (ref : Val) : Bool :=
  (pyGetD ref "special" .none == Val.bool true) &&
  (pyGetD ref "specialReason" .none == Val.str "剧情(含对话/选项/脚本)")

/-- A translated line is battle-safe when it either is a `"cmd-battle"`
line or carries no battle-kind reference (the shape every `_translate`
result has). -/
def tresultBattleOk (t : TResult) : Prop :=
  t.cls = "cmd-battle" ∨ ∀ r ∈ t.refs, isBattleRef r = false

/-! ## Concrete example data used by the witnesses -/

/-- A gain-gold command with the "increase" operand. -/
def exGoldCmd : Val :=
  .dict [(.str "code", .int 125), (.str "indent", .int 0),
         (.str "parameters", .list [.int 0, .int 0, .int 100])]

/-- A teleport command. -/
def exTransferCmd : Val :=
  .dict [(.str "code", .int 201), (.str "indent", .int 0),
         (.str "parameters", .list [.int 0, .int 2, .int 3, .int 4, .int 0, .int 0])]

/-- A show-text command. -/
def exShowTextCmd : Val :=
  .dict [(.str "code", .int 101), (.str "indent", .int 0),
         (.str "parameters", .list [.str "", .int 0, .int 0, .int 2])]

/-- A fixed-troop battle-start command (troop id 5). -/
def exBattleCmd : Val :=
  .dict [(.str "code", .int 301), (.str "indent", .int 0),
         (.str "parameters", .list [.int 0, .int 5, .int 0, .int 0])]

/-- An event holding both a gold-increase and a teleport command. -/
def exTreasureTransferEvent : Val :=
  .dict [(.str "id", .int 1), (.str "name", .str "chest"),
         (.str "pages", .list
           [.dict [(.str "list", .list [exGoldCmd, exTransferCmd])]])]

/-- A page with a show-text command followed by a fixed-troop battle
command (a story page). -/
def exStoryPage : Val :=
  .dict [(.str "trigger", .int 0),
         (.str "list", .list [exShowTextCmd, exBattleCmd])]

/-- The same page without the show-text command (not a story page). -/
def exPlainPage : Val :=
  .dict [(.str "trigger", .int 0),
         (.str "list", .list [exBattleCmd])]

/-- An interpreter state over an entirely empty database, no map context. -/
def exState : InterpState :=
  { db :=
    { items := [], weapons := [], armors := [], enemies := [], skills := []
      states := [], troops := [], item_types := [], switches := [], varNames := []
      map_infos := .list [], common_events := .list [], common_event_names := []
      raw_troops := .list [], tilesets := .list [] } }

/-- The archive entry name of the concrete loader scenario. -/
def mapInfosEntryName : String := "Data\\MapInfos.rvdata2"

/-- A deserialized event object (`evtA`). -/
def exEvtA : RVal := .robj "RPG::Event" [("@name", .str "A"), ("@x", .int 1)]

/-- A deserialized event object (`evtB`). -/
def exEvtB : RVal := .robj "RPG::Event" [("@name", .str "B"), ("@y", .int 2)]

/-- The sparse mapping `{5: evtA, 2: evtB}`. -/
def exEventKvs : List (RVal × RVal) := [(.int 5, exEvtA), (.int 2, exEvtB)]

/-- A minimal version-1 archive: one entry named `"A"` (one byte) with an
empty payload, the index fields XORed with the running key as the format
requires. -/
def exV1Archive : List Nat :=
  rgssMagic ++ [0, 1] ++ u32ToLE (1 ^^^ 3735931646) ++
  [65 ^^^ advanceKey 3735931646 % 256] ++
  u32ToLE (0 ^^^ advanceKey (advanceKey 3735931646))

/-- The entry record `exV1Archive` parses to. -/
def exV1Entry : RgssArchiveEntry :=
  { name := [65], offset := 17, size := 0,
    data_key := advanceKey (advanceKey (advanceKey 3735931646)) }

/-! # Theorems

Shared helper lemmas first, then one theorem per claim (with its witness
or counterexample where required). -/

theorem nat_xor_cancel (a k : Nat) : a ^^^ k ^^^ k = a := by
  rw [Nat.xor_assoc, Nat.xor_self, Nat.xor_zero]

theorem xorHeadBytes_self_inverse :
    ∀ (n : Nat) (p k : List Nat), xorHeadBytes n (xorHeadBytes n p k) k = p := by
  intro n
  induction n with
  | zero => intro p k; simp [xorHeadBytes]
  | succ m ih =>
      intro p k
      match p, k with
      | [], _ => simp [xorHeadBytes]
      | b :: p, [] => simp [xorHeadBytes]
      | b :: p, kb :: k => simp [xorHeadBytes, nat_xor_cancel, ih]

theorem xorHeadBytes_length :
    ∀ (n : Nat) (p k : List Nat), (xorHeadBytes n p k).length = p.length := by
  intro n
  induction n with
  | zero => intro p k; simp [xorHeadBytes]
  | succ m ih =>
      intro p k
      match p, k with
      | [], _ => simp [xorHeadBytes]
      | b :: p, [] => simp [xorHeadBytes]
      | b :: p, kb :: k => simp [xorHeadBytes, ih]

/-- C4 (amended: the payload must be non-empty — see the counterexample):
for every key byte string `K` and every non-empty payload byte string `P`,
decrypting the concatenation of the fixed 16-byte fake header with the
result of XORing the first `min(16, |P|, |K|)` bytes of `P` against `K`
yields exactly `P`; bytes of `P` beyond that prefix are untouched (they
are returned unchanged as part of `P`). -/
theorem c4_resource_decrypt_self_inverse (K P : List Nat) (hP : P ≠ []) :
    decrypt_resource_file (fakeHeader ++ xorHeadBytes 16 P K) K true = .ok P := by
  have hfh : fakeHeader.length = 16 := by decide
  have hlen : (fakeHeader ++ xorHeadBytes 16 P K).length = 16 + P.length := by
    simp [List.length_append, hfh, xorHeadBytes_length]
  have hPpos : 0 < P.length := List.length_pos.mpr hP
  have hgt : 16 < fakeHeader.length + (xorHeadBytes 16 P K).length := by
    rw [hfh, xorHeadBytes_length]; omega
  have htake : (fakeHeader ++ xorHeadBytes 16 P K).take 16 = fakeHeader := by
    rw [← hfh]; exact List.take_left fakeHeader _
  have hdrop : (fakeHeader ++ xorHeadBytes 16 P K).drop 16 = xorHeadBytes 16 P K := by
    rw [← hfh]; exact List.drop_left fakeHeader _
  simp [decrypt_resource_file, hgt, htake, hdrop, xorHeadBytes_self_inverse]

/-- C4, counterexample to the claim as stated: for the empty payload the
decryptor rejects the 16-byte file as too short instead of returning the
payload. -/
theorem c4_empty_payload_counterexample :
    decrypt_resource_file (fakeHeader ++ xorHeadBytes 16 [] []) [] true ≠
      .ok ([] : List Nat) := by
  intro h
  have heval : decrypt_resource_file (fakeHeader ++ xorHeadBytes 16 [] []) [] true =
      .error "文件过短，无法解密" := by rfl
  rw [heval] at h
  exact Except.noConfusion h

/-- C4, witness: the amended theorem applied at `K = []`, `P = [7]`. -/
theorem c4_resource_decrypt_self_inverse_witness :
    ([7] : List Nat) ≠ [] ∧
      decrypt_resource_file (fakeHeader ++ xorHeadBytes 16 [7] []) [] true =
        .ok [7] :=
  ⟨by decide, c4_resource_decrypt_self_inverse [] [7] (by decide)⟩

/-! ### Archive helper lemmas (C1/C2/C3/C8) -/

theorem u32_lt (x : Nat) : u32 x < u32Mod :=
  Nat.mod_lt _ (by norm_num [u32Mod])

theorem xor_lt_u32 {a b : Nat} (ha : a < u32Mod) (hb : b < u32Mod) :
    a ^^^ b < u32Mod := by
  have h : u32Mod = 2 ^ 32 := by norm_num [u32Mod]
  rw [h] at ha hb ⊢
  exact Nat.xor_lt_two_pow ha hb

theorem xor_mod_roundtrip {o mk : Nat} (ho : o < u32Mod) (hmk : mk < u32Mod) :
    ((o ^^^ mk) % u32Mod) ^^^ mk = o := by
  rw [Nat.mod_eq_of_lt (xor_lt_u32 ho hmk), nat_xor_cancel]

theorem leToU32_u32ToLE_append (x : Nat) (rest : List Nat) :
    leToU32 (u32ToLE x ++ rest) = x % u32Mod := by
  simp only [u32ToLE, leToU32, u32Mod, List.cons_append, List.nil_append]
  omega

theorem leToU32_u32ToLE (x : Nat) : leToU32 (u32ToLE x) = x % u32Mod := by
  simp only [u32ToLE, leToU32, u32Mod]
  omega

theorem readAt_skip (a b : List Nat) (k len : Nat) :
    readAt (a ++ b) (a.length + k) len = readAt b k len := by
  unfold readAt
  rw [← List.drop_drop k a.length, List.drop_left]

theorem xorKeyBytes_length (key : Nat) :
    ∀ (i : Nat) (l : List Nat), (xorKeyBytes key i l).length = l.length := by
  intro i l
  induction l generalizing i with
  | nil => simp [xorKeyBytes]
  | cons b rest ih => simp [xorKeyBytes, ih]

theorem xorKeyBytes_self_inverse (key : Nat) :
    ∀ (i : Nat) (l : List Nat), xorKeyBytes key i (xorKeyBytes key i l) = l := by
  intro i l
  induction l generalizing i with
  | nil => simp [xorKeyBytes]
  | cons b rest ih => simp [xorKeyBytes, nat_xor_cancel, ih]

theorem encodeV3Name_length (mk : Nat) (name : List Nat) :
    (encodeV3Name mk name).length = name.length :=
  xorKeyBytes_length mk 0 name

theorem rgssCrypt_length (key : Nat) (l : List Nat) :
    (rgssCrypt key l).length = l.length := by
  match l with
  | b0 :: b1 :: b2 :: b3 :: rest =>
      have ih := rgssCrypt_length (advanceKey key) rest
      simp [rgssCrypt, ih]
  | [] => rfl
  | [a] => simp [rgssCrypt, xorKeyBytes]
  | [a, b] => simp [rgssCrypt, xorKeyBytes]
  | [a, b, c] => simp [rgssCrypt, xorKeyBytes]

theorem rgssCrypt_self_inverse (key : Nat) (l : List Nat) :
    rgssCrypt key (rgssCrypt key l) = l := by
  match l with
  | b0 :: b1 :: b2 :: b3 :: rest =>
      have ih := rgssCrypt_self_inverse (advanceKey key) rest
      simp [rgssCrypt, nat_xor_cancel, ih]
  | [] => rfl
  | [a] => simp [rgssCrypt, xorKeyBytes, nat_xor_cancel]
  | [a, b] => simp [rgssCrypt, xorKeyBytes, nat_xor_cancel]
  | [a, b, c] => simp [rgssCrypt, xorKeyBytes, nat_xor_cancel]

theorem v3Record_length (mk a b c d : Nat) : (v3Record mk a b c d).length = 16 := by
  simp [v3Record, u32ToLE]

theorem buildV3Archive_length (S dk : Nat) (N P : List Nat) :
    (buildV3Archive S dk N P).length = 44 + N.length + P.length := by
  simp [buildV3Archive, v3Record, u32ToLE, rgssMagic, encodeV3Name_length,
    rgssCrypt_length]
  omega

theorem build_readAt_magic (S dk : Nat) (N P : List Nat) :
    readAt (buildV3Archive S dk N P) 0 6 = rgssMagic := rfl

theorem build_readAt_version (S dk : Nat) (N P : List Nat) :
    readAt (buildV3Archive S dk N P) 7 1 = [3] := rfl

theorem build_readAt_seed (S dk : Nat) (N P : List Nat) :
    readAt (buildV3Archive S dk N P) 8 4 = u32ToLE S := rfl

theorem build_readAt_rec1 (S dk : Nat) (N P : List Nat) :
    readAt (buildV3Archive S dk N P) 12 16 =
      v3Record (u32 (S * 9 + 3)) (44 + N.length) P.length dk N.length := rfl

theorem build_split28 (S dk : Nat) (N P : List Nat) :
    buildV3Archive S dk N P =
      (rgssMagic ++ [0, 3] ++ u32ToLE S ++
        v3Record (u32 (S * 9 + 3)) (44 + N.length) P.length dk N.length) ++
      (encodeV3Name (u32 (S * 9 + 3)) N ++
        (v3Record (u32 (S * 9 + 3)) 0 0 0 0 ++ rgssCrypt dk P)) := by
  simp [buildV3Archive, List.append_assoc]

theorem build_pre28_length (S dk : Nat) (N P : List Nat) :
    (rgssMagic ++ [0, 3] ++ u32ToLE S ++
      v3Record (u32 (S * 9 + 3)) (44 + N.length) P.length dk N.length).length = 28 := by
  simp [rgssMagic, u32ToLE, v3Record]

theorem build_readAt_name (S dk : Nat) (N P : List Nat) :
    readAt (buildV3Archive S dk N P) 28 N.length =
      encodeV3Name (u32 (S * 9 + 3)) N := by
  rw [build_split28 S dk N P]
  set pre := rgssMagic ++ [0, 3] ++ u32ToLE S ++
    v3Record (u32 (S * 9 + 3)) (44 + N.length) P.length dk N.length with hpre
  have hplen : pre.length = 28 := build_pre28_length S dk N P
  rw [show (28 : Nat) = pre.length + 0 by rw [hplen], readAt_skip]
  unfold readAt
  rw [List.drop_zero, List.take_left' (encodeV3Name_length _ _)]

theorem build_readAt_term (S dk : Nat) (N P : List Nat) :
    readAt (buildV3Archive S dk N P) (28 + N.length) 16 =
      v3Record (u32 (S * 9 + 3)) 0 0 0 0 := by
  rw [build_split28 S dk N P]
  set pre := rgssMagic ++ [0, 3] ++ u32ToLE S ++
    v3Record (u32 (S * 9 + 3)) (44 + N.length) P.length dk N.length with hpre
  set E := encodeV3Name (u32 (S * 9 + 3)) N with hE
  have hplen : pre.length = 28 := build_pre28_length S dk N P
  have hElen : E.length = N.length := encodeV3Name_length _ _
  rw [show 28 + N.length = pre.length + N.length by rw [hplen], readAt_skip,
    show N.length = E.length + 0 by rw [hElen]; omega, readAt_skip]
  unfold readAt
  rw [List.drop_zero, List.take_left' (v3Record_length _ _ _ _ _)]

theorem v3Record_drop4 (mk a b c d : Nat) :
    (v3Record mk a b c d).drop 4 =
      u32ToLE (b ^^^ mk) ++ (u32ToLE (c ^^^ mk) ++ u32ToLE (d ^^^ mk)) := rfl

theorem v3Record_drop8 (mk a b c d : Nat) :
    (v3Record mk a b c d).drop 8 =
      u32ToLE (c ^^^ mk) ++ u32ToLE (d ^^^ mk) := rfl

theorem v3Record_drop12 (mk a b c d : Nat) :
    (v3Record mk a b c d).drop 12 = u32ToLE (d ^^^ mk) := rfl

theorem v3Record_field0 (mk a b c d : Nat) (hmk : mk < u32Mod) (ha : a < u32Mod) :
    leToU32 (v3Record mk a b c d) ^^^ mk = a := by
  have : leToU32 (v3Record mk a b c d) = (a ^^^ mk) % u32Mod := by
    unfold v3Record
    rw [List.append_assoc, List.append_assoc]
    exact leToU32_u32ToLE_append _ _
  rw [this, xor_mod_roundtrip ha hmk]

theorem v3Record_field1 (mk a b c d : Nat) (hmk : mk < u32Mod) (hb : b < u32Mod) :
    leToU32 ((v3Record mk a b c d).drop 4) ^^^ mk = b := by
  rw [v3Record_drop4, leToU32_u32ToLE_append, xor_mod_roundtrip hb hmk]

theorem v3Record_field2 (mk a b c d : Nat) (hmk : mk < u32Mod) (hc : c < u32Mod) :
    leToU32 ((v3Record mk a b c d).drop 8) ^^^ mk = c := by
  rw [v3Record_drop8, leToU32_u32ToLE_append, xor_mod_roundtrip hc hmk]

theorem v3Record_field3 (mk a b c d : Nat) (hmk : mk < u32Mod) (hd : d < u32Mod) :
    leToU32 ((v3Record mk a b c d).drop 12) ^^^ mk = d := by
  rw [v3Record_drop12, leToU32_u32ToLE, Nat.mod_eq_of_lt (xor_lt_u32 hd hmk),
    nat_xor_cancel]

theorem build_readAt_payload (S dk : Nat) (N P : List Nat) :
    readAt (buildV3Archive S dk N P) (44 + N.length) P.length =
      rgssCrypt dk P := by
  rw [build_split28 S dk N P]
  set pre := rgssMagic ++ [0, 3] ++ u32ToLE S ++
    v3Record (u32 (S * 9 + 3)) (44 + N.length) P.length dk N.length with hpre
  set E := encodeV3Name (u32 (S * 9 + 3)) N with hE
  set T := v3Record (u32 (S * 9 + 3)) 0 0 0 0 with hT
  have hplen : pre.length = 28 := build_pre28_length S dk N P
  have hElen : E.length = N.length := encodeV3Name_length _ _
  have hTlen : T.length = 16 := v3Record_length _ _ _ _ _
  rw [show 44 + N.length = pre.length + (N.length + 16) by rw [hplen]; omega,
    readAt_skip,
    show N.length + 16 = E.length + 16 by rw [hElen], readAt_skip,
    show (16 : Nat) = T.length + 0 by rw [hTlen], readAt_skip]
  unfold readAt
  rw [List.drop_zero, List.take_of_length_le (by rw [rgssCrypt_length])]

theorem parseV3Loop_build (S dk : Nat) (N P : List Nat) (hdk : dk < u32Mod)
    (hlen : 44 + N.length + P.length < u32Mod) (f : Nat) :
    parseV3Loop (buildV3Archive S dk N P) (u32 (S * 9 + 3)) 12 (f + 2) =
      .ok [{ name := N, offset := 44 + N.length, size := P.length,
             data_key := dk }] := by
  have hmk : u32 (S * 9 + 3) < u32Mod := u32_lt _
  have hoff : 44 + N.length < u32Mod := by omega
  have hsize : P.length < u32Mod := by omega
  have hnl : N.length < u32Mod := by omega
  rw [show f + 2 = (f + 1) + 1 from rfl]
  unfold parseV3Loop
  rw [build_readAt_rec1]
  simp only [v3Record_length, Nat.lt_irrefl, if_false]
  rw [v3Record_field0 _ _ _ _ _ hmk hoff]
  rw [if_neg (by omega : ¬ (44 + N.length = 0))]
  rw [v3Record_field1 _ _ _ _ _ hmk hsize, v3Record_field2 _ _ _ _ _ hmk hdk,
    v3Record_field3 _ _ _ _ _ hmk hnl]
  rw [show (12 : Nat) + 16 = 28 from rfl, build_readAt_name, encodeV3Name_length]
  rw [if_neg (by simp : ¬ (N.length ≠ N.length))]
  rw [show encodeV3Name (u32 (S * 9 + 3)) N = xorKeyBytes (u32 (S * 9 + 3)) 0 N
    from rfl, xorKeyBytes_self_inverse]
  rw [show (28 : Nat) + N.length = 28 + N.length from rfl]
  unfold parseV3Loop
  rw [build_readAt_term]
  simp only [v3Record_length, Nat.lt_irrefl, if_false]
  rw [v3Record_field0 _ _ _ _ _ hmk (by norm_num [u32Mod] : (0 : Nat) < u32Mod)]
  simp [Except.map]

theorem magicKey_mod (S : Nat) : u32 ((S % u32Mod) * 9 + 3) = u32 (S * 9 + 3) := by
  unfold u32 u32Mod
  omega

theorem parse_build (S dk : Nat) (N P : List Nat) (hdk : dk < u32Mod)
    (hlen : 44 + N.length + P.length < u32Mod) :
    parse_index (buildV3Archive S dk N P) =
      .ok { bytes := buildV3Archive S dk N P, version := 3,
            records := [{ name := N, offset := 44 + N.length, size := P.length,
                          data_key := dk }] } := by
  unfold parse_index
  rw [build_readAt_magic, if_neg (by simp), build_readAt_version]
  simp only [reduceIte]
  unfold parse_v3_index
  rw [build_readAt_seed]
  rw [if_neg (by simp [u32ToLE] : ¬ ((u32ToLE S).length ≠ 4))]
  rw [leToU32_u32ToLE, magicKey_mod, buildV3Archive_length,
    show 44 + N.length + P.length + 1 = (43 + N.length + P.length) + 2 from by omega,
    parseV3Loop_build S dk N P hdk hlen]
  rfl

theorem canonicalName_eq_of_equiv {a b : List Nat} (h : sameUpToCaseSep a b) :
    canonicalName a = canonicalName b := by
  unfold canonicalName
  rw [h]

theorem findEntry_single (k : List Nat) (e : RgssArchiveEntry) (key : List Nat)
    (h : k = key) : findEntry [(k, e)] key = some e := by
  unfold findEntry
  rw [if_pos h]

theorem read_decrypt_build (S dk : Nat) (N P : List Nat) :
    read_and_decrypt (buildV3Archive S dk N P)
      { name := N, offset := 44 + N.length, size := P.length, data_key := dk } =
      .ok P := by
  unfold read_and_decrypt
  simp only []
  rw [build_readAt_payload]
  rw [if_neg (by rw [rgssCrypt_length]; simp)]
  rw [rgssCrypt_self_inverse]

/-- C1: for every 32-bit seed `S`, data key, entry name `N` and payload
`P` fitting the 32-bit index fields, a version-3 archive built according
to the spec's index and payload cipher satisfies
`open(archive).readEntry(N2) == P` for any query name `N2` differing from
`N` only in letter case or path-separator style. -/
theorem c1_v3_archive_roundtrip (S dk : Nat) (N N2 P : List Nat)
    (hdk : dk < u32Mod) (hlen : 44 + N.length + P.length < u32Mod)
    (hname : sameUpToCaseSep N2 N) :
    (parse_index (buildV3Archive S dk N P)).bind (fun a => read_entry a N2) =
      .ok P := by
  rw [parse_build S dk N P hdk hlen]
  show read_entry _ N2 = .ok P
  unfold read_entry
  have hentries : rgssEntries
      { bytes := buildV3Archive S dk N P, version := 3,
        records := [{ name := N, offset := 44 + N.length, size := P.length,
                      data_key := dk }] } =
      [(canonicalName N,
        { name := N, offset := 44 + N.length, size := P.length,
          data_key := dk })] := rfl
  rw [hentries,
    findEntry_single _ _ _ (canonicalName_eq_of_equiv hname).symm]
  exact read_decrypt_build S dk N P

/-- C1, witness: seed 5, data key 100, name `"Da"` (bytes `[68, 97]`),
query `"da"` (bytes `[100, 97]`), payload `[1, 2, 3]`. -/
theorem c1_v3_archive_roundtrip_witness :
    (100 < u32Mod ∧ 44 + ([68, 97] : List Nat).length +
        ([1, 2, 3] : List Nat).length < u32Mod ∧
      sameUpToCaseSep [100, 97] [68, 97]) ∧
    (parse_index (buildV3Archive 5 100 [68, 97] [1, 2, 3])).bind
        (fun a => read_entry a [100, 97]) = .ok [1, 2, 3] :=
  ⟨⟨by norm_num [u32Mod], by norm_num [u32Mod], by decide⟩,
   c1_v3_archive_roundtrip 5 100 [68, 97] [100, 97] [1, 2, 3]
     (by norm_num [u32Mod]) (by norm_num [u32Mod]) (by decide)⟩

/-! ### C3: version-1/2 key continuity -/

theorem v12DecryptName_snd (l : List Nat) :
    ∀ k, (v12DecryptName k l).2 = advanceKey^[l.length] k := by
  induction l with
  | nil => intro k; simp [v12DecryptName]
  | cons b rest ih =>
      intro k
      have h := ih (advanceKey k)
      simp [v12DecryptName]
      cases hvd : v12DecryptName (advanceKey k) rest with
      | mk tail k2 =>
          rw [hvd] at h
          simpa [Function.iterate_succ_apply] using h

theorem v12DecryptName_fst_length (l : List Nat) :
    ∀ k, (v12DecryptName k l).1.length = l.length := by
  induction l with
  | nil => intro k; simp [v12DecryptName]
  | cons b rest ih =>
      intro k
      have h := ih (advanceKey k)
      simp [v12DecryptName]
      cases hvd : v12DecryptName (advanceKey k) rest with
      | mk tail k2 =>
          rw [hvd] at h
          simpa using h

theorem parseV12Loop_keys (bytes : List Nat) :
    ∀ (fuel key pos : Nat) (es : List RgssArchiveEntry),
      parseV12Loop bytes key pos fuel = .ok es →
      ∀ i (hi : i < es.length),
        (es.get ⟨i, hi⟩).data_key = (es.take (i + 1)).foldl v12KeyStep key := by
  intro fuel
  induction fuel with
  | zero =>
      intro key pos es h
      exact absurd h (by simp [parseV12Loop])
  | succ f ih =>
      intro key pos es h
      unfold parseV12Loop at h
      by_cases hpos : pos < bytes.length
      · rw [if_pos hpos] at h
        by_cases hz : (readAt bytes pos 4).length = 0
        · rw [if_pos hz] at h
          cases h
          intro i hi
          exact absurd hi (by simp)
        · rw [if_neg hz] at h
          by_cases hshort : (readAt bytes pos 4).length < 4
          · rw [if_pos hshort] at h
            exact absurd h (by simp)
          · rw [if_neg hshort] at h
            by_cases hnl : leToU32 (readAt bytes pos 4) ^^^ key = 0
            · rw [if_pos hnl] at h
              cases h
              intro i hi
              exact absurd hi (by simp)
            · rw [if_neg hnl] at h
              set nameLen := leToU32 (readAt bytes pos 4) ^^^ key with hnldef
              by_cases henc : (readAt bytes (pos + 4) nameLen).length ≠ nameLen
              · rw [if_pos henc] at h
                exact absurd h (by simp)
              · rw [if_neg henc] at h
                push_neg at henc
                cases hvd : v12DecryptName (advanceKey key) (readAt bytes (pos + 4) nameLen) with
                | mk name key2 =>
                    rw [hvd] at h
                    dsimp only [] at h
                    by_cases hsz : (readAt bytes (pos + 4 + nameLen) 4).length < 4
                    · rw [if_pos hsz] at h
                      exact absurd h (by simp)
                    · rw [if_neg hsz] at h
                      cases hrec : parseV12Loop bytes (advanceKey key2)
                          (pos + 4 + nameLen + 4 +
                            (leToU32 (readAt bytes (pos + 4 + nameLen) 4) ^^^ key2)) f with
                      | error e => rw [hrec] at h; exact absurd h (by simp [Except.map])
                      | ok es2 =>
                          rw [hrec] at h
                          simp only [Except.map, Except.ok.injEq] at h
                          subst h
                          have hname_len : name.length = nameLen := by
                            have := v12DecryptName_fst_length
                              (readAt bytes (pos + 4) nameLen) (advanceKey key)
                            rw [hvd] at this
                            simpa [henc] using this
                          have hkey2 : key2 = advanceKey^[nameLen] (advanceKey key) := by
                            have := v12DecryptName_snd
                              (readAt bytes (pos + 4) nameLen) (advanceKey key)
                            rw [hvd] at this
                            simpa [henc] using this
                          have hstep : ∀ e : RgssArchiveEntry,
                              e.name.length = nameLen →
                              advanceKey key2 = v12KeyStep key e := by
                            intro e he
                            unfold v12KeyStep
                            rw [he, hkey2,
                              show nameLen + 2 = (nameLen + 1) + 1 from rfl,
                              Function.iterate_succ_apply',
                              Function.iterate_succ_apply]
                          intro i hi
                          match i with
                          | 0 => simpa using hstep _ hname_len
                          | j + 1 =>
                              have hj : j < es2.length := by
                                simpa using hi
                              have hih := ih (advanceKey key2) _ es2 hrec j hj
                              simp only [List.get_cons_succ, List.take_succ_cons,
                                List.foldl_cons]
                              rw [← hstep _ hname_len]
                              simpa using hih
      · rw [if_neg hpos] at h
        cases h
        intro i hi
        exact absurd hi (by simp)

/-- C3: for every version-1/2 archive that parses successfully, the data
key recorded for entry `i` equals the running key (started at
`0xDEADCAFE`, advanced once for the name-length field, once per name byte
and once for the size field of each entry) immediately after entry `i`'s
size field — the index cipher and the payload cipher share one continuous
key stream. -/
theorem c3_v12_key_continuity (bytes : List Nat) (es : List RgssArchiveEntry)
    (h : parse_v1_v2_index bytes = .ok es) :
    ∀ i (hi : i < es.length),
      (es.get ⟨i, hi⟩).data_key = v12KeyAfter (es.take (i + 1)) := by
  intro i hi
  exact parseV12Loop_keys bytes (bytes.length + 1) 3735931646 8 es h i hi

/-- C3, witness: the one-entry version-1 archive `exV1Archive`. -/
theorem c3_v12_key_continuity_witness :
    parse_v1_v2_index exV1Archive = .ok [exV1Entry] ∧
      ([exV1Entry].get ⟨0, by decide⟩).data_key =
        v12KeyAfter ([exV1Entry].take (0 + 1)) := by
  have hparse : parse_v1_v2_index exV1Archive = .ok [exV1Entry] := by rfl
  exact ⟨hparse, c3_v12_key_continuity exV1Archive [exV1Entry] hparse 0 (by decide)⟩

/-! ### C8: archive failure semantics -/

/-- C8, counterexample to the claim as stated: a version-3 archive whose
index ends in a 1-byte truncated record (not an offset-0 terminator)
opens successfully as a partial archive with no entries, instead of
failing with a data-invalid error. -/
theorem c8_truncated_record_counterexample :
    parse_index (rgssMagic ++ [0, 3] ++ u32ToLE 1 ++ [7]) =
      .ok { bytes := rgssMagic ++ [0, 3] ++ u32ToLE 1 ++ [7], version := 3,
            records := [] } := by
  rfl

/-- C8 (amended): opening fails with a data-invalid error when the magic
does not match, when a version-3 name field overruns the file, and when a
version-1/2 name-length field, name or size field is truncated; but a
version-3 index record truncated short of 16 bytes silently terminates
the index, yielding the archive with the entries parsed so far rather
than an error. -/
theorem c8_failure_semantics :
    (∀ bytes : List Nat, readAt bytes 0 6 ≠ rgssMagic →
      parse_index bytes = .error "不是有效 RGSS 归档") ∧
    (∀ S off sz dk n : Nat, 0 < off → off < u32Mod → 0 < n → n < u32Mod →
      parse_index (rgssMagic ++ [0, 3] ++ u32ToLE S ++
          v3Record (u32 (S * 9 + 3)) off sz dk n) =
        .error "RGSS3 归档索引损坏: 文件名长度不匹配") ∧
    (∀ (S : Nat) (extra : List Nat), 0 < extra.length → extra.length < 16 →
      parse_index (rgssMagic ++ [0, 3] ++ u32ToLE S ++ extra) =
        .ok { bytes := rgssMagic ++ [0, 3] ++ u32ToLE S ++ extra, version := 3,
              records := [] }) ∧
    (∀ x : Nat, parse_index (rgssMagic ++ [0, 1] ++ [x]) =
      .error "RGSS 归档索引损坏: 文件名长度字段不完整") ∧
    (∀ (n : Nat) (P : List Nat), 0 < n → n < u32Mod → P.length < n →
      parse_index (rgssMagic ++ [0, 1] ++ u32ToLE (n ^^^ 3735931646) ++ P) =
        .error "RGSS 归档索引损坏: 文件名内容不完整") ∧
    (∀ (n : Nat) (N sp : List Nat), 0 < n → n < u32Mod → N.length = n →
      sp.length < 4 →
      parse_index (rgssMagic ++ [0, 1] ++ u32ToLE (n ^^^ 3735931646) ++ N ++ sp) =
        .error "RGSS 归档索引损坏: 文件大小字段不完整") := by
  refine ⟨?_, ?_, ?_, ?_, ?_, ?_⟩
  · intro bytes h
    unfold parse_index
    rw [if_pos h]
  · intro S off sz dk n hoffpos hoff hnpos hn
    have hmk : u32 (S * 9 + 3) < u32Mod := u32_lt _
    unfold parse_index
    rw [show readAt (rgssMagic ++ [0, 3] ++ u32ToLE S ++
        v3Record (u32 (S * 9 + 3)) off sz dk n) 0 6 = rgssMagic from rfl,
      if_neg (by simp),
      show readAt (rgssMagic ++ [0, 3] ++ u32ToLE S ++
        v3Record (u32 (S * 9 + 3)) off sz dk n) 7 1 = [3] from rfl]
    simp only [reduceIte]
    unfold parse_v3_index
    rw [show readAt (rgssMagic ++ [0, 3] ++ u32ToLE S ++
        v3Record (u32 (S * 9 + 3)) off sz dk n) 8 4 = u32ToLE S from rfl]
    rw [if_neg (by simp [u32ToLE] : ¬ ((u32ToLE S).length ≠ 4))]
    rw [leToU32_u32ToLE, magicKey_mod]
    have hL : (rgssMagic ++ [0, 3] ++ u32ToLE S ++
        v3Record (u32 (S * 9 + 3)) off sz dk n).length = 28 := by
      simp [rgssMagic, u32ToLE, v3Record]
    rw [hL]
    unfold parseV3Loop
    rw [show readAt (rgssMagic ++ [0, 3] ++ u32ToLE S ++
        v3Record (u32 (S * 9 + 3)) off sz dk n) 12 16 =
        v3Record (u32 (S * 9 + 3)) off sz dk n from rfl]
    simp only [v3Record_length, Nat.lt_irrefl, if_false]
    rw [v3Record_field0 _ _ _ _ _ hmk hoff]
    rw [if_neg (by omega : ¬ (off = 0))]
    rw [v3Record_field3 _ _ _ _ _ hmk hn]
    rw [show readAt (rgssMagic ++ [0, 3] ++ u32ToLE S ++
        v3Record (u32 (S * 9 + 3)) off sz dk n) (12 + 16) n = [] by
      unfold readAt
      rw [show (12 : Nat) + 16 = (rgssMagic ++ [0, 3] ++ u32ToLE S ++
        v3Record (u32 (S * 9 + 3)) off sz dk n).length by
          simp [rgssMagic, u32ToLE, v3Record],
        List.drop_length, List.take_nil]]
    rw [if_pos (by simpa using Nat.ne_of_lt hnpos)]
    rfl
  · intro S extra hpos hlt
    unfold parse_index
    rw [show readAt (rgssMagic ++ [0, 3] ++ u32ToLE S ++ extra) 0 6 =
        rgssMagic from rfl,
      if_neg (by simp),
      show readAt (rgssMagic ++ [0, 3] ++ u32ToLE S ++ extra) 7 1 = [3] from rfl]
    simp only [reduceIte]
    unfold parse_v3_index
    rw [show readAt (rgssMagic ++ [0, 3] ++ u32ToLE S ++ extra) 8 4 =
        u32ToLE S from rfl]
    rw [if_neg (by simp [u32ToLE] : ¬ ((u32ToLE S).length ≠ 4))]
    rw [leToU32_u32ToLE, magicKey_mod]
    have hL : (rgssMagic ++ [0, 3] ++ u32ToLE S ++ extra).length =
        12 + extra.length := by
      simp [rgssMagic, u32ToLE]
      omega
    rw [hL]
    unfold parseV3Loop
    rw [show readAt (rgssMagic ++ [0, 3] ++ u32ToLE S ++ extra) 12 16 =
        extra by
      unfold readAt
      rw [show (12 : Nat) = (rgssMagic ++ [0, 3] ++ u32ToLE S).length by
          simp [rgssMagic, u32ToLE],
        List.drop_left, List.take_of_length_le (by omega)]]
    rw [if_pos hlt]
    rfl
  · intro x
    rfl
  · intro n P hn hnu hP
    unfold parse_index
    rw [show readAt (rgssMagic ++ [0, 1] ++ u32ToLE (n ^^^ 3735931646) ++ P)
        0 6 = rgssMagic from rfl,
      if_neg (by simp),
      show readAt (rgssMagic ++ [0, 1] ++ u32ToLE (n ^^^ 3735931646) ++ P)
        7 1 = [1] from rfl]
    dsimp only []
    rw [if_neg (by decide : ¬ ((1:Nat) = 3)),
      if_pos (Or.inl rfl : (1:Nat) = 1 ∨ (1:Nat) = 2)]
    unfold parse_v1_v2_index parseV12Loop
    dsimp only []
    have h8 : (8:Nat) <
        (rgssMagic ++ [0, 1] ++ u32ToLE (n ^^^ 3735931646) ++ P).length := by
      simp only [rgssMagic, u32ToLE, List.length_append, List.length_cons,
        List.length_nil]
      omega
    rw [if_pos h8]
    rw [show readAt (rgssMagic ++ [0, 1] ++ u32ToLE (n ^^^ 3735931646) ++ P)
        8 4 = u32ToLE (n ^^^ 3735931646) from rfl]
    have hlen0 : ¬ ((u32ToLE (n ^^^ 3735931646)).length = 0) := by simp [u32ToLE]
    have hlen4 : ¬ ((u32ToLE (n ^^^ 3735931646)).length < 4) := by simp [u32ToLE]
    rw [if_neg hlen0, if_neg hlen4]
    have hK : (3735931646 : Nat) < u32Mod := by norm_num [u32Mod]
    rw [leToU32_u32ToLE, xor_mod_roundtrip hnu hK]
    have hn0 : ¬ (n = 0) := by omega
    rw [if_neg hn0]
    rw [show readAt (rgssMagic ++ [0, 1] ++ u32ToLE (n ^^^ 3735931646) ++ P)
        (8 + 4) n = List.take n P from rfl]
    rw [List.take_of_length_le (Nat.le_of_lt hP)]
    have hPne : P.length ≠ n := by omega
    rw [if_pos hPne]
    rfl
  · intro n N sp hn hnu hN hsp
    unfold parse_index
    rw [show readAt (rgssMagic ++ [0, 1] ++ u32ToLE (n ^^^ 3735931646) ++ N ++ sp)
        0 6 = rgssMagic from rfl,
      if_neg (by simp),
      show readAt (rgssMagic ++ [0, 1] ++ u32ToLE (n ^^^ 3735931646) ++ N ++ sp)
        7 1 = [1] from rfl]
    dsimp only []
    rw [if_neg (by decide : ¬ ((1:Nat) = 3)),
      if_pos (Or.inl rfl : (1:Nat) = 1 ∨ (1:Nat) = 2)]
    unfold parse_v1_v2_index parseV12Loop
    dsimp only []
    have h8 : (8:Nat) <
        (rgssMagic ++ [0, 1] ++ u32ToLE (n ^^^ 3735931646) ++ N ++ sp).length := by
      simp only [rgssMagic, u32ToLE, List.length_append, List.length_cons,
        List.length_nil]
      omega
    rw [if_pos h8]
    rw [show readAt (rgssMagic ++ [0, 1] ++ u32ToLE (n ^^^ 3735931646) ++ N ++ sp)
        8 4 = u32ToLE (n ^^^ 3735931646) from rfl]
    have hlen0 : ¬ ((u32ToLE (n ^^^ 3735931646)).length = 0) := by simp [u32ToLE]
    have hlen4 : ¬ ((u32ToLE (n ^^^ 3735931646)).length < 4) := by simp [u32ToLE]
    rw [if_neg hlen0, if_neg hlen4]
    have hK : (3735931646 : Nat) < u32Mod := by norm_num [u32Mod]
    rw [leToU32_u32ToLE, xor_mod_roundtrip hnu hK]
    have hn0 : ¬ (n = 0) := by omega
    rw [if_neg hn0]
    rw [show readAt (rgssMagic ++ [0, 1] ++ u32ToLE (n ^^^ 3735931646) ++ N ++ sp)
        (8 + 4) n = List.take n (N ++ sp) from rfl]
    rw [List.take_left' hN]
    have hNeq : ¬ (N.length ≠ n) := by omega
    rw [if_neg hNeq]
    have hpos : (8 + 4 + n : Nat) =
        (rgssMagic ++ [0, 1] ++ u32ToLE (n ^^^ 3735931646) ++ N).length + 0 := by
      simp only [rgssMagic, u32ToLE, List.length_append, List.length_cons,
        List.length_nil, hN]
      omega
    rw [hpos, readAt_skip]
    rw [show readAt sp 0 4 = List.take 4 sp from rfl,
      List.take_of_length_le (Nat.le_of_lt hsp)]
    rw [if_pos hsp]
    rfl

/-- C8, witness: the amended theorem applied at a non-archive file, a
name-overrun version-3 index, a 1-byte-truncated version-3 record, a
truncated version-1 name-length field, a truncated version-1 name and a
truncated version-1 size field. -/
theorem c8_failure_semantics_witness :
    parse_index [1, 2, 3] = .error "不是有效 RGSS 归档" ∧
    parse_index (rgssMagic ++ [0, 3] ++ u32ToLE 0 ++
        v3Record (u32 (0 * 9 + 3)) 44 0 0 5) =
      .error "RGSS3 归档索引损坏: 文件名长度不匹配" ∧
    parse_index (rgssMagic ++ [0, 3] ++ u32ToLE 9 ++ [7]) =
      .ok { bytes := rgssMagic ++ [0, 3] ++ u32ToLE 9 ++ [7], version := 3,
            records := [] } ∧
    parse_index (rgssMagic ++ [0, 1] ++ [9]) =
      .error "RGSS 归档索引损坏: 文件名长度字段不完整" ∧
    parse_index (rgssMagic ++ [0, 1] ++ u32ToLE (3 ^^^ 3735931646) ++ [1]) =
      .error "RGSS 归档索引损坏: 文件名内容不完整" ∧
    parse_index (rgssMagic ++ [0, 1] ++ u32ToLE (2 ^^^ 3735931646) ++
        [5, 6] ++ [9]) =
      .error "RGSS 归档索引损坏: 文件大小字段不完整" :=
  ⟨c8_failure_semantics.1 [1, 2, 3] (by decide),
   c8_failure_semantics.2.1 0 44 0 0 5 (by norm_num) (by norm_num [u32Mod])
     (by norm_num) (by norm_num [u32Mod]),
   c8_failure_semantics.2.2.1 9 [7] (by norm_num) (by norm_num),
   c8_failure_semantics.2.2.2.1 9,
   c8_failure_semantics.2.2.2.2.1 3 [1] (by norm_num) (by norm_num [u32Mod])
     (by norm_num),
   c8_failure_semantics.2.2.2.2.2 2 [5, 6] [9] (by norm_num)
     (by norm_num [u32Mod]) (by norm_num) (by norm_num)⟩

/-! ### C9: batch unpack statuses -/

/-- C9, counterexample to the claim as stated: with encrypted files found,
the key-unavailable run and the decode-failure run carry the same
`"failed"` status — there is no distinct "key unavailable" status. -/
theorem c9_status_not_distinct_counterexample :
    (prepare_resources [[0]] Option.none false Option.none).status = "failed" ∧
    (prepare_resources [[0]]
        (some (.dict [(.str "encryptionKey", .str "00")])) false
        Option.none).status = "failed" := by
  constructor <;> rfl

/-- C9 (amended): when encrypted files are found but no key is available,
and no external collaborator is supplied, the batch reports status
`"failed"` with the key-unavailable message; when a key is available and
some file fails decryption, the batch reports the same `"failed"` status
with the decode-failure counts in the message — the two cases are
distinguished by the message text, not by a distinct status value. -/
theorem c9_key_unavailable_vs_decode_failure :
    (∀ (files : List (List Nat)) (sysJson : Option Val) (hasNwPak : Bool),
      files ≠ [] → load_encryption_key sysJson = Option.none →
      prepare_resources files sysJson hasNwPak Option.none =
        { status := "failed", method := "none",
          message := "System.json 缺少 encryptionKey，Python 解包不可用；检测到资源封包但无法解包（缺少 Java Decrypter）",
          processed_files := 0, failed_files := 0 }) ∧
    (∀ (files : List (List Nat)) (sysJson : Option Val) (k : String)
        (hasNwPak : Bool),
      files ≠ [] → load_encryption_key sysJson = some k →
      (countDecrypts files (hexToBytes k.data)).2 ≠ 0 →
      prepare_resources files sysJson hasNwPak Option.none =
        { status := "failed", method := "none",
          message := "Python 解包部分失败（成功 " ++
            toString (countDecrypts files (hexToBytes k.data)).1 ++ " / 失败 " ++
            toString (countDecrypts files (hexToBytes k.data)).2 ++
            "）；检测到资源封包但无法解包（缺少 Java Decrypter）",
          processed_files := (countDecrypts files (hexToBytes k.data)).1,
          failed_files := (countDecrypts files (hexToBytes k.data)).2 }) := by
  constructor
  · intro files sysJson hasNwPak hne hkey
    unfold prepare_resources
    rw [if_neg (by simpa [List.isEmpty_iff] using hne), hkey]
    rfl
  · intro files sysJson k hasNwPak hne hkey hfl
    unfold prepare_resources
    rw [if_neg (by simpa [List.isEmpty_iff] using hne), hkey]
    dsimp only []
    cases hcd : countDecrypts files (hexToBytes k.data) with
    | mk pr fl =>
        rw [hcd] at hfl
        dsimp only [] at hfl
        rw [if_neg hfl]
        simp [prepare_resources.finishWithJava, String.append_assoc]

/-- C9, witness: one 1-byte file (too short to decrypt), once with no
system configuration and once with the hex key `"00"`. -/
theorem c9_key_unavailable_vs_decode_failure_witness :
    prepare_resources [[0]] Option.none false Option.none =
      { status := "failed", method := "none",
        message := "System.json 缺少 encryptionKey，Python 解包不可用；检测到资源封包但无法解包（缺少 Java Decrypter）",
        processed_files := 0, failed_files := 0 } ∧
    prepare_resources [[0]]
        (some (.dict [(.str "encryptionKey", .str "00")])) false Option.none =
      { status := "failed", method := "none",
        message := "Python 解包部分失败（成功 " ++ toString 0 ++ " / 失败 " ++
          toString 1 ++ "）；检测到资源封包但无法解包（缺少 Java Decrypter）",
        processed_files := 0, failed_files := 1 } :=
  ⟨c9_key_unavailable_vs_decode_failure.1 [[0]] Option.none false
      (by decide) (by rfl),
   c9_key_unavailable_vs_decode_failure.2 [[0]]
      (some (.dict [(.str "encryptionKey", .str "00")])) "00" false
      (by decide) (by rfl) (by decide)⟩

/-! ### C5: event classification -/

theorem classifyCmdStep_flags (acc : ClassifyCodes) (cmd : Val) :
    (classifyCmdStep acc cmd).treasure = (acc.treasure || specIsTreasureCmd cmd) ∧
    (classifyCmdStep acc cmd).transfer = (acc.transfer || specIsCode 201 cmd) ∧
    (classifyCmdStep acc cmd).battle = (acc.battle || specIsCode 301 cmd) ∧
    (classifyCmdStep acc cmd).dialog = (acc.dialog || specIsCode 101 cmd) := by
  unfold classifyCmdStep specIsTreasureCmd specIsCode
  cases hcv : pyGetD cmd "code" (.int 0) with
  | int n =>
      dsimp only []
      split_ifs <;> simp_all [pyEqInt] <;> omega
  | bool b =>
      dsimp only []
      cases b <;> split_ifs <;> simp_all [pyEqInt]
  | none =>
      dsimp only []
      split_ifs <;> simp_all [pyEqInt]
  | str s =>
      dsimp only []
      split_ifs <;> simp_all [pyEqInt]
  | list xs =>
      dsimp only []
      split_ifs <;> simp_all [pyEqInt]
  | dict kvs =>
      dsimp only []
      split_ifs <;> simp_all [pyEqInt]

theorem foldl_classifyCmdStep (cmds : List Val) :
    ∀ acc : ClassifyCodes,
    ((cmds.foldl classifyCmdStep acc).treasure =
      (acc.treasure || cmds.any specIsTreasureCmd)) ∧
    ((cmds.foldl classifyCmdStep acc).transfer =
      (acc.transfer || cmds.any (specIsCode 201))) ∧
    ((cmds.foldl classifyCmdStep acc).battle =
      (acc.battle || cmds.any (specIsCode 301))) ∧
    ((cmds.foldl classifyCmdStep acc).dialog =
      (acc.dialog || cmds.any (specIsCode 101))) := by
  induction cmds with
  | nil => intro acc; simp
  | cons cmd rest ih =>
      intro acc
      obtain ⟨h1, h2, h3, h4⟩ := classifyCmdStep_flags acc cmd
      obtain ⟨r1, r2, r3, r4⟩ := ih (classifyCmdStep acc cmd)
      simp only [List.foldl_cons, List.any_cons]
      exact ⟨by rw [r1, h1, Bool.or_assoc], by rw [r2, h2, Bool.or_assoc],
             by rw [r3, h3, Bool.or_assoc], by rw [r4, h4, Bool.or_assoc]⟩

theorem classifyPageStep_flags (acc : ClassifyCodes) (page : Val) :
    ((classifyPageStep acc page).treasure = (acc.treasure ||
      (!(page matches .none) &&
        (pyElems (pyGetD page "list" (.list []))).any specIsTreasureCmd))) ∧
    ((classifyPageStep acc page).transfer = (acc.transfer ||
      (!(page matches .none) &&
        (pyElems (pyGetD page "list" (.list []))).any (specIsCode 201)))) ∧
    ((classifyPageStep acc page).battle = (acc.battle ||
      (!(page matches .none) &&
        (pyElems (pyGetD page "list" (.list []))).any (specIsCode 301)))) ∧
    ((classifyPageStep acc page).dialog = (acc.dialog ||
      (!(page matches .none) &&
        (pyElems (pyGetD page "list" (.list []))).any (specIsCode 101)))) := by
  cases page <;>
    simp [classifyPageStep, foldl_classifyCmdStep]

theorem foldl_classifyPageStep (pages : List Val) :
    ∀ acc : ClassifyCodes,
    ((pages.foldl classifyPageStep acc).treasure = (acc.treasure ||
      pages.any fun page => !(page matches .none) &&
        (pyElems (pyGetD page "list" (.list []))).any specIsTreasureCmd)) ∧
    ((pages.foldl classifyPageStep acc).transfer = (acc.transfer ||
      pages.any fun page => !(page matches .none) &&
        (pyElems (pyGetD page "list" (.list []))).any (specIsCode 201))) ∧
    ((pages.foldl classifyPageStep acc).battle = (acc.battle ||
      pages.any fun page => !(page matches .none) &&
        (pyElems (pyGetD page "list" (.list []))).any (specIsCode 301))) ∧
    ((pages.foldl classifyPageStep acc).dialog = (acc.dialog ||
      pages.any fun page => !(page matches .none) &&
        (pyElems (pyGetD page "list" (.list []))).any (specIsCode 101))) := by
  induction pages with
  | nil => intro acc; simp
  | cons page rest ih =>
      intro acc
      obtain ⟨h1, h2, h3, h4⟩ := classifyPageStep_flags acc page
      obtain ⟨r1, r2, r3, r4⟩ := ih (classifyPageStep acc page)
      simp only [List.foldl_cons, List.any_cons]
      exact ⟨by rw [r1, h1, Bool.or_assoc], by rw [r2, h2, Bool.or_assoc],
             by rw [r3, h3, Bool.or_assoc], by rw [r4, h4, Bool.or_assoc]⟩

/-- C5: the event classifier implements exactly the spec's priority rule —
`treasure` if any gold/item/weapon/armor grant has an "increase" operand
(parameter 0 = 0 for opcode 125, parameter 1 = 0 for 126/127/128), else
`transfer` on any opcode 201, else `battle` on any 301, else `dialog` on
any 101, else `other`, computed over the union of all pages' commands; in
particular an event holding both a gold-increase and a teleport command
classifies as `treasure`. -/
theorem c5_event_classification :
    (∀ evt : Val, classify_event evt = specClassify evt) ∧
    classify_event exTreasureTransferEvent = "treasure" := by
  constructor
  · intro evt
    unfold classify_event specClassify specAnyCmd
    dsimp only []
    obtain ⟨h1, h2, h3, h4⟩ :=
      foldl_classifyPageStep (pyElems (pyGetD evt "pages" (.list []))) {}
    rw [h1, h2, h3, h4]
    rfl
  · rfl

/-! ### C10: name-resolution lookups are total with id-bearing fallbacks -/

theorem strAppendNeEmpty (a b : String) (h : a.data ≠ []) : a ++ b ≠ "" := by
  intro hh
  have h2 : a.data ++ b.data = [] := congrArg String.data hh
  rcases List.append_eq_nil.mp h2 with ⟨h3, _⟩
  exact h h3

/-- C10: on every loaded database (any loader function, including one
whose tables are all missing or empty) and every integer id, each
name-resolution lookup is total — in this pure embedding no lookup can
raise — and an id with no entry in the backing map yields the non-empty
fallback placeholder that embeds the id. -/
theorem c10_name_lookup_total (f : String → Option Val) (db : Db)
    (hdb : mkDatabase f = some db) (id : Int) :
    (nameMapGet db.items (.int id) = Option.none →
      get_item_name db (.int id) = "未知物品#" ++ toString id ∧
      get_item_name db (.int id) ≠ "") ∧
    (nameMapGet db.weapons (.int id) = Option.none →
      get_weapon_name db (.int id) = "未知武器#" ++ toString id ∧
      get_weapon_name db (.int id) ≠ "") ∧
    (nameMapGet db.armors (.int id) = Option.none →
      get_armor_name db (.int id) = "未知防具#" ++ toString id ∧
      get_armor_name db (.int id) ≠ "") ∧
    (nameMapGet db.enemies (.int id) = Option.none →
      get_enemy_name db (.int id) = "敌人#" ++ toString id ∧
      get_enemy_name db (.int id) ≠ "") ∧
    (nameMapGet db.switches (.int id) = Option.none →
      get_switch_name db (.int id) = "开关#" ++ toString id ∧
      get_switch_name db (.int id) ≠ "") ∧
    (nameMapGet db.varNames (.int id) = Option.none →
      get_variable_name db (.int id) = "变量#" ++ toString id ∧
      get_variable_name db (.int id) ≠ "") ∧
    (nameMapGet db.troops (.int id) = Option.none →
      get_troop_name db (.int id) = "敌群#" ++ toString id ∧
      get_troop_name db (.int id) ≠ "") ∧
    (nameMapGet db.common_event_names (.int id) = Option.none →
      get_common_event_name db (.int id) = "公共事件#" ++ toString id ∧
      get_common_event_name db (.int id) ≠ "") ∧
    ((pyElems db.map_infos).find? (fun info => pyTruthy info &&
        (info matches .dict _) && (pyGetD info "id" .none == Val.int id)) =
          Option.none →
      get_map_name db (.int id) = .str ("地图#" ++ toString id) ∧
      ("地图#" ++ toString id : String) ≠ "") := by
  refine ⟨?_, ?_, ?_, ?_, ?_, ?_, ?_, ?_, ?_⟩
  · intro h
    unfold get_item_name
    rw [h]
    exact ⟨rfl, strAppendNeEmpty _ _ (by decide)⟩
  · intro h
    unfold get_weapon_name
    rw [h]
    exact ⟨rfl, strAppendNeEmpty _ _ (by decide)⟩
  · intro h
    unfold get_armor_name
    rw [h]
    exact ⟨rfl, strAppendNeEmpty _ _ (by decide)⟩
  · intro h
    unfold get_enemy_name
    rw [h]
    exact ⟨rfl, strAppendNeEmpty _ _ (by decide)⟩
  · intro h
    unfold get_switch_name
    rw [h]
    exact ⟨rfl, strAppendNeEmpty _ _ (by decide)⟩
  · intro h
    unfold get_variable_name
    rw [h]
    exact ⟨rfl, strAppendNeEmpty _ _ (by decide)⟩
  · intro h
    unfold get_troop_name
    rw [h]
    exact ⟨rfl, strAppendNeEmpty _ _ (by decide)⟩
  · intro h
    unfold get_common_event_name
    rw [h]
    exact ⟨rfl, strAppendNeEmpty _ _ (by decide)⟩
  · intro h
    unfold get_map_name
    cases hmi : db.map_infos with
    | list infos =>
        rw [hmi] at h
        simp only [pyElems] at h
        dsimp only []
        rw [h]
        exact ⟨rfl, strAppendNeEmpty _ _ (by decide)⟩
    | none => exact ⟨rfl, strAppendNeEmpty _ _ (by decide)⟩
    | bool b => exact ⟨rfl, strAppendNeEmpty _ _ (by decide)⟩
    | int n => exact ⟨rfl, strAppendNeEmpty _ _ (by decide)⟩
    | str s => exact ⟨rfl, strAppendNeEmpty _ _ (by decide)⟩
    | dict kvs => exact ⟨rfl, strAppendNeEmpty _ _ (by decide)⟩

/-- C10, witness: the database loaded from an entirely absent project
(`f = fun _ => None`), id 7. -/
theorem c10_name_lookup_total_witness :
    mkDatabase (fun _ => Option.none) = some exState.db ∧
    get_item_name exState.db (.int 7) = "未知物品#" ++ toString (7 : Int) ∧
    get_item_name exState.db (.int 7) ≠ "" ∧
    get_map_name exState.db (.int 7) = .str ("地图#" ++ toString (7 : Int)) := by
  have hdb : mkDatabase (fun _ => Option.none) = some exState.db := by rfl
  have h := c10_name_lookup_total (fun _ => Option.none) exState.db hdb 7
  have h1 := h.1 (by rfl)
  have h9 := h.2.2.2.2.2.2.2.2 (by rfl)
  exact ⟨hdb, h1.1, h1.2, h9.1⟩

/-! ## C2: the seed-3580 MapInfos loader scenario -/

/-- C2: a version-3 archive built with seed 3580 whose single entry is
named exactly `Data\MapInfos.rvdata2` and whose decrypted payload
deserializes (via the object-graph deserializer `marshal`) to an empty
array makes a VX-mode loader over that archive — with no same-named file
on disk — return the empty array from `load_json("MapInfos.json")`. -/
theorem c2_seed3580_mapinfos (dec : List Nat → String)
    (marshal : List Nat → Option RVal) (dk : Nat) (P : List Nat)
    (a : RgssArchiveT) (hdk : dk < u32Mod)
    (hlen : 44 + (strBytes mapInfosEntryName).length + P.length < u32Mod)
    (hparse : parse_index
        (buildV3Archive 3580 dk (strBytes mapInfosEntryName) P) = .ok a)
    (hmar : marshal P = some (.list [])) :
    load_json_vx dec marshal (fun _ => Option.none) (some a) "MapInfos.json" =
      some (.list []) := by
  rw [parse_build 3580 dk (strBytes mapInfosEntryName) P hdk hlen] at hparse
  simp only [Except.ok.injEq] at hparse
  subst hparse
  unfold load_json_vx load_vx_data
  dsimp only []
  have hloc : locate_vx_source (fun p => (Option.none : Option (List Nat)).isSome)
      (some { bytes := buildV3Archive 3580 dk (strBytes mapInfosEntryName) P,
              version := 3,
              records := [{ name := strBytes mapInfosEntryName,
                            offset := 44 + (strBytes mapInfosEntryName).length,
                            size := P.length, data_key := dk }] })
      "MapInfos.json" = some (.archiveEntry "Data\\MapInfos.rvdata2") := rfl
  rw [hloc]
  dsimp only []
  have hread : read_entry
      { bytes := buildV3Archive 3580 dk (strBytes mapInfosEntryName) P,
        version := 3,
        records := [{ name := strBytes mapInfosEntryName,
                      offset := 44 + (strBytes mapInfosEntryName).length,
                      size := P.length, data_key := dk }] }
      (strBytes "Data\\MapInfos.rvdata2") = .ok P := by
    unfold read_entry
    rw [show findEntry
        (rgssEntries
          { bytes := buildV3Archive 3580 dk (strBytes mapInfosEntryName) P,
            version := 3,
            records := [{ name := strBytes mapInfosEntryName,
                          offset := 44 + (strBytes mapInfosEntryName).length,
                          size := P.length, data_key := dk }] })
        (canonicalName (strBytes "Data\\MapInfos.rvdata2")) =
      some { name := strBytes mapInfosEntryName,
             offset := 44 + (strBytes mapInfosEntryName).length,
             size := P.length, data_key := dk } from rfl]
    dsimp only []
    exact read_decrypt_build 3580 dk (strBytes mapInfosEntryName) P
  rw [hread]
  dsimp only []
  rw [hmar]
  rfl

/-- C2, witness: data key 100, payload `[1, 2, 3]`, a deserializer sending
it to the empty array, and the archive parsed from the built bytes. -/
theorem c2_seed3580_mapinfos_witness :
    (100 < u32Mod ∧
      44 + (strBytes mapInfosEntryName).length +
        ([1, 2, 3] : List Nat).length < u32Mod ∧
      parse_index (buildV3Archive 3580 100 (strBytes mapInfosEntryName) [1, 2, 3]) =
        .ok { bytes := buildV3Archive 3580 100 (strBytes mapInfosEntryName) [1, 2, 3],
              version := 3,
              records := [{ name := strBytes mapInfosEntryName,
                            offset := 44 + (strBytes mapInfosEntryName).length,
                            size := 3, data_key := 100 }] }) ∧
    load_json_vx (fun _ => "") (fun _ => some (.list [])) (fun _ => Option.none)
      (some { bytes := buildV3Archive 3580 100 (strBytes mapInfosEntryName) [1, 2, 3],
              version := 3,
              records := [{ name := strBytes mapInfosEntryName,
                            offset := 44 + (strBytes mapInfosEntryName).length,
                            size := 3, data_key := 100 }] })
      "MapInfos.json" = some (.list []) :=
  ⟨⟨by norm_num [u32Mod], by decide, by rfl⟩,
   c2_seed3580_mapinfos (fun _ => "") (fun _ => some (.list [])) 100 [1, 2, 3] _
     (by norm_num [u32Mod]) (by decide) (by rfl) rfl⟩

/-! ## C7: sparse-to-dense event arrays -/

/-- Assigning a key and then looking it up yields the assigned value. -/
theorem intAssocGet_set_self (l : List (Int × Val)) (k : Int) (v : Val) :
    intAssocGet (intAssocSet l k v) k = some v := by
  induction l with
  | nil => simp [intAssocSet, intAssocGet]
  | cons kv rest ih =>
      obtain ⟨k2, w⟩ := kv
      by_cases h : k2 = k
      · simp [intAssocSet, intAssocGet, h]
      · simp [intAssocSet, intAssocGet, h, ih]

/-- Assigning a key leaves lookups at other keys unchanged. -/
theorem intAssocGet_set_ne (l : List (Int × Val)) (k j : Int) (v : Val)
    (h : j ≠ k) : intAssocGet (intAssocSet l k v) j = intAssocGet l j := by
  induction l with
  | nil => simp [intAssocSet, intAssocGet, Ne.symm h]
  | cons kv rest ih =>
      obtain ⟨k2, w⟩ := kv
      by_cases h2 : k2 = k
      · subst h2
        simp [intAssocSet, intAssocGet, Ne.symm h]
      · by_cases h3 : k2 = j
        · simp [intAssocSet, intAssocGet, h2, h3, h]
        · simp [intAssocSet, intAssocGet, h2, h3, ih]

/-- Unfolding `posEventIds` one mapping entry at a time. -/
theorem posEventIds_cons (dec : List Nat → String) (kv : RVal × RVal)
    (kvs : List (RVal × RVal)) :
    posEventIds dec (kv :: kvs) =
      if 0 < pairEventId dec kv then pairEventId dec kv :: posEventIds dec kvs
      else posEventIds dec kvs := by
  by_cases h : 0 < pairEventId dec kv
  · simp [posEventIds, List.filter_cons, h]
  · simp [posEventIds, List.filter_cons, h]

/-- A non-positive-id entry is skipped by the accumulation step. -/
theorem eventDictStep_skip (dec : List Nat → String)
    (acc : List (Int × Val) × Nat) (kv : RVal × RVal)
    (h : pairEventId dec kv ≤ 0) : eventDictStep dec acc kv = acc := by
  unfold pairEventId at h
  unfold eventDictStep
  dsimp only []
  rw [if_pos h]

/-- A positive-id entry is filed under its id and bumps the running maximum. -/
theorem eventDictStep_set (dec : List Nat → String)
    (acc : List (Int × Val) × Nat) (kv : RVal × RVal)
    (h : 0 < pairEventId dec kv) :
    eventDictStep dec acc kv =
      (intAssocSet acc.1 (pairEventId dec kv)
        (pySetKey (convert_event dec kv.2) "id" (.int (pairEventId dec kv))),
       max acc.2 (pairEventId dec kv).toNat) := by
  unfold pairEventId at h ⊢
  unfold eventDictStep
  dsimp only []
  rw [if_neg (not_le.mpr h)]

/-- Ids absent from the positive-id list are never written by the fold. -/
theorem eventDictFold_get_absent (dec : List Nat → String) :
    ∀ (kvs : List (RVal × RVal)) (acc : List (Int × Val) × Nat) (j : Int),
      j ∉ posEventIds dec kvs →
      intAssocGet (kvs.foldl (eventDictStep dec) acc).1 j = intAssocGet acc.1 j := by
  intro kvs
  induction kvs with
  | nil => intro acc j _; rfl
  | cons kv rest ih =>
      intro acc j hj
      rw [posEventIds_cons] at hj
      by_cases h : 0 < pairEventId dec kv
      · rw [if_pos h] at hj
        rw [List.mem_cons, not_or] at hj
        rw [List.foldl_cons, eventDictStep_set dec acc kv h, ih _ j hj.2]
        exact intAssocGet_set_ne _ _ _ _ hj.1
      · rw [if_neg h] at hj
        rw [List.foldl_cons, eventDictStep_skip dec acc kv (by omega)]
        exact ih acc j hj

/-- With no duplicate positive ids, each positive-id entry's slot in the
accumulated mapping holds its converted event (with the `"id"` field set). -/
theorem eventDictFold_get_mem (dec : List Nat → String) :
    ∀ (kvs : List (RVal × RVal)) (acc : List (Int × Val) × Nat) (kv : RVal × RVal),
      kv ∈ kvs → 0 < pairEventId dec kv → (posEventIds dec kvs).Nodup →
      intAssocGet (kvs.foldl (eventDictStep dec) acc).1 (pairEventId dec kv) =
        some (pySetKey (convert_event dec kv.2) "id" (.int (pairEventId dec kv))) := by
  intro kvs
  induction kvs with
  | nil => intro acc kv hmem; exact absurd hmem (List.not_mem_nil kv)
  | cons kv0 rest ih =>
      intro acc kv hmem hpos hnodup
      rw [posEventIds_cons] at hnodup
      rcases List.mem_cons.mp hmem with heq | hmem2
      · subst heq
        rw [if_pos hpos] at hnodup
        have hnotin : pairEventId dec kv ∉ posEventIds dec rest :=
          (List.nodup_cons.mp hnodup).1
        rw [List.foldl_cons, eventDictStep_set dec acc kv hpos,
            eventDictFold_get_absent dec rest _ _ hnotin]
        exact intAssocGet_set_self _ _ _
      · by_cases h0 : 0 < pairEventId dec kv0
        · rw [if_pos h0] at hnodup
          rw [List.foldl_cons, eventDictStep_set dec acc kv0 h0]
          exact ih _ kv hmem2 hpos (List.nodup_cons.mp hnodup).2
        · rw [if_neg h0] at hnodup
          rw [List.foldl_cons, eventDictStep_skip dec acc kv0 (by omega)]
          exact ih acc kv hmem2 hpos hnodup

/-- The fold's second component is the running maximum of the positive ids. -/
theorem eventDictFold_snd (dec : List Nat → String) :
    ∀ (kvs : List (RVal × RVal)) (acc : List (Int × Val) × Nat),
      (kvs.foldl (eventDictStep dec) acc).2 =
        ((posEventIds dec kvs).map Int.toNat).foldl max acc.2 := by
  intro kvs
  induction kvs with
  | nil => intro acc; rfl
  | cons kv rest ih =>
      intro acc
      rw [posEventIds_cons]
      by_cases h : 0 < pairEventId dec kv
      · rw [if_pos h, List.foldl_cons, eventDictStep_set dec acc kv h, ih,
          List.map_cons, List.foldl_cons]
      · rw [if_neg h, List.foldl_cons, eventDictStep_skip dec acc kv (by omega), ih]

/-- The initial value is below a `foldl max`. -/
theorem le_foldl_max (l : List Nat) : ∀ m : Nat, m ≤ l.foldl max m := by
  induction l with
  | nil => intro m; exact le_refl m
  | cons a rest ih =>
      intro m
      exact le_trans (le_max_left m a) (ih (max m a))

/-- Every element is below a `foldl max`. -/
theorem mem_le_foldl_max (l : List Nat) :
    ∀ (m x : Nat), x ∈ l → x ≤ l.foldl max m := by
  induction l with
  | nil => intro m x hx; exact absurd hx (List.not_mem_nil x)
  | cons a rest ih =>
      intro m x hx
      rcases List.mem_cons.mp hx with heq | hmem
      · subst heq
        exact le_trans (le_max_right m x) (le_foldl_max rest (max m x))
      · exact ih (max m a) x hmem

/-- C7: for every sparse id-to-event mapping whose positive ids are distinct
(as Python dict keys are), `_convert_event_dict_to_list` produces a dense
array of length `max positive id + 1`; each positive id's slot holds that
id's converted event (with the id written into its `"id"` field) and every
other slot — index 0 and ids not present included — holds the absence
marker `None`. -/
theorem c7_sparse_to_dense (dec : List Nat → String) (kvs : List (RVal × RVal))
    (hnodup : (posEventIds dec kvs).Nodup) :
    (convert_event_dict_to_list dec (.dict kvs)).length = maxEventId dec kvs + 1 ∧
    (∀ kv ∈ kvs, 0 < pairEventId dec kv →
      (convert_event_dict_to_list dec (.dict kvs))[(pairEventId dec kv).toNat]? =
        some (pySetKey (convert_event dec kv.2) "id" (.int (pairEventId dec kv)))) ∧
    (∀ i : Nat, i ≤ maxEventId dec kvs → (i : Int) ∉ posEventIds dec kvs →
      (convert_event_dict_to_list dec (.dict kvs))[i]? = some Val.none) := by
  have hsnd : (eventDictFold dec kvs).2 = maxEventId dec kvs :=
    eventDictFold_snd dec kvs ([], 0)
  have hout : convert_event_dict_to_list dec (.dict kvs) =
      (List.range (maxEventId dec kvs + 1)).map
        (fun i : Nat =>
          (intAssocGet (eventDictFold dec kvs).1 (↑i : Int)).getD .none) := by
    unfold convert_event_dict_to_list
    dsimp only []
    rw [hsnd]
  refine ⟨?_, ?_, ?_⟩
  · rw [hout, List.length_map, List.length_range]
  · intro kv hmem hpos
    have hmemPos : pairEventId dec kv ∈ posEventIds dec kvs :=
      List.mem_filter.mpr ⟨List.mem_map_of_mem _ hmem, by simpa using hpos⟩
    have hidx : (pairEventId dec kv).toNat < maxEventId dec kvs + 1 :=
      Nat.lt_succ_of_le
        (mem_le_foldl_max _ 0 _ (List.mem_map_of_mem Int.toNat hmemPos))
    rw [hout, List.getElem?_map,
        List.getElem?_eq_getElem (by simpa using hidx)]
    simp only [List.getElem_range, Option.map_some']
    rw [Int.toNat_of_nonneg (le_of_lt hpos)]
    have hget := eventDictFold_get_mem dec kvs ([], 0) kv hmem hpos hnodup
    rw [eventDictFold, hget]
    rfl
  · intro i hle hnot
    have hidx : i < maxEventId dec kvs + 1 := Nat.lt_succ_of_le hle
    rw [hout, List.getElem?_map,
        List.getElem?_eq_getElem (by simpa using hidx)]
    simp only [List.getElem_range, Option.map_some']
    have hget : intAssocGet (kvs.foldl (eventDictStep dec) ([], 0)).1 (↑i : Int) =
        Option.none :=
      (eventDictFold_get_absent dec kvs ([], 0) (↑i : Int) hnot).trans rfl
    rw [eventDictFold, hget]
    rfl

/-- C7, witness: the mapping `{5: evtA, 2: evtB}` yields a dense array of
length 6 with slots 0, 1, 3, 4 absent and slots 2 and 5 populated. -/
theorem c7_sparse_to_dense_witness :
    (posEventIds (fun _ => "") exEventKvs).Nodup ∧
    (convert_event_dict_to_list (fun _ => "") (.dict exEventKvs)).length = 6 ∧
    (convert_event_dict_to_list (fun _ => "") (.dict exEventKvs))[0]? =
      some Val.none ∧
    (convert_event_dict_to_list (fun _ => "") (.dict exEventKvs))[1]? =
      some Val.none ∧
    (convert_event_dict_to_list (fun _ => "") (.dict exEventKvs))[3]? =
      some Val.none ∧
    (convert_event_dict_to_list (fun _ => "") (.dict exEventKvs))[4]? =
      some Val.none ∧
    (convert_event_dict_to_list (fun _ => "") (.dict exEventKvs))[2]? =
      some (pySetKey (convert_event (fun _ => "") exEvtB) "id" (.int 2)) ∧
    (convert_event_dict_to_list (fun _ => "") (.dict exEventKvs))[5]? =
      some (pySetKey (convert_event (fun _ => "") exEvtA) "id" (.int 5)) := by
  have hnodup : (posEventIds (fun _ => "") exEventKvs).Nodup := by decide
  have h := c7_sparse_to_dense (fun _ => "") exEventKvs hnodup
  refine ⟨hnodup, h.1, ?_, ?_, ?_, ?_, ?_, ?_⟩
  · exact h.2.2 0 (by decide) (by decide)
  · exact h.2.2 1 (by decide) (by decide)
  · exact h.2.2 3 (by decide) (by decide)
  · exact h.2.2 4 (by decide) (by decide)
  · exact h.2.1 (.int 2, exEvtB)
      (List.mem_cons_of_mem _ (List.mem_cons_self _ _)) (by decide)
  · exact h.2.1 (.int 5, exEvtA) (List.mem_cons_self _ _) (by decide)

/-! ## C6: story pages mark their battle references special/plot -/

/-- `Val.beq` is reflexive on string values. -/
theorem val_beq_str_refl (s : String) : (Val.str s == Val.str s) = true := by
  simp [BEq.beq, Val.beq]

/-- A value equal (under `==`) to one string literal differs from any
other. -/
theorem val_beq_str_excl (s1 s2 : String) (hne : (s1 == s2) = false) :
    ∀ z : Val, (z == Val.str s1) = true → (z == Val.str s2) = false := by
  intro z hz
  cases z with
  | str a =>
      have ha : a = s1 := eq_of_beq (by simpa [BEq.beq, Val.beq] using hz)
      subst ha
      simpa [BEq.beq, Val.beq] using hne
  | none => simpa [BEq.beq, Val.beq] using hz
  | bool b => simpa [BEq.beq, Val.beq] using hz
  | int n => simpa [BEq.beq, Val.beq] using hz
  | list xs => simpa [BEq.beq, Val.beq] using hz
  | dict kvs => simpa [BEq.beq, Val.beq] using hz

/-- Looking up the key just assigned yields the assigned value. -/
theorem assocGet_assocSet_self (kvs : List (Val × Val)) (s : String) (x : Val) :
    assocGet (assocSet kvs (.str s) x) (.str s) = some x := by
  induction kvs with
  | nil =>
      show assocGet [(Val.str s, x)] (Val.str s) = some x
      unfold assocGet
      rw [if_pos (val_beq_str_refl s)]
  | cons kv rest ih =>
      obtain ⟨k2, w⟩ := kv
      unfold assocSet
      cases h : (k2 == Val.str s) with
      | true =>
          rw [if_pos rfl]
          unfold assocGet
          rw [if_pos h]
      | false =>
          have h' : ¬ (k2 == Val.str s) = true := by
            rw [h]; exact Bool.false_ne_true
          rw [if_neg Bool.false_ne_true]
          unfold assocGet
          rw [if_neg h']
          exact ih

/-- Assigning one string key leaves lookups at a different string key
unchanged. -/
theorem assocGet_assocSet_ne (kvs : List (Val × Val)) (s q : String) (x : Val)
    (hne : (s == q) = false) :
    assocGet (assocSet kvs (.str s) x) (.str q) = assocGet kvs (.str q) := by
  induction kvs with
  | nil =>
      show assocGet [(Val.str s, x)] (Val.str q) = assocGet [] (Val.str q)
      unfold assocGet
      rw [if_neg (by
        rw [val_beq_str_excl s q hne (Val.str s) (val_beq_str_refl s)]
        exact Bool.false_ne_true)]
      rfl
  | cons kv rest ih =>
      obtain ⟨k2, w⟩ := kv
      unfold assocSet
      cases h : (k2 == Val.str s) with
      | true =>
          have h2 : ¬ (k2 == Val.str q) = true := by
            rw [val_beq_str_excl s q hne k2 h]; exact Bool.false_ne_true
          rw [if_pos rfl]
          unfold assocGet
          rw [if_neg h2, if_neg h2]
      | false =>
          rw [if_neg Bool.false_ne_true]
          unfold assocGet
          cases h3 : (k2 == Val.str q) with
          | true => rw [if_pos rfl, if_pos rfl]
          | false =>
              rw [if_neg Bool.false_ne_true, if_neg Bool.false_ne_true]
              exact ih

/-- The `"kind"` field of an item reference is the kind it was built
with. -/
theorem make_item_ref_kind (kind iid : Val) (name : String) (r : Val)
    (h : make_item_ref kind iid name = some r) :
    pyGetD r "kind" .none = kind := by
  unfold make_item_ref at h
  split_ifs at h with hc
  injection h with h2
  subst h2
  rfl

/-- The `"kind"` field of `_fmt_item`'s reference is the kind argument. -/
theorem fmt_item_ref_kind (p : Val) (label : String) (nameOf : Val → String)
    (kind : String) (r : Val) (h : (fmt_item p label nameOf kind).2 = some r) :
    pyGetD r "kind" .none = .str kind := by
  have h2 : make_item_ref (.str kind) (pAt p 0 (.int 0))
      (nameOf (pAt p 0 (.int 0))) = some r := h
  exact make_item_ref_kind _ _ _ _ h2

/-- The `"kind"` field of `_fmt_transfer`'s reference is `"transfer"`. -/
theorem fmt_transfer_ref_kind (st : InterpState) (p : Val) (r : Val)
    (h : (fmt_transfer st p).2 = some r) :
    pyGetD r "kind" .none = .str "transfer" := by
  unfold fmt_transfer at h
  dsimp only [] at h
  split_ifs at h with hc
  injection h with h2
  subst h2
  rfl

/-- A reference whose `"kind"` is anything other than `"troop"` or
`"encounter"` is not a battle reference. -/
theorem notBattle_of_kind {r k : Val} (hk : pyGetD r "kind" .none = k)
    (hne : (k == Val.str "troop" || k == Val.str "encounter") = false) :
    isBattleRef r = false := by
  unfold isBattleRef
  rw [hk]
  exact hne

/-- No shop-line reference is a battle reference. -/
theorem shopLine_refs_not_battle (st : InterpState) (p : Val) (head : String)
    (r : Val) (h : r ∈ (translate_misc2.shopLine st p head).2) :
    isBattleRef r = false := by
  unfold translate_misc2.shopLine at h
  dsimp only [] at h
  split at h
  next r2 heq =>
    have hr2 : r = r2 := by simpa using h
    subst hr2
    have hk := make_item_ref_kind _ _ _ _ heq
    refine notBattle_of_kind hk ?_
    split_ifs <;> rfl
  next => exact absurd h (List.not_mem_nil r)

set_option maxHeartbeats 2000000 in
/-- `_translate_misc2`: every line either is a `"cmd-battle"` line or
carries no battle-kind reference. -/
theorem translate_misc2_battleOk (st : InterpState) (code p : Val) :
    tresultBattleOk (translate_misc2 st code p) := by
  unfold translate_misc2
  by_cases h0 : (pyEqInt code 132) = true
  · rw [if_pos h0]
    first
      | exact Or.inl rfl
      | exact Or.inr (fun r hr => absurd hr (List.not_mem_nil r))
      | ((try dsimp only [])
         repeat' split
         all_goals
           first
             | exact Or.inl rfl
             | exact Or.inr (fun r hr => absurd hr (List.not_mem_nil r)))
  rw [if_neg h0]
  by_cases h1 : (pyEqInt code 133) = true
  · rw [if_pos h1]
    first
      | exact Or.inl rfl
      | exact Or.inr (fun r hr => absurd hr (List.not_mem_nil r))
      | ((try dsimp only [])
         repeat' split
         all_goals
           first
             | exact Or.inl rfl
             | exact Or.inr (fun r hr => absurd hr (List.not_mem_nil r)))
  rw [if_neg h1]
  by_cases h2 : (pyEqInt code 134) = true
  · rw [if_pos h2]
    first
      | exact Or.inl rfl
      | exact Or.inr (fun r hr => absurd hr (List.not_mem_nil r))
      | ((try dsimp only [])
         repeat' split
         all_goals
           first
             | exact Or.inl rfl
             | exact Or.inr (fun r hr => absurd hr (List.not_mem_nil r)))
  rw [if_neg h2]
  by_cases h3 : (pyEqInt code 135) = true
  · rw [if_pos h3]
    first
      | exact Or.inl rfl
      | exact Or.inr (fun r hr => absurd hr (List.not_mem_nil r))
      | ((try dsimp only [])
         repeat' split
         all_goals
           first
             | exact Or.inl rfl
             | exact Or.inr (fun r hr => absurd hr (List.not_mem_nil r)))
  rw [if_neg h3]
  by_cases h4 : (pyEqInt code 136) = true
  · rw [if_pos h4]
    first
      | exact Or.inl rfl
      | exact Or.inr (fun r hr => absurd hr (List.not_mem_nil r))
      | ((try dsimp only [])
         repeat' split
         all_goals
           first
             | exact Or.inl rfl
             | exact Or.inr (fun r hr => absurd hr (List.not_mem_nil r)))
  rw [if_neg h4]
  by_cases h5 : (pyEqInt code 137) = true
  · rw [if_pos h5]
    first
      | exact Or.inl rfl
      | exact Or.inr (fun r hr => absurd hr (List.not_mem_nil r))
      | ((try dsimp only [])
         repeat' split
         all_goals
           first
             | exact Or.inl rfl
             | exact Or.inr (fun r hr => absurd hr (List.not_mem_nil r)))
  rw [if_neg h5]
  by_cases h6 : (pyEqInt code 138) = true
  · rw [if_pos h6]
    first
      | exact Or.inl rfl
      | exact Or.inr (fun r hr => absurd hr (List.not_mem_nil r))
      | ((try dsimp only [])
         repeat' split
         all_goals
           first
             | exact Or.inl rfl
             | exact Or.inr (fun r hr => absurd hr (List.not_mem_nil r)))
  rw [if_neg h6]
  by_cases h7 : (pyEqInt code 139) = true
  · rw [if_pos h7]
    first
      | exact Or.inl rfl
      | exact Or.inr (fun r hr => absurd hr (List.not_mem_nil r))
      | ((try dsimp only [])
         repeat' split
         all_goals
           first
             | exact Or.inl rfl
             | exact Or.inr (fun r hr => absurd hr (List.not_mem_nil r)))
  rw [if_neg h7]
  by_cases h8 : (pyEqInt code 140) = true
  · rw [if_pos h8]
    first
      | exact Or.inl rfl
      | exact Or.inr (fun r hr => absurd hr (List.not_mem_nil r))
      | ((try dsimp only [])
         repeat' split
         all_goals
           first
             | exact Or.inl rfl
             | exact Or.inr (fun r hr => absurd hr (List.not_mem_nil r)))
  rw [if_neg h8]
  by_cases h9 : (pyEqInt code 281) = true
  · rw [if_pos h9]
    first
      | exact Or.inl rfl
      | exact Or.inr (fun r hr => absurd hr (List.not_mem_nil r))
      | ((try dsimp only [])
         repeat' split
         all_goals
           first
             | exact Or.inl rfl
             | exact Or.inr (fun r hr => absurd hr (List.not_mem_nil r)))
  rw [if_neg h9]
  by_cases h10 : (pyEqInt code 282) = true
  · rw [if_pos h10]
    first
      | exact Or.inl rfl
      | exact Or.inr (fun r hr => absurd hr (List.not_mem_nil r))
      | ((try dsimp only [])
         repeat' split
         all_goals
           first
             | exact Or.inl rfl
             | exact Or.inr (fun r hr => absurd hr (List.not_mem_nil r)))
  rw [if_neg h10]
  by_cases h11 : (pyEqInt code 283) = true
  · rw [if_pos h11]
    first
      | exact Or.inl rfl
      | exact Or.inr (fun r hr => absurd hr (List.not_mem_nil r))
      | ((try dsimp only [])
         repeat' split
         all_goals
           first
             | exact Or.inl rfl
             | exact Or.inr (fun r hr => absurd hr (List.not_mem_nil r)))
  rw [if_neg h11]
  by_cases h12 : (pyEqInt code 284) = true
  · rw [if_pos h12]
    first
      | exact Or.inl rfl
      | exact Or.inr (fun r hr => absurd hr (List.not_mem_nil r))
      | ((try dsimp only [])
         repeat' split
         all_goals
           first
             | exact Or.inl rfl
             | exact Or.inr (fun r hr => absurd hr (List.not_mem_nil r)))
  rw [if_neg h12]
  by_cases h13 : (pyEqInt code 302) = true
  · rw [if_pos h13]
    exact Or.inr (fun r hr => shopLine_refs_not_battle st p "[商店] " r hr)
  rw [if_neg h13]
  by_cases h14 : (pyEqInt code 605) = true
  · rw [if_pos h14]
    exact Or.inr (fun r hr => shopLine_refs_not_battle st p "  + " r hr)
  rw [if_neg h14]
  by_cases h15 : (pyEqInt code 303) = true
  · rw [if_pos h15]
    first
      | exact Or.inl rfl
      | exact Or.inr (fun r hr => absurd hr (List.not_mem_nil r))
      | ((try dsimp only [])
         repeat' split
         all_goals
           first
             | exact Or.inl rfl
             | exact Or.inr (fun r hr => absurd hr (List.not_mem_nil r)))
  rw [if_neg h15]
  by_cases h16 : (pyEqInt code 311) = true
  · rw [if_pos h16]
    first
      | exact Or.inl rfl
      | exact Or.inr (fun r hr => absurd hr (List.not_mem_nil r))
      | ((try dsimp only [])
         repeat' split
         all_goals
           first
             | exact Or.inl rfl
             | exact Or.inr (fun r hr => absurd hr (List.not_mem_nil r)))
  rw [if_neg h16]
  by_cases h17 : (pyEqInt code 312) = true
  · rw [if_pos h17]
    first
      | exact Or.inl rfl
      | exact Or.inr (fun r hr => absurd hr (List.not_mem_nil r))
      | ((try dsimp only [])
         repeat' split
         all_goals
           first
             | exact Or.inl rfl
             | exact Or.inr (fun r hr => absurd hr (List.not_mem_nil r)))
  rw [if_neg h17]
  by_cases h18 : (pyEqInt code 313) = true
  · rw [if_pos h18]
    first
      | exact Or.inl rfl
      | exact Or.inr (fun r hr => absurd hr (List.not_mem_nil r))
      | ((try dsimp only [])
         repeat' split
         all_goals
           first
             | exact Or.inl rfl
             | exact Or.inr (fun r hr => absurd hr (List.not_mem_nil r)))
  rw [if_neg h18]
  by_cases h19 : (pyEqInt code 314) = true
  · rw [if_pos h19]
    first
      | exact Or.inl rfl
      | exact Or.inr (fun r hr => absurd hr (List.not_mem_nil r))
      | ((try dsimp only [])
         repeat' split
         all_goals
           first
             | exact Or.inl rfl
             | exact Or.inr (fun r hr => absurd hr (List.not_mem_nil r)))
  rw [if_neg h19]
  by_cases h20 : (pyEqInt code 315) = true
  · rw [if_pos h20]
    first
      | exact Or.inl rfl
      | exact Or.inr (fun r hr => absurd hr (List.not_mem_nil r))
      | ((try dsimp only [])
         repeat' split
         all_goals
           first
             | exact Or.inl rfl
             | exact Or.inr (fun r hr => absurd hr (List.not_mem_nil r)))
  rw [if_neg h20]
  by_cases h21 : (pyEqInt code 316) = true
  · rw [if_pos h21]
    first
      | exact Or.inl rfl
      | exact Or.inr (fun r hr => absurd hr (List.not_mem_nil r))
      | ((try dsimp only [])
         repeat' split
         all_goals
           first
             | exact Or.inl rfl
             | exact Or.inr (fun r hr => absurd hr (List.not_mem_nil r)))
  rw [if_neg h21]
  by_cases h22 : (pyEqInt code 317) = true
  · rw [if_pos h22]
    first
      | exact Or.inl rfl
      | exact Or.inr (fun r hr => absurd hr (List.not_mem_nil r))
      | ((try dsimp only [])
         repeat' split
         all_goals
           first
             | exact Or.inl rfl
             | exact Or.inr (fun r hr => absurd hr (List.not_mem_nil r)))
  rw [if_neg h22]
  by_cases h23 : (pyEqInt code 318) = true
  · rw [if_pos h23]
    first
      | exact Or.inl rfl
      | exact Or.inr (fun r hr => absurd hr (List.not_mem_nil r))
      | ((try dsimp only [])
         repeat' split
         all_goals
           first
             | exact Or.inl rfl
             | exact Or.inr (fun r hr => absurd hr (List.not_mem_nil r)))
  rw [if_neg h23]
  by_cases h24 : (pyEqInt code 319) = true
  · rw [if_pos h24]
    first
      | exact Or.inl rfl
      | exact Or.inr (fun r hr => absurd hr (List.not_mem_nil r))
      | ((try dsimp only [])
         repeat' split
         all_goals
           first
             | exact Or.inl rfl
             | exact Or.inr (fun r hr => absurd hr (List.not_mem_nil r)))
  rw [if_neg h24]
  by_cases h25 : (pyEqInt code 320) = true
  · rw [if_pos h25]
    first
      | exact Or.inl rfl
      | exact Or.inr (fun r hr => absurd hr (List.not_mem_nil r))
      | ((try dsimp only [])
         repeat' split
         all_goals
           first
             | exact Or.inl rfl
             | exact Or.inr (fun r hr => absurd hr (List.not_mem_nil r)))
  rw [if_neg h25]
  by_cases h26 : (pyEqInt code 321) = true
  · rw [if_pos h26]
    first
      | exact Or.inl rfl
      | exact Or.inr (fun r hr => absurd hr (List.not_mem_nil r))
      | ((try dsimp only [])
         repeat' split
         all_goals
           first
             | exact Or.inl rfl
             | exact Or.inr (fun r hr => absurd hr (List.not_mem_nil r)))
  rw [if_neg h26]
  by_cases h27 : (pyEqInt code 322) = true
  · rw [if_pos h27]
    first
      | exact Or.inl rfl
      | exact Or.inr (fun r hr => absurd hr (List.not_mem_nil r))
      | ((try dsimp only [])
         repeat' split
         all_goals
           first
             | exact Or.inl rfl
             | exact Or.inr (fun r hr => absurd hr (List.not_mem_nil r)))
  rw [if_neg h27]
  by_cases h28 : (pyEqInt code 323) = true
  · rw [if_pos h28]
    first
      | exact Or.inl rfl
      | exact Or.inr (fun r hr => absurd hr (List.not_mem_nil r))
      | ((try dsimp only [])
         repeat' split
         all_goals
           first
             | exact Or.inl rfl
             | exact Or.inr (fun r hr => absurd hr (List.not_mem_nil r)))
  rw [if_neg h28]
  by_cases h29 : (pyEqInt code 331) = true
  · rw [if_pos h29]
    first
      | exact Or.inl rfl
      | exact Or.inr (fun r hr => absurd hr (List.not_mem_nil r))
      | ((try dsimp only [])
         repeat' split
         all_goals
           first
             | exact Or.inl rfl
             | exact Or.inr (fun r hr => absurd hr (List.not_mem_nil r)))
  rw [if_neg h29]
  by_cases h30 : (pyEqInt code 332) = true
  · rw [if_pos h30]
    first
      | exact Or.inl rfl
      | exact Or.inr (fun r hr => absurd hr (List.not_mem_nil r))
      | ((try dsimp only [])
         repeat' split
         all_goals
           first
             | exact Or.inl rfl
             | exact Or.inr (fun r hr => absurd hr (List.not_mem_nil r)))
  rw [if_neg h30]
  by_cases h31 : (pyEqInt code 333) = true
  · rw [if_pos h31]
    first
      | exact Or.inl rfl
      | exact Or.inr (fun r hr => absurd hr (List.not_mem_nil r))
      | ((try dsimp only [])
         repeat' split
         all_goals
           first
             | exact Or.inl rfl
             | exact Or.inr (fun r hr => absurd hr (List.not_mem_nil r)))
  rw [if_neg h31]
  by_cases h32 : (pyEqInt code 334) = true
  · rw [if_pos h32]
    first
      | exact Or.inl rfl
      | exact Or.inr (fun r hr => absurd hr (List.not_mem_nil r))
      | ((try dsimp only [])
         repeat' split
         all_goals
           first
             | exact Or.inl rfl
             | exact Or.inr (fun r hr => absurd hr (List.not_mem_nil r)))
  rw [if_neg h32]
  by_cases h33 : (pyEqInt code 335) = true
  · rw [if_pos h33]
    first
      | exact Or.inl rfl
      | exact Or.inr (fun r hr => absurd hr (List.not_mem_nil r))
      | ((try dsimp only [])
         repeat' split
         all_goals
           first
             | exact Or.inl rfl
             | exact Or.inr (fun r hr => absurd hr (List.not_mem_nil r)))
  rw [if_neg h33]
  by_cases h34 : (pyEqInt code 336) = true
  · rw [if_pos h34]
    first
      | exact Or.inl rfl
      | exact Or.inr (fun r hr => absurd hr (List.not_mem_nil r))
      | ((try dsimp only [])
         repeat' split
         all_goals
           first
             | exact Or.inl rfl
             | exact Or.inr (fun r hr => absurd hr (List.not_mem_nil r)))
  rw [if_neg h34]
  by_cases h35 : (pyEqInt code 340) = true
  · rw [if_pos h35]
    first
      | exact Or.inl rfl
      | exact Or.inr (fun r hr => absurd hr (List.not_mem_nil r))
      | ((try dsimp only [])
         repeat' split
         all_goals
           first
             | exact Or.inl rfl
             | exact Or.inr (fun r hr => absurd hr (List.not_mem_nil r)))
  rw [if_neg h35]
  by_cases h36 : (pyEqInt code 342) = true
  · rw [if_pos h36]
    first
      | exact Or.inl rfl
      | exact Or.inr (fun r hr => absurd hr (List.not_mem_nil r))
      | ((try dsimp only [])
         repeat' split
         all_goals
           first
             | exact Or.inl rfl
             | exact Or.inr (fun r hr => absurd hr (List.not_mem_nil r)))
  rw [if_neg h36]
  by_cases h37 : (pyEqInt code 0 || pyEqInt code 404 || pyEqInt code 412 || pyEqInt code 413 || pyEqInt code 604) = true
  · rw [if_pos h37]
    first
      | exact Or.inl rfl
      | exact Or.inr (fun r hr => absurd hr (List.not_mem_nil r))
      | ((try dsimp only [])
         repeat' split
         all_goals
           first
             | exact Or.inl rfl
             | exact Or.inr (fun r hr => absurd hr (List.not_mem_nil r)))
  rw [if_neg h37]
  first
      | exact Or.inl rfl
      | exact Or.inr (fun r hr => absurd hr (List.not_mem_nil r))
      | ((try dsimp only [])
         repeat' split
         all_goals
           first
             | exact Or.inl rfl
             | exact Or.inr (fun r hr => absurd hr (List.not_mem_nil r)))

set_option maxHeartbeats 2000000 in
/-- `_translate_misc`: every line either is a `"cmd-battle"` line or
carries no battle-kind reference. -/
theorem translate_misc_battleOk (st : InterpState) (code p : Val) :
    tresultBattleOk (translate_misc st code p) := by
  unfold translate_misc
  by_cases h0 : (pyEqInt code 108) = true
  · rw [if_pos h0]
    first
      | exact Or.inl rfl
      | exact Or.inr (fun r hr => absurd hr (List.not_mem_nil r))
      | ((try dsimp only [])
         repeat' split
         all_goals
           first
             | exact Or.inl rfl
             | exact Or.inr (fun r hr => absurd hr (List.not_mem_nil r)))
  rw [if_neg h0]
  by_cases h1 : (pyEqInt code 408) = true
  · rw [if_pos h1]
    first
      | exact Or.inl rfl
      | exact Or.inr (fun r hr => absurd hr (List.not_mem_nil r))
      | ((try dsimp only [])
         repeat' split
         all_goals
           first
             | exact Or.inl rfl
             | exact Or.inr (fun r hr => absurd hr (List.not_mem_nil r)))
  rw [if_neg h1]
  by_cases h2 : (pyEqInt code 117) = true
  · rw [if_pos h2]
    first
      | exact Or.inl rfl
      | exact Or.inr (fun r hr => absurd hr (List.not_mem_nil r))
      | ((try dsimp only [])
         repeat' split
         all_goals
           first
             | exact Or.inl rfl
             | exact Or.inr (fun r hr => absurd hr (List.not_mem_nil r)))
  rw [if_neg h2]
  by_cases h3 : (pyEqInt code 118) = true
  · rw [if_pos h3]
    first
      | exact Or.inl rfl
      | exact Or.inr (fun r hr => absurd hr (List.not_mem_nil r))
      | ((try dsimp only [])
         repeat' split
         all_goals
           first
             | exact Or.inl rfl
             | exact Or.inr (fun r hr => absurd hr (List.not_mem_nil r)))
  rw [if_neg h3]
  by_cases h4 : (pyEqInt code 119) = true
  · rw [if_pos h4]
    first
      | exact Or.inl rfl
      | exact Or.inr (fun r hr => absurd hr (List.not_mem_nil r))
      | ((try dsimp only [])
         repeat' split
         all_goals
           first
             | exact Or.inl rfl
             | exact Or.inr (fun r hr => absurd hr (List.not_mem_nil r)))
  rw [if_neg h4]
  by_cases h5 : (pyEqInt code 230) = true
  · rw [if_pos h5]
    first
      | exact Or.inl rfl
      | exact Or.inr (fun r hr => absurd hr (List.not_mem_nil r))
      | ((try dsimp only [])
         repeat' split
         all_goals
           first
             | exact Or.inl rfl
             | exact Or.inr (fun r hr => absurd hr (List.not_mem_nil r)))
  rw [if_neg h5]
  by_cases h6 : (pyEqInt code 241) = true
  · rw [if_pos h6]
    first
      | exact Or.inl rfl
      | exact Or.inr (fun r hr => absurd hr (List.not_mem_nil r))
      | ((try dsimp only [])
         repeat' split
         all_goals
           first
             | exact Or.inl rfl
             | exact Or.inr (fun r hr => absurd hr (List.not_mem_nil r)))
  rw [if_neg h6]
  by_cases h7 : (pyEqInt code 245) = true
  · rw [if_pos h7]
    first
      | exact Or.inl rfl
      | exact Or.inr (fun r hr => absurd hr (List.not_mem_nil r))
      | ((try dsimp only [])
         repeat' split
         all_goals
           first
             | exact Or.inl rfl
             | exact Or.inr (fun r hr => absurd hr (List.not_mem_nil r)))
  rw [if_neg h7]
  by_cases h8 : (pyEqInt code 250) = true
  · rw [if_pos h8]
    first
      | exact Or.inl rfl
      | exact Or.inr (fun r hr => absurd hr (List.not_mem_nil r))
      | ((try dsimp only [])
         repeat' split
         all_goals
           first
             | exact Or.inl rfl
             | exact Or.inr (fun r hr => absurd hr (List.not_mem_nil r)))
  rw [if_neg h8]
  by_cases h9 : (pyEqInt code 301) = true
  · rw [if_pos h9]
    first
      | exact Or.inl rfl
      | exact Or.inr (fun r hr => absurd hr (List.not_mem_nil r))
      | ((try dsimp only [])
         repeat' split
         all_goals
           first
             | exact Or.inl rfl
             | exact Or.inr (fun r hr => absurd hr (List.not_mem_nil r)))
  rw [if_neg h9]
  by_cases h10 : (pyEqInt code 601) = true
  · rw [if_pos h10]
    first
      | exact Or.inl rfl
      | exact Or.inr (fun r hr => absurd hr (List.not_mem_nil r))
      | ((try dsimp only [])
         repeat' split
         all_goals
           first
             | exact Or.inl rfl
             | exact Or.inr (fun r hr => absurd hr (List.not_mem_nil r)))
  rw [if_neg h10]
  by_cases h11 : (pyEqInt code 602) = true
  · rw [if_pos h11]
    first
      | exact Or.inl rfl
      | exact Or.inr (fun r hr => absurd hr (List.not_mem_nil r))
      | ((try dsimp only [])
         repeat' split
         all_goals
           first
             | exact Or.inl rfl
             | exact Or.inr (fun r hr => absurd hr (List.not_mem_nil r)))
  rw [if_neg h11]
  by_cases h12 : (pyEqInt code 603) = true
  · rw [if_pos h12]
    first
      | exact Or.inl rfl
      | exact Or.inr (fun r hr => absurd hr (List.not_mem_nil r))
      | ((try dsimp only [])
         repeat' split
         all_goals
           first
             | exact Or.inl rfl
             | exact Or.inr (fun r hr => absurd hr (List.not_mem_nil r)))
  rw [if_neg h12]
  by_cases h13 : (pyEqInt code 355) = true
  · rw [if_pos h13]
    first
      | exact Or.inl rfl
      | exact Or.inr (fun r hr => absurd hr (List.not_mem_nil r))
      | ((try dsimp only [])
         repeat' split
         all_goals
           first
             | exact Or.inl rfl
             | exact Or.inr (fun r hr => absurd hr (List.not_mem_nil r)))
  rw [if_neg h13]
  by_cases h14 : (pyEqInt code 655) = true
  · rw [if_pos h14]
    first
      | exact Or.inl rfl
      | exact Or.inr (fun r hr => absurd hr (List.not_mem_nil r))
      | ((try dsimp only [])
         repeat' split
         all_goals
           first
             | exact Or.inl rfl
             | exact Or.inr (fun r hr => absurd hr (List.not_mem_nil r)))
  rw [if_neg h14]
  by_cases h15 : (pyEqInt code 356) = true
  · rw [if_pos h15]
    first
      | exact Or.inl rfl
      | exact Or.inr (fun r hr => absurd hr (List.not_mem_nil r))
      | ((try dsimp only [])
         repeat' split
         all_goals
           first
             | exact Or.inl rfl
             | exact Or.inr (fun r hr => absurd hr (List.not_mem_nil r)))
  rw [if_neg h15]
  by_cases h16 : (pyEqInt code 202) = true
  · rw [if_pos h16]
    first
      | exact Or.inl rfl
      | exact Or.inr (fun r hr => absurd hr (List.not_mem_nil r))
      | ((try dsimp only [])
         repeat' split
         all_goals
           first
             | exact Or.inl rfl
             | exact Or.inr (fun r hr => absurd hr (List.not_mem_nil r)))
  rw [if_neg h16]
  by_cases h17 : (pyEqInt code 203) = true
  · rw [if_pos h17]
    first
      | exact Or.inl rfl
      | exact Or.inr (fun r hr => absurd hr (List.not_mem_nil r))
      | ((try dsimp only [])
         repeat' split
         all_goals
           first
             | exact Or.inl rfl
             | exact Or.inr (fun r hr => absurd hr (List.not_mem_nil r)))
  rw [if_neg h17]
  by_cases h18 : (pyEqInt code 204) = true
  · rw [if_pos h18]
    first
      | exact Or.inl rfl
      | exact Or.inr (fun r hr => absurd hr (List.not_mem_nil r))
      | ((try dsimp only [])
         repeat' split
         all_goals
           first
             | exact Or.inl rfl
             | exact Or.inr (fun r hr => absurd hr (List.not_mem_nil r)))
  rw [if_neg h18]
  by_cases h19 : (pyEqInt code 205) = true
  · rw [if_pos h19]
    first
      | exact Or.inl rfl
      | exact Or.inr (fun r hr => absurd hr (List.not_mem_nil r))
      | ((try dsimp only [])
         repeat' split
         all_goals
           first
             | exact Or.inl rfl
             | exact Or.inr (fun r hr => absurd hr (List.not_mem_nil r)))
  rw [if_neg h19]
  by_cases h20 : (pyEqInt code 505) = true
  · rw [if_pos h20]
    first
      | exact Or.inl rfl
      | exact Or.inr (fun r hr => absurd hr (List.not_mem_nil r))
      | ((try dsimp only [])
         repeat' split
         all_goals
           first
             | exact Or.inl rfl
             | exact Or.inr (fun r hr => absurd hr (List.not_mem_nil r)))
  rw [if_neg h20]
  by_cases h21 : (pyEqInt code 206) = true
  · rw [if_pos h21]
    first
      | exact Or.inl rfl
      | exact Or.inr (fun r hr => absurd hr (List.not_mem_nil r))
      | ((try dsimp only [])
         repeat' split
         all_goals
           first
             | exact Or.inl rfl
             | exact Or.inr (fun r hr => absurd hr (List.not_mem_nil r)))
  rw [if_neg h21]
  by_cases h22 : (pyEqInt code 211) = true
  · rw [if_pos h22]
    first
      | exact Or.inl rfl
      | exact Or.inr (fun r hr => absurd hr (List.not_mem_nil r))
      | ((try dsimp only [])
         repeat' split
         all_goals
           first
             | exact Or.inl rfl
             | exact Or.inr (fun r hr => absurd hr (List.not_mem_nil r)))
  rw [if_neg h22]
  by_cases h23 : (pyEqInt code 212) = true
  · rw [if_pos h23]
    first
      | exact Or.inl rfl
      | exact Or.inr (fun r hr => absurd hr (List.not_mem_nil r))
      | ((try dsimp only [])
         repeat' split
         all_goals
           first
             | exact Or.inl rfl
             | exact Or.inr (fun r hr => absurd hr (List.not_mem_nil r)))
  rw [if_neg h23]
  by_cases h24 : (pyEqInt code 213) = true
  · rw [if_pos h24]
    first
      | exact Or.inl rfl
      | exact Or.inr (fun r hr => absurd hr (List.not_mem_nil r))
      | ((try dsimp only [])
         repeat' split
         all_goals
           first
             | exact Or.inl rfl
             | exact Or.inr (fun r hr => absurd hr (List.not_mem_nil r)))
  rw [if_neg h24]
  by_cases h25 : (pyEqInt code 214) = true
  · rw [if_pos h25]
    first
      | exact Or.inl rfl
      | exact Or.inr (fun r hr => absurd hr (List.not_mem_nil r))
      | ((try dsimp only [])
         repeat' split
         all_goals
           first
             | exact Or.inl rfl
             | exact Or.inr (fun r hr => absurd hr (List.not_mem_nil r)))
  rw [if_neg h25]
  by_cases h26 : (pyEqInt code 216) = true
  · rw [if_pos h26]
    first
      | exact Or.inl rfl
      | exact Or.inr (fun r hr => absurd hr (List.not_mem_nil r))
      | ((try dsimp only [])
         repeat' split
         all_goals
           first
             | exact Or.inl rfl
             | exact Or.inr (fun r hr => absurd hr (List.not_mem_nil r)))
  rw [if_neg h26]
  by_cases h27 : (pyEqInt code 217) = true
  · rw [if_pos h27]
    first
      | exact Or.inl rfl
      | exact Or.inr (fun r hr => absurd hr (List.not_mem_nil r))
      | ((try dsimp only [])
         repeat' split
         all_goals
           first
             | exact Or.inl rfl
             | exact Or.inr (fun r hr => absurd hr (List.not_mem_nil r)))
  rw [if_neg h27]
  by_cases h28 : (pyEqInt code 221) = true
  · rw [if_pos h28]
    first
      | exact Or.inl rfl
      | exact Or.inr (fun r hr => absurd hr (List.not_mem_nil r))
      | ((try dsimp only [])
         repeat' split
         all_goals
           first
             | exact Or.inl rfl
             | exact Or.inr (fun r hr => absurd hr (List.not_mem_nil r)))
  rw [if_neg h28]
  by_cases h29 : (pyEqInt code 222) = true
  · rw [if_pos h29]
    first
      | exact Or.inl rfl
      | exact Or.inr (fun r hr => absurd hr (List.not_mem_nil r))
      | ((try dsimp only [])
         repeat' split
         all_goals
           first
             | exact Or.inl rfl
             | exact Or.inr (fun r hr => absurd hr (List.not_mem_nil r)))
  rw [if_neg h29]
  by_cases h30 : (pyEqInt code 223) = true
  · rw [if_pos h30]
    first
      | exact Or.inl rfl
      | exact Or.inr (fun r hr => absurd hr (List.not_mem_nil r))
      | ((try dsimp only [])
         repeat' split
         all_goals
           first
             | exact Or.inl rfl
             | exact Or.inr (fun r hr => absurd hr (List.not_mem_nil r)))
  rw [if_neg h30]
  by_cases h31 : (pyEqInt code 224) = true
  · rw [if_pos h31]
    first
      | exact Or.inl rfl
      | exact Or.inr (fun r hr => absurd hr (List.not_mem_nil r))
      | ((try dsimp only [])
         repeat' split
         all_goals
           first
             | exact Or.inl rfl
             | exact Or.inr (fun r hr => absurd hr (List.not_mem_nil r)))
  rw [if_neg h31]
  by_cases h32 : (pyEqInt code 225) = true
  · rw [if_pos h32]
    first
      | exact Or.inl rfl
      | exact Or.inr (fun r hr => absurd hr (List.not_mem_nil r))
      | ((try dsimp only [])
         repeat' split
         all_goals
           first
             | exact Or.inl rfl
             | exact Or.inr (fun r hr => absurd hr (List.not_mem_nil r)))
  rw [if_neg h32]
  by_cases h33 : (pyEqInt code 231) = true
  · rw [if_pos h33]
    first
      | exact Or.inl rfl
      | exact Or.inr (fun r hr => absurd hr (List.not_mem_nil r))
      | ((try dsimp only [])
         repeat' split
         all_goals
           first
             | exact Or.inl rfl
             | exact Or.inr (fun r hr => absurd hr (List.not_mem_nil r)))
  rw [if_neg h33]
  by_cases h34 : (pyEqInt code 232) = true
  · rw [if_pos h34]
    first
      | exact Or.inl rfl
      | exact Or.inr (fun r hr => absurd hr (List.not_mem_nil r))
      | ((try dsimp only [])
         repeat' split
         all_goals
           first
             | exact Or.inl rfl
             | exact Or.inr (fun r hr => absurd hr (List.not_mem_nil r)))
  rw [if_neg h34]
  by_cases h35 : (pyEqInt code 233) = true
  · rw [if_pos h35]
    first
      | exact Or.inl rfl
      | exact Or.inr (fun r hr => absurd hr (List.not_mem_nil r))
      | ((try dsimp only [])
         repeat' split
         all_goals
           first
             | exact Or.inl rfl
             | exact Or.inr (fun r hr => absurd hr (List.not_mem_nil r)))
  rw [if_neg h35]
  by_cases h36 : (pyEqInt code 234) = true
  · rw [if_pos h36]
    first
      | exact Or.inl rfl
      | exact Or.inr (fun r hr => absurd hr (List.not_mem_nil r))
      | ((try dsimp only [])
         repeat' split
         all_goals
           first
             | exact Or.inl rfl
             | exact Or.inr (fun r hr => absurd hr (List.not_mem_nil r)))
  rw [if_neg h36]
  by_cases h37 : (pyEqInt code 235) = true
  · rw [if_pos h37]
    first
      | exact Or.inl rfl
      | exact Or.inr (fun r hr => absurd hr (List.not_mem_nil r))
      | ((try dsimp only [])
         repeat' split
         all_goals
           first
             | exact Or.inl rfl
             | exact Or.inr (fun r hr => absurd hr (List.not_mem_nil r)))
  rw [if_neg h37]
  by_cases h38 : (pyEqInt code 242) = true
  · rw [if_pos h38]
    first
      | exact Or.inl rfl
      | exact Or.inr (fun r hr => absurd hr (List.not_mem_nil r))
      | ((try dsimp only [])
         repeat' split
         all_goals
           first
             | exact Or.inl rfl
             | exact Or.inr (fun r hr => absurd hr (List.not_mem_nil r)))
  rw [if_neg h38]
  by_cases h39 : (pyEqInt code 243) = true
  · rw [if_pos h39]
    first
      | exact Or.inl rfl
      | exact Or.inr (fun r hr => absurd hr (List.not_mem_nil r))
      | ((try dsimp only [])
         repeat' split
         all_goals
           first
             | exact Or.inl rfl
             | exact Or.inr (fun r hr => absurd hr (List.not_mem_nil r)))
  rw [if_neg h39]
  by_cases h40 : (pyEqInt code 244) = true
  · rw [if_pos h40]
    first
      | exact Or.inl rfl
      | exact Or.inr (fun r hr => absurd hr (List.not_mem_nil r))
      | ((try dsimp only [])
         repeat' split
         all_goals
           first
             | exact Or.inl rfl
             | exact Or.inr (fun r hr => absurd hr (List.not_mem_nil r)))
  rw [if_neg h40]
  by_cases h41 : (pyEqInt code 246) = true
  · rw [if_pos h41]
    first
      | exact Or.inl rfl
      | exact Or.inr (fun r hr => absurd hr (List.not_mem_nil r))
      | ((try dsimp only [])
         repeat' split
         all_goals
           first
             | exact Or.inl rfl
             | exact Or.inr (fun r hr => absurd hr (List.not_mem_nil r)))
  rw [if_neg h41]
  by_cases h42 : (pyEqInt code 251) = true
  · rw [if_pos h42]
    first
      | exact Or.inl rfl
      | exact Or.inr (fun r hr => absurd hr (List.not_mem_nil r))
      | ((try dsimp only [])
         repeat' split
         all_goals
           first
             | exact Or.inl rfl
             | exact Or.inr (fun r hr => absurd hr (List.not_mem_nil r)))
  rw [if_neg h42]
  by_cases h43 : (pyEqInt code 261) = true
  · rw [if_pos h43]
    first
      | exact Or.inl rfl
      | exact Or.inr (fun r hr => absurd hr (List.not_mem_nil r))
      | ((try dsimp only [])
         repeat' split
         all_goals
           first
             | exact Or.inl rfl
             | exact Or.inr (fun r hr => absurd hr (List.not_mem_nil r)))
  rw [if_neg h43]
  exact translate_misc2_battleOk st code p

set_option maxHeartbeats 2000000 in
/-- `_translate`: every line either is a `"cmd-battle"` line or carries
no battle-kind reference. -/
theorem translate_battleOk (st : InterpState) (code p : Val) :
    tresultBattleOk (translate st code p) := by
  unfold translate
  by_cases h0 : (pyEqInt code 101) = true
  · rw [if_pos h0]
    first
      | exact Or.inl rfl
      | exact Or.inr (fun r hr => absurd hr (List.not_mem_nil r))
      | ((try dsimp only [])
         repeat' split
         all_goals
           first
             | exact Or.inl rfl
             | exact Or.inr (fun r hr => absurd hr (List.not_mem_nil r)))
  rw [if_neg h0]
  by_cases h1 : (pyEqInt code 401) = true
  · rw [if_pos h1]
    first
      | exact Or.inl rfl
      | exact Or.inr (fun r hr => absurd hr (List.not_mem_nil r))
      | ((try dsimp only [])
         repeat' split
         all_goals
           first
             | exact Or.inl rfl
             | exact Or.inr (fun r hr => absurd hr (List.not_mem_nil r)))
  rw [if_neg h1]
  by_cases h2 : (pyEqInt code 102) = true
  · rw [if_pos h2]
    first
      | exact Or.inl rfl
      | exact Or.inr (fun r hr => absurd hr (List.not_mem_nil r))
      | ((try dsimp only [])
         repeat' split
         all_goals
           first
             | exact Or.inl rfl
             | exact Or.inr (fun r hr => absurd hr (List.not_mem_nil r)))
  rw [if_neg h2]
  by_cases h3 : (pyEqInt code 402) = true
  · rw [if_pos h3]
    first
      | exact Or.inl rfl
      | exact Or.inr (fun r hr => absurd hr (List.not_mem_nil r))
      | ((try dsimp only [])
         repeat' split
         all_goals
           first
             | exact Or.inl rfl
             | exact Or.inr (fun r hr => absurd hr (List.not_mem_nil r)))
  rw [if_neg h3]
  by_cases h4 : (pyEqInt code 403) = true
  · rw [if_pos h4]
    first
      | exact Or.inl rfl
      | exact Or.inr (fun r hr => absurd hr (List.not_mem_nil r))
      | ((try dsimp only [])
         repeat' split
         all_goals
           first
             | exact Or.inl rfl
             | exact Or.inr (fun r hr => absurd hr (List.not_mem_nil r)))
  rw [if_neg h4]
  by_cases h5 : (pyEqInt code 404) = true
  · rw [if_pos h5]
    first
      | exact Or.inl rfl
      | exact Or.inr (fun r hr => absurd hr (List.not_mem_nil r))
      | ((try dsimp only [])
         repeat' split
         all_goals
           first
             | exact Or.inl rfl
             | exact Or.inr (fun r hr => absurd hr (List.not_mem_nil r)))
  rw [if_neg h5]
  by_cases h6 : (pyEqInt code 111) = true
  · rw [if_pos h6]
    try dsimp only []
    repeat' split
    all_goals
      first
        | exact Or.inr (fun r hr => absurd hr (List.not_mem_nil r))
        | (rename_i r2 heq
           split_ifs at heq
           all_goals
             first
               | exact absurd heq (fun hx => Option.noConfusion hx)
               | exact Or.inr (fun r hr => by
                   rw [List.mem_singleton.mp hr]
                   exact notBattle_of_kind (make_item_ref_kind _ _ _ _ heq) rfl))
  rw [if_neg h6]
  by_cases h7 : (pyEqInt code 411) = true
  · rw [if_pos h7]
    first
      | exact Or.inl rfl
      | exact Or.inr (fun r hr => absurd hr (List.not_mem_nil r))
      | ((try dsimp only [])
         repeat' split
         all_goals
           first
             | exact Or.inl rfl
             | exact Or.inr (fun r hr => absurd hr (List.not_mem_nil r)))
  rw [if_neg h7]
  by_cases h8 : (pyEqInt code 412) = true
  · rw [if_pos h8]
    first
      | exact Or.inl rfl
      | exact Or.inr (fun r hr => absurd hr (List.not_mem_nil r))
      | ((try dsimp only [])
         repeat' split
         all_goals
           first
             | exact Or.inl rfl
             | exact Or.inr (fun r hr => absurd hr (List.not_mem_nil r)))
  rw [if_neg h8]
  by_cases h9 : (pyEqInt code 121) = true
  · rw [if_pos h9]
    first
      | exact Or.inl rfl
      | exact Or.inr (fun r hr => absurd hr (List.not_mem_nil r))
      | ((try dsimp only [])
         repeat' split
         all_goals
           first
             | exact Or.inl rfl
             | exact Or.inr (fun r hr => absurd hr (List.not_mem_nil r)))
  rw [if_neg h9]
  by_cases h10 : (pyEqInt code 122) = true
  · rw [if_pos h10]
    first
      | exact Or.inl rfl
      | exact Or.inr (fun r hr => absurd hr (List.not_mem_nil r))
      | ((try dsimp only [])
         repeat' split
         all_goals
           first
             | exact Or.inl rfl
             | exact Or.inr (fun r hr => absurd hr (List.not_mem_nil r)))
  rw [if_neg h10]
  by_cases h11 : (pyEqInt code 123) = true
  · rw [if_pos h11]
    first
      | exact Or.inl rfl
      | exact Or.inr (fun r hr => absurd hr (List.not_mem_nil r))
      | ((try dsimp only [])
         repeat' split
         all_goals
           first
             | exact Or.inl rfl
             | exact Or.inr (fun r hr => absurd hr (List.not_mem_nil r)))
  rw [if_neg h11]
  by_cases h12 : (pyEqInt code 125) = true
  · rw [if_pos h12]
    first
      | exact Or.inl rfl
      | exact Or.inr (fun r hr => absurd hr (List.not_mem_nil r))
      | ((try dsimp only [])
         repeat' split
         all_goals
           first
             | exact Or.inl rfl
             | exact Or.inr (fun r hr => absurd hr (List.not_mem_nil r)))
  rw [if_neg h12]
  by_cases h13 : (pyEqInt code 126) = true
  · rw [if_pos h13]
    try dsimp only []
    repeat' split
    all_goals
      first
        | exact Or.inr (fun r hr => absurd hr (List.not_mem_nil r))
        | (rename_i r2 heq
           exact Or.inr (fun r hr => by
             rw [List.mem_singleton.mp hr]
             exact notBattle_of_kind (fmt_item_ref_kind _ _ _ _ r2 heq) rfl))
  rw [if_neg h13]
  by_cases h14 : (pyEqInt code 127) = true
  · rw [if_pos h14]
    try dsimp only []
    repeat' split
    all_goals
      first
        | exact Or.inr (fun r hr => absurd hr (List.not_mem_nil r))
        | (rename_i r2 heq
           exact Or.inr (fun r hr => by
             rw [List.mem_singleton.mp hr]
             exact notBattle_of_kind (fmt_item_ref_kind _ _ _ _ r2 heq) rfl))
  rw [if_neg h14]
  by_cases h15 : (pyEqInt code 128) = true
  · rw [if_pos h15]
    try dsimp only []
    repeat' split
    all_goals
      first
        | exact Or.inr (fun r hr => absurd hr (List.not_mem_nil r))
        | (rename_i r2 heq
           exact Or.inr (fun r hr => by
             rw [List.mem_singleton.mp hr]
             exact notBattle_of_kind (fmt_item_ref_kind _ _ _ _ r2 heq) rfl))
  rw [if_neg h15]
  by_cases h16 : (pyEqInt code 201) = true
  · rw [if_pos h16]
    try dsimp only []
    repeat' split
    all_goals
      first
        | exact Or.inr (fun r hr => absurd hr (List.not_mem_nil r))
        | (rename_i r2 heq
           exact Or.inr (fun r hr => by
             rw [List.mem_singleton.mp hr]
             exact notBattle_of_kind (fmt_transfer_ref_kind _ _ r2 heq) rfl))
  rw [if_neg h16]
  by_cases h17 : (pyEqInt code 103) = true
  · rw [if_pos h17]
    first
      | exact Or.inl rfl
      | exact Or.inr (fun r hr => absurd hr (List.not_mem_nil r))
      | ((try dsimp only [])
         repeat' split
         all_goals
           first
             | exact Or.inl rfl
             | exact Or.inr (fun r hr => absurd hr (List.not_mem_nil r)))
  rw [if_neg h17]
  by_cases h18 : (pyEqInt code 104) = true
  · rw [if_pos h18]
    first
      | exact Or.inl rfl
      | exact Or.inr (fun r hr => absurd hr (List.not_mem_nil r))
      | ((try dsimp only [])
         repeat' split
         all_goals
           first
             | exact Or.inl rfl
             | exact Or.inr (fun r hr => absurd hr (List.not_mem_nil r)))
  rw [if_neg h18]
  by_cases h19 : (pyEqInt code 105) = true
  · rw [if_pos h19]
    first
      | exact Or.inl rfl
      | exact Or.inr (fun r hr => absurd hr (List.not_mem_nil r))
      | ((try dsimp only [])
         repeat' split
         all_goals
           first
             | exact Or.inl rfl
             | exact Or.inr (fun r hr => absurd hr (List.not_mem_nil r)))
  rw [if_neg h19]
  by_cases h20 : (pyEqInt code 405) = true
  · rw [if_pos h20]
    first
      | exact Or.inl rfl
      | exact Or.inr (fun r hr => absurd hr (List.not_mem_nil r))
      | ((try dsimp only [])
         repeat' split
         all_goals
           first
             | exact Or.inl rfl
             | exact Or.inr (fun r hr => absurd hr (List.not_mem_nil r)))
  rw [if_neg h20]
  by_cases h21 : (pyEqInt code 112) = true
  · rw [if_pos h21]
    first
      | exact Or.inl rfl
      | exact Or.inr (fun r hr => absurd hr (List.not_mem_nil r))
      | ((try dsimp only [])
         repeat' split
         all_goals
           first
             | exact Or.inl rfl
             | exact Or.inr (fun r hr => absurd hr (List.not_mem_nil r)))
  rw [if_neg h21]
  by_cases h22 : (pyEqInt code 413) = true
  · rw [if_pos h22]
    first
      | exact Or.inl rfl
      | exact Or.inr (fun r hr => absurd hr (List.not_mem_nil r))
      | ((try dsimp only [])
         repeat' split
         all_goals
           first
             | exact Or.inl rfl
             | exact Or.inr (fun r hr => absurd hr (List.not_mem_nil r)))
  rw [if_neg h22]
  by_cases h23 : (pyEqInt code 113) = true
  · rw [if_pos h23]
    first
      | exact Or.inl rfl
      | exact Or.inr (fun r hr => absurd hr (List.not_mem_nil r))
      | ((try dsimp only [])
         repeat' split
         all_goals
           first
             | exact Or.inl rfl
             | exact Or.inr (fun r hr => absurd hr (List.not_mem_nil r)))
  rw [if_neg h23]
  by_cases h24 : (pyEqInt code 115) = true
  · rw [if_pos h24]
    first
      | exact Or.inl rfl
      | exact Or.inr (fun r hr => absurd hr (List.not_mem_nil r))
      | ((try dsimp only [])
         repeat' split
         all_goals
           first
             | exact Or.inl rfl
             | exact Or.inr (fun r hr => absurd hr (List.not_mem_nil r)))
  rw [if_neg h24]
  by_cases h25 : (pyEqInt code 124) = true
  · rw [if_pos h25]
    first
      | exact Or.inl rfl
      | exact Or.inr (fun r hr => absurd hr (List.not_mem_nil r))
      | ((try dsimp only [])
         repeat' split
         all_goals
           first
             | exact Or.inl rfl
             | exact Or.inr (fun r hr => absurd hr (List.not_mem_nil r)))
  rw [if_neg h25]
  by_cases h26 : (pyEqInt code 129) = true
  · rw [if_pos h26]
    first
      | exact Or.inl rfl
      | exact Or.inr (fun r hr => absurd hr (List.not_mem_nil r))
      | ((try dsimp only [])
         repeat' split
         all_goals
           first
             | exact Or.inl rfl
             | exact Or.inr (fun r hr => absurd hr (List.not_mem_nil r)))
  rw [if_neg h26]
  exact translate_misc_battleOk st code p

/-- `_translate`: a battle-kind reference only occurs on a `"cmd-battle"`
line. -/
theorem translate_refs_battle (st : InterpState) (code p : Val) :
    ∀ r ∈ (translate st code p).refs, isBattleRef r = true →
      (translate st code p).cls = "cmd-battle" := by
  intro r hr hb
  rcases translate_battleOk st code p with h | h
  · exact h
  · rw [h r hr] at hb
    exact Bool.noConfusion hb

/-- Marking a battle-kind reference makes it special with the plot
reason. -/
theorem markOneRef_marks (ref : Val) (h : isBattleRef ref = true) :
    isMarkedSpecial (markStoryRefs.markOneRef ref) = true := by
  cases ref with
  | dict kvs =>
      unfold markStoryRefs.markOneRef
      dsimp only []
      rw [show (pyGetD (Val.dict kvs) "kind" .none == Val.str "troop" ||
          pyGetD (Val.dict kvs) "kind" .none == Val.str "encounter") =
          isBattleRef (Val.dict kvs) from rfl, h]
      rw [if_pos rfl]
      simp only [pySetKey]
      unfold isMarkedSpecial
      unfold pyGetD
      dsimp only []
      rw [assocGet_assocSet_self,
          assocGet_assocSet_ne _ "specialReason" "special" _ (by rfl),
          assocGet_assocSet_self]
      rfl
  | none => exact Bool.noConfusion h
  | bool b => exact Bool.noConfusion h
  | int n => exact Bool.noConfusion h
  | str s => exact Bool.noConfusion h
  | list xs => exact Bool.noConfusion h

/-- Marking leaves non-battle references unchanged. -/
theorem markOneRef_id (r0 : Val) (h : isBattleRef r0 = false) :
    markStoryRefs.markOneRef r0 = r0 := by
  unfold markStoryRefs.markOneRef
  dsimp only []
  rw [show (pyGetD r0 "kind" .none == Val.str "troop" ||
      pyGetD r0 "kind" .none == Val.str "encounter") = isBattleRef r0 from rfl, h]
  rfl

/-- Every line of `_interpret_commands` carries the class and references
of some `_translate` result. -/
theorem interpret_commands_line (st : InterpState) (cmds : List Val) :
    ∀ l ∈ interpret_commands st cmds, ∃ c q,
      l.cls = (translate st c q).cls ∧ l.refs = (translate st c q).refs := by
  suffices h : ∀ (cs : List Val) (acc : List CmdLine),
      (∀ l ∈ acc, ∃ c q,
        l.cls = (translate st c q).cls ∧ l.refs = (translate st c q).refs) →
      ∀ l ∈ cs.foldl (fun lines cmd =>
          let code := pyGetD cmd "code" (.int 0)
          let params := pyGetD cmd "parameters" (.list [])
          let indent := pyGetD cmd "indent" (.int 0)
          let r := translate st code params
          match r.text with
          | some t =>
              if t ≠ "" then
                lines ++ [{ indent := indent, text := t, cls := r.cls, refs := r.refs }]
              else lines
          | Option.none => lines) acc, ∃ c q,
        l.cls = (translate st c q).cls ∧ l.refs = (translate st c q).refs by
    intro l hl
    exact h cmds [] (by intro l2 hl2; exact absurd hl2 (List.not_mem_nil l2)) l hl
  intro cs
  induction cs with
  | nil => intro acc hacc l hl; exact hacc l hl
  | cons cmd rest ih =>
      intro acc hacc l hl
      rw [List.foldl_cons] at hl
      refine ih _ ?_ l hl
      intro l2 hl2
      dsimp only [] at hl2
      cases htx : (translate st (pyGetD cmd "code" (.int 0))
          (pyGetD cmd "parameters" (.list []))).text with
      | none =>
          rw [htx] at hl2
          dsimp only [] at hl2
          exact hacc l2 hl2
      | some t =>
          rw [htx] at hl2
          dsimp only [] at hl2
          split_ifs at hl2 with ht
          · rcases List.mem_append.mp hl2 with hmem | hmem
            · exact hacc l2 hmem
            · have hl2eq := List.mem_singleton.mp hmem
              exact ⟨pyGetD cmd "code" (.int 0), pyGetD cmd "parameters" (.list []),
                by rw [hl2eq], by rw [hl2eq]⟩
          · exact hacc l2 hl2

/-- C6: on every story page (a page whose command list contains a
dialogue, choice, scrolling-text or scripting opcode) every battle
cross-reference of kind `"troop"` or `"encounter"` in the interpreted
output is marked special/plot; the page with a show-text command followed
by a fixed-troop battle command marks that battle's troop reference; and
on the page without any such opcode no reference is marked. -/
theorem c6_story_page_marking :
    (∀ (st : InterpState) (pageData : Val) (pageIndex : Nat),
        is_story_page (pyGetD pageData "list" (.list [])) = true →
        ∀ line ∈ (interpret_page st pageData pageIndex).commands,
          ∀ ref ∈ line.refs, isBattleRef ref = true →
            isMarkedSpecial ref = true) ∧
    (is_story_page (pyGetD exStoryPage "list" (.list [])) = true ∧
      ((interpret_page exState exStoryPage 0).commands.any fun line =>
        line.refs.any fun ref =>
          (pyGetD ref "kind" .none == Val.str "troop") &&
          isMarkedSpecial ref) = true) ∧
    (is_story_page (pyGetD exPlainPage "list" (.list [])) = false ∧
      ((interpret_page exState exPlainPage 0).commands.all fun line =>
        line.refs.all fun ref => !(isMarkedSpecial ref)) = true) := by
  refine ⟨?_, by decide, by decide⟩
  intro st pageData pageIndex hstory line hline ref href hb
  unfold interpret_page at hline
  dsimp only [] at hline
  rw [if_pos hstory] at hline
  unfold markStoryRefs at hline
  rcases List.mem_map.mp hline with ⟨l0, hl0, hfl⟩
  by_cases hcls : l0.cls = "cmd-battle"
  · rw [if_pos hcls] at hfl
    subst hfl
    have href2 : ref ∈ l0.refs.map markStoryRefs.markOneRef := by
      simpa using href
    rcases List.mem_map.mp href2 with ⟨r0, hr0, hmr⟩
    by_cases hb0 : isBattleRef r0 = true
    · rw [← hmr]
      exact markOneRef_marks r0 hb0
    · have hb0f : isBattleRef r0 = false := by
        cases hbv : isBattleRef r0 with
        | true => exact absurd hbv hb0
        | false => rfl
      rw [markOneRef_id r0 hb0f] at hmr
      subst hmr
      exact absurd hb hb0
  · rw [if_neg hcls] at hfl
    subst hfl
    obtain ⟨c, q, hcl, hrf⟩ := interpret_commands_line st _ l0 hl0
    have hbat := translate_refs_battle st c q ref (hrf ▸ href) hb
    exact absurd (hcl.trans hbat) hcls

/-- C6, witness: the troop reference on the battle line of the story page
(show-text then fixed-troop battle) is marked special/plot. -/
theorem c6_story_page_marking_witness :
    is_story_page (pyGetD exStoryPage "list" (.list [])) = true ∧
    isMarkedSpecial
      (((interpret_page exState exStoryPage 0).commands.get
          ⟨1, by decide⟩).refs.get ⟨0, by decide⟩) = true := by
  constructor
  · rfl
  · exact c6_story_page_marking.1 exState exStoryPage 0 (by rfl)
      _ (List.get_mem _ _ _) _ (List.get_mem _ _ _) (by decide)

end RpgViewer
